import Mathlib

/-!
# delv: a shallow embedding of `bin/delv/delv.c`

(The second part of the definitions, further down, embeds parts of
`bin/dig/dighost.c`.)

The module-level variables of `delv.c` become the record `Globals`; every C
function that reads or writes them becomes a Lean function that takes and
returns the record.  C strings are lists of characters (the bytes before the
terminating NUL).  Calls that leave the program (`exit`, `fatal`, `usage`)
are the error side of `Except Exit`.  Library routines that live outside
`delv.c` are fields of the record `Env`.
-/

set_option linter.unusedTactic false

namespace Delv

/-- A C string: the characters before the terminating NUL. -/
abbrev CStr := List Char

/-- The NUL character that ends a C string. -/
def NUL : Char := Char.ofNat 0

/-- The bytes of the array that holds a C string: its characters, then NUL. -/
def cbytes (s : CStr) : List Char := s ++ [NUL]

/-- The `isc_result_t` codes that `delv.c` tells apart. -/
inductive Result where
  | success
  | nospace
  | nomore
  | failure
  | range
  | unexpectedend
  | badhex
  | badbase64
  | filenotfound
  | baddottedquad
  | nocrypto
  | unsupportedalg
  | other (code : Nat)
deriving DecidableEq, Repr

/-- How the process ends when a function does not return: the exit status
and the last line written to stderr. -/
structure Exit where
  code : Nat
  message : String
deriving DecidableEq, Repr

deriving instance DecidableEq for Except

/-! ## Reverse-lookup names (`append_str`, `reverse_octets`, `get_reverse`) -/

/-- The output area `reverse[0 .. len)`: `cap` is `end - reverse` and `data`
are the bytes written so far, so that the cursor `*p` is
`reverse + data.length`. -/
structure OutBuf where
  cap : Nat
  data : List Char
deriving DecidableEq, Repr

/-- The C function `append_str(text, len, p, end)`; `text` is the array the
pointer designates (characters, then NUL). -/
def append_str (text : List Char) (len : Nat) (b : OutBuf) : Result × OutBuf :=
  if len > b.cap - b.data.length then
    (Result.nospace, b)
  else
    (Result.success, { b with data := b.data ++ text.take len })

/-- The C function `strchr(s, c)` for `c` other than NUL: the offset of the
first `c` in `s`, or `none` for a null pointer. -/
def strchr : CStr → Char → Option Nat
  | [], _ => none
  | x :: xs, c => if x = c then some 0 else (strchr xs c).map (· + 1)

/-- The C function `reverse_octets(in, p, end)`, with the depth of the
recursion bounded by `fuel`; `none` when the bound is reached. -/
def reverse_octetsF : Nat → CStr → OutBuf → Option (Result × OutBuf)
  | 0, _, _ => none
  | fuel + 1, inp, b =>
    match strchr inp '.' with
    | some dot =>
      match reverse_octetsF fuel (inp.drop (dot + 1)) b with
      | none => none
      | some (Result.success, b1) =>
        match append_str (cbytes ".".toList) 1 b1 with
        | (Result.success, b2) => some (append_str (cbytes inp) dot b2)
        | (result, b2) => some (result, b2)
      | some (result, b1) => some (result, b1)
    | none => some (append_str (cbytes inp) inp.length b)

theorem strchr_lt_length {s : CStr} {c : Char} {i : Nat} (h : strchr s c = some i) :
    i < s.length := by
  induction s generalizing i with
  | nil => simp [strchr] at h
  | cons x xs ih =>
    simp only [strchr] at h
    split at h
    · simp only [Option.some.injEq] at h
      simp [← h]
    · simp only [Option.map_eq_some'] at h
      obtain ⟨j, hj, rfl⟩ := h
      have := ih hj
      simp only [List.length_cons]
      omega

/-- The recursion of `reverse_octets` ends: every call strips at least one
character, so more levels than characters always suffice. -/
theorem reverse_octetsF_ne_none (fuel : Nat) (inp : CStr) (b : OutBuf)
    (hf : inp.length < fuel) : reverse_octetsF fuel inp b ≠ none := by
  induction fuel generalizing inp b with
  | zero => omega
  | succ fuel ih =>
    unfold reverse_octetsF
    cases hs : strchr inp '.' with
    | none => simp
    | some i =>
      have hi := strchr_lt_length hs
      have hrec := ih (inp.drop (i + 1)) b (by simp only [List.length_drop]; omega)
      simp only
      split
      · rename_i heq
        exact absurd heq hrec
      · split <;> simp
      · simp

/-- The C function `reverse_octets(in, p, end)`. -/
def reverse_octets (inp : CStr) (b : OutBuf) : Result × OutBuf :=
  match h : reverse_octetsF (inp.length + 1) inp b with
  | some r => r
  | none => absurd h (reverse_octetsF_ne_none _ inp b (Nat.lt_succ_self _))

/-! ## Module-level state -/

/-- A DNS name as a list of labels, most specific first. -/
abbrev DnsName := List CStr

/-- Modelled from the spec: the comparison `dns_name_equal` of the DNS
library (absent from the sources at hand); "canonical comparison is
label-wise, case-insensitive". -/
def dns_name_equal (a b : DnsName) : Bool :=
  a.map (fun l => l.map Char.toLower) == b.map (fun l => l.map Char.toLower)

/-- The ten values of `dns_trust_t`, lowest first. -/
inductive Trust where
  | none
  | pending_additional
  | pending_answer
  | additional
  | glue
  | answer
  | authauthority
  | authanswer
  | secure
  | ultimate
deriving DecidableEq, Repr

/-- Modelled from the spec: the type codes of `dns/rdatatype.h` (absent from
the sources at hand) that `delv.c` names, with their registered values. -/
def dns_rdatatype_none : Nat := 0

/-- Type code of A. -/
def dns_rdatatype_a : Nat := 1

/-- Type code of NS. -/
def dns_rdatatype_ns : Nat := 2

/-- Type code of PTR. -/
def dns_rdatatype_ptr : Nat := 12

/-- Type code of DS. -/
def dns_rdatatype_ds : Nat := 43

/-- Type code of RRSIG. -/
def dns_rdatatype_rrsig : Nat := 46

/-- Type code of DNSKEY. -/
def dns_rdatatype_dnskey : Nat := 48

/-- Type code of IXFR. -/
def dns_rdatatype_ixfr : Nat := 251

/-- Type code of AXFR. -/
def dns_rdatatype_axfr : Nat := 252

/-- Class code of IN. -/
def dns_rdataclass_in : Nat := 1

/-- The rdata handed to `dns_client_addtrustedkey`, as the structure it is
built from. -/
inductive Rdata where
  | dnskey (flags protocol algorithm : Nat) (data : List Nat)
  | ds (key_tag algorithm digest_type : Nat) (digest : List Nat)
deriving DecidableEq, Repr

/-- A socket address: the family (`AF_INET` is 2, `AF_INET6` is 10 in the
model), the address octets and the port. -/
structure Sockaddr where
  family : Nat
  addr : List Nat
  port : Nat
deriving DecidableEq, Repr

/-- The state of the `dns_client_t` that `delv.c` can observe: the trust
anchors added so far, each with its rdata type and owner name, and the
servers set. -/
structure Client where
  trustedkeys : List (Nat × DnsName × Rdata)
  servers : List Sockaddr
deriving DecidableEq, Repr

/-- The address family `AF_UNSPEC`. -/
def AF_UNSPEC : Nat := 0

/-- The address family `AF_INET`. -/
def AF_INET : Nat := 2

/-- The address family `AF_INET6`. -/
def AF_INET6 : Nat := 10

/-- One entry of a trust-anchor list, as the configuration parser hands it
to `key_fromconfig`: the tuple fields `name`, `anchortype` (void when
absent), `rdata1`, `rdata2`, `rdata3` and `data`. -/
structure KeyEntry where
  name : CStr
  anchortype : Option CStr
  rdata1 : Nat
  rdata2 : Nat
  rdata3 : Nat
  data : CStr
deriving DecidableEq, Repr

/-- The parsed `bindkeys` object: the three clauses `setup_dnsseckeys`
looks up, each a list of key lists when present. -/
structure BindKeys where
  trusted_keys : Option (List (List KeyEntry))
  managed_keys : Option (List (List KeyEntry))
  trust_anchors : Option (List (List KeyEntry))
deriving DecidableEq, Repr

/-- The `DNS_STYLEFLAG_*` constants of the DNS library that `setup_style`
combines. -/
structure StyleFlags where
  REL_OWNER : Nat
  YAML : Nat
  COMMENT : Nat
  UNKNOWNFORMAT : Nat
  RRCOMMENT : Nat
  NO_TTL : Nat
  NO_CLASS : Nat
  NOCRYPTO : Nat
  MULTILINE : Nat

/-- The static variables of `delv.c`, followed by the text written to the
two output streams and the configuration sources parsed so far. -/
structure Globals where
  server : Option CStr
  port : CStr
  srcaddr4 : Option (List Nat × Nat)
  srcaddr6 : Option (List Nat × Nat)
  curqname : Option CStr
  qname : Option CStr
  classset : Bool
  qtype : Nat
  typeset : Bool
  styleflags : Nat
  splitwidth : Nat
  showcomments : Bool
  showdnssec : Bool
  showtrust : Bool
  rrcomments : Bool
  noclass : Bool
  nocrypto : Bool
  nottl : Bool
  multiline : Bool
  short_form : Bool
  print_unknown_format : Bool
  yaml : Bool
  resolve_trace : Bool
  validator_trace : Bool
  message_trace : Bool
  use_ipv4 : Bool
  use_ipv6 : Bool
  cdflag : Bool
  no_sigs : Bool
  root_validation : Bool
  use_tcp : Bool
  anchorfile : Option CStr
  trust_anchor : Option CStr
  num_keys : Int
  anchor_name : Option DnsName
  loglevel : Nat
  /-- The static `first` of `printdata`. -/
  printdata_first : Bool
  /-- The static `trust` of `printdata`. -/
  printdata_trust : Trust
  /-- Lines written to stderr, through `warn`, `fprintf` or the log. -/
  stderr : List String
  /-- Text written to stdout. -/
  stdout : List String
  /-- The sources handed to the configuration parser: a file name, or
  `none` for the built-in anchors. -/
  parsed : List (Option CStr)
deriving DecidableEq, Repr

/-- The initial values of the static variables. -/
def Globals.init : Globals where
  server := none
  port := "53".toList
  srcaddr4 := none
  srcaddr6 := none
  curqname := none
  qname := none
  classset := false
  qtype := dns_rdatatype_none
  typeset := false
  styleflags := 0
  splitwidth := 0xffffffff
  showcomments := true
  showdnssec := true
  showtrust := true
  rrcomments := true
  noclass := false
  nocrypto := false
  nottl := false
  multiline := false
  short_form := false
  print_unknown_format := false
  yaml := false
  resolve_trace := false
  validator_trace := false
  message_trace := false
  use_ipv4 := true
  use_ipv6 := true
  cdflag := false
  no_sigs := false
  root_validation := true
  use_tcp := false
  anchorfile := none
  trust_anchor := none
  num_keys := 0
  anchor_name := none
  loglevel := 0
  printdata_first := true
  printdata_trust := Trust.none
  stderr := []
  stdout := []
  parsed := []

/-- The fields of a `dns_rdataset_t` that `delv.c` reads: whether it is
associated, the bit `DNS_RDATASETATTR_NEGATIVE` of `attributes`, the trust
level, the type, and the records, each named by its text. -/
structure Rdataset where
  associated : Bool
  negative : Bool
  trust : Trust
  rdtype : Nat
  rdatas : List CStr
deriving DecidableEq, Repr

/-- A result code other than `ISC_R_SUCCESS` and `ISC_R_NOSPACE`. -/
abbrev HardError := { e : Result // e ≠ Result.success ∧ e ≠ Result.nospace }

/-- Library routines used by `delv.c` whose code is outside it. -/
structure Env where
  /-- The call `inet_pton(AF_INET6, value, ..)`: the 16 octets, if valid. -/
  inet_pton6 : CStr → Option (List Nat)
  /-- The call `inet_pton(AF_INET, value, ..)`: the 4 octets, if valid. -/
  inet_pton4 : CStr → Option (List Nat)
  /-- The calls `dns_byaddr_createptrname` then `dns_name_format`. -/
  createptrname : List Nat → Except Result CStr
  /-- The call `dns_rdatatype_fromtext`. -/
  rdatatype_fromtext : CStr → Option Nat
  /-- The call `dns_rdataclass_fromtext`. -/
  rdataclass_fromtext : CStr → Option Nat
  /-- The call `isc_parse_uint32(&n, value, 10)`. -/
  isc_parse_uint32 : CStr → Except Result Nat
  /-- Whether `isc_net_probeipv4()` succeeds. -/
  probeipv4 : Bool
  /-- Whether `isc_net_probeipv6()` succeeds. -/
  probeipv6 : Bool
  /-- The constant `DNS_NAME_MAXTEXT` of the DNS library. -/
  DNS_NAME_MAXTEXT : Nat
  /-- The string `PACKAGE_VERSION`. -/
  PACKAGE_VERSION : String
  /-- The indeterminate content of the local variable `rdclass` of
  `dash_option`, read after a failed `dns_rdataclass_fromtext`. -/
  stack_rdclass : Nat
  /-- The call `dns_name_fromtext` made by `convert_name`. -/
  dns_name_fromtext : CStr → Except Result DnsName
  /-- The call `isc_hex_decodestring`: the decoded octets. -/
  isc_hex_decodestring : CStr → Except Result (List Nat)
  /-- The call `isc_base64_decodestring`: the decoded octets. -/
  isc_base64_decodestring : CStr → Except Result (List Nat)
  /-- The call `dns_rdata_fromstruct` on the structure built from an anchor. -/
  dns_rdata_fromstruct : Rdata → Result
  /-- The result of `dns_client_addtrustedkey` for the client, rdata type,
  owner name and rdata. -/
  dns_client_addtrustedkey : Client → Nat → DnsName → Rdata → Result
  /-- The result of `cfg_parser_create`. -/
  cfg_parser_create : Result
  /-- Whether `access(file, R_OK)` is 0. -/
  access_R_OK : CStr → Bool
  /-- The call `cfg_parse_file` on an anchor file. -/
  cfg_parse_file : CStr → Except Result BindKeys
  /-- The call `cfg_parse_buffer` on the built-in `TRUST_ANCHORS` text. -/
  cfg_parse_builtin : Except Result BindKeys
  /-- The `DNS_STYLEFLAG_*` constants. -/
  styleflag : StyleFlags
  /-- The result of `dns_master_stylecreate` for the flags, the six column
  and width arguments and the split width. -/
  dns_master_stylecreate : Nat → List Nat → Nat → Result
  /-- The result of `isc_log_usechannel` for a channel name. -/
  isc_log_usechannel : String → Result
  /-- The result of `dst_lib_init`. -/
  dst_lib_init : Result
  /-- The result of `dns_client_create`. -/
  dns_client_create : Result
  /-- The call `getaddrinfo(server, port, hints, &res)` for the family in
  `hints`: the error code, or the addresses found. -/
  getaddrinfo : CStr → CStr → Nat → Except Nat (List Sockaddr)
  /-- The call `irs_resconf_load` on `/etc/resolv.conf`: the result and the
  name servers of the configuration object. -/
  irs_resconf_load : Result × List Sockaddr
  /-- The result of `dns_client_setservers` for a server list. -/
  dns_client_setservers : List Sockaddr → Result
  /-- The call `dns_rdata_tofmttext` of `printdata` on a record, with the
  style flags and the split width: the text it writes when the target has
  room for it, or the result with which it fails; with too small a target
  the call gives `ISC_R_NOSPACE`, which the model decides by the lengths. -/
  dns_rdata_tofmttext : CStr → Nat → Nat → Except HardError CStr
  /-- The call `dns_master_rdatasettotext` of `printdata` on the owner name
  and the rdataset, with the style made of the flags, the columns and the
  split width, and with or without the YAML indent: the text it writes when
  the target has room for it, or the result with which it fails. -/
  dns_master_rdatasettotext :
    DnsName → Rdataset → Nat → List Nat → Nat → Bool → Except HardError CStr

/-- An environment in which no text is an address, a type or a class, every
text parses as the number 5, every name is split at its dots, the decoders
give as many zero octets as the text encodes, a record is written as the
text that names it, and every other library call succeeds with nothing to
report. -/
def bareEnv : Env where
  inet_pton6 := fun _ => none
  inet_pton4 := fun _ => none
  createptrname := fun _ => Except.ok []
  rdatatype_fromtext := fun _ => none
  rdataclass_fromtext := fun _ => none
  isc_parse_uint32 := fun _ => Except.ok 5
  probeipv4 := true
  probeipv6 := true
  DNS_NAME_MAXTEXT := 1023
  PACKAGE_VERSION := "9.19"
  stack_rdclass := 0
  dns_name_fromtext := fun t => Except.ok (t.splitOn '.')
  isc_hex_decodestring := fun t => Except.ok (List.replicate (t.length / 2) 0)
  isc_base64_decodestring := fun t => Except.ok (List.replicate (t.length / 4 * 3) 0)
  dns_rdata_fromstruct := fun _ => Result.success
  dns_client_addtrustedkey := fun _ _ _ _ => Result.success
  cfg_parser_create := Result.success
  access_R_OK := fun _ => true
  cfg_parse_file := fun _ => Except.ok ⟨none, none, none⟩
  cfg_parse_builtin := Except.ok ⟨none, none, none⟩
  styleflag := ⟨1, 2, 4, 8, 16, 32, 64, 128, 256⟩
  dns_master_stylecreate := fun _ _ _ => Result.success
  isc_log_usechannel := fun _ => Result.success
  dst_lib_init := Result.success
  dns_client_create := Result.success
  getaddrinfo := fun _ _ _ => Except.ok []
  irs_resconf_load := (Result.success, [])
  dns_client_setservers := fun _ => Result.success
  dns_rdata_tofmttext := fun rdata _ _ => Except.ok rdata
  dns_master_rdatasettotext := fun _ rdataset _ _ _ _ =>
    Except.ok (rdataset.rdatas.map (fun rdata => rdata ++ ['\n'])).flatten

/-- The C function `get_reverse(reverse, len, value, strict)`: the result
code and the bytes written to `reverse`. -/
def get_reverse (env : Env) (len : Nat) (value : CStr) (strict : Bool) :
    Result × List Char :=
  match env.inet_pton6 value with
  | some addr =>
    match env.createptrname addr with
    | Except.error result => (result, [])
    | Except.ok text => (Result.success, (cbytes text).take len)
  | none =>
    let b : OutBuf := { cap := len, data := [] }
    if strict && (env.inet_pton4 value).isNone then
      (Result.baddottedquad, b.data)
    else
      match reverse_octets value b with
      | (Result.success, b1) =>
        match append_str (cbytes ".in-addr.arpa.".toList) 15 b1 with
        | (Result.success, b2) => (Result.success, b2.data)
        | (result, b2) => (result, b2.data)
      | (result, b1) => (result, b1.data)


/-- The C function `warn(format, ...)`: one line on stderr. -/
def warn (msg : String) (g : Globals) : Globals :=
  { g with stderr := g.stderr ++ ["warning: " ++ msg] }

/-- The C function `fatal(format, ...)`: a line on stderr, then `exit(1)`. -/
def fatal {α : Type} (msg : String) : Except Exit α :=
  Except.error { code := 1, message := msg }

/-- The C function `usage()`, reached after `what` was written to stderr:
it prints the usage text and calls `exit(1)`. -/
def usage {α : Type} (what : String) : Except Exit α :=
  Except.error { code := 1, message := what }

/-- The text of an `isc_result_t`, as `isc_result_totext` gives it; only
its presence in the output matters here. -/
def isc_result_totext : Result → String
  | Result.success => "success"
  | Result.nospace => "ran out of space"
  | Result.nomore => "no more"
  | Result.failure => "failure"
  | Result.range => "out of range"
  | Result.unexpectedend => "unexpected end of input"
  | Result.badhex => "bad hex encoding"
  | Result.badbase64 => "bad base64 encoding"
  | Result.filenotfound => "file not found"
  | Result.baddottedquad => "bad dotted quad"
  | Result.nocrypto => "crypto failure"
  | Result.unsupportedalg => "algorithm is unsupported"
  | Result.other _ => "unexpected error"

/-- The C function `parse_uint(uip, value, max, desc)`: the number on
success; on failure the result code, with the complaint on stdout. -/
def parse_uint (env : Env) (value : CStr) (max : Nat) (desc : String) (g : Globals) :
    Except Result Nat × Globals :=
  let result : Except Result Nat :=
    match env.isc_parse_uint32 value with
    | Except.ok n => if n > max then Except.error Result.range else Except.ok n
    | Except.error e => Except.error e
  match result with
  | Except.error e =>
    (Except.error e,
      { g with stdout := g.stdout ++
          ["invalid " ++ desc ++ " '" ++ String.mk value ++ "': " ++ isc_result_totext e ++ "\n"] })
  | Except.ok n => (Except.ok n, g)

/-! ## Plus options (`plus_option`) -/

/-- The C function `strtok_r(s, delim, &last)`: the token, if any, and the
new value of `last`. -/
def strtok_r (s : CStr) (delim : CStr) : Option CStr × CStr :=
  let s1 := s.dropWhile (fun c => delim.contains c)
  if s1 = [] then
    (none, [])
  else
    (some (s1.takeWhile (fun c => !delim.contains c)),
      (s1.dropWhile (fun c => !delim.contains c)).drop 1)

/-- Whether `strncasecmp(a, b, n)` is 0. -/
def strncasecmp_eq (a b : CStr) (n : Nat) : Bool :=
  (a.take n).map Char.toLower == (b.take n).map Char.toLower

/-- Whether `strcasecmp(a, b)` is 0. -/
def strcasecmp_eq (a b : CStr) : Bool :=
  a.map Char.toLower == b.map Char.toLower

/-- The macro `FULLCHECK(A)` of `plus_option`: true when it lets `cmd`
through, false when it jumps to `invalid_option`. -/
def FULLCHECK (cmd : CStr) (A : String) : Bool :=
  !(cmd.length ≥ A.toList.length + 1 || !strncasecmp_eq cmd A.toList cmd.length)

/-- The label `invalid_option` of `plus_option`; `option` is the text as
`strtok_r` left it. -/
def plus_invalid_option {α : Type} (option : CStr) : Except Exit α :=
  usage ("Invalid option: +" ++ String.mk option ++ "\n")

/-- The conversion `%d` applied to a `uint32_t`. -/
def fmt_d (v : Nat) : String :=
  if v < 2 ^ 31 then toString v else "-" ++ toString (2 ^ 32 - v)

/-- The two adjustments of `splitwidth` in the `split` case of
`plus_option`: rounding up to a multiple of 4 with a warning, then adding 3
to a non-zero width; the arithmetic is that of `uint32_t`. -/
def split_adjust (g : Globals) : Globals :=
  let g1 : Globals :=
    if g.splitwidth % 4 != 0 then
      let w := (((g.splitwidth + 3) % 2 ^ 32) / 4 * 4) % 2 ^ 32
      warn ("split must be a multiple of 4; adjusting to " ++ fmt_d w)
        { g with splitwidth := w }
    else g
  if g1.splitwidth != 0 then { g1 with splitwidth := (g1.splitwidth + 3) % 2 ^ 32 } else g1

/-- The `split` case of `plus_option`, after `FULLCHECK`.  When
`parse_uint` fails, `splitwidth` keeps its old value, is adjusted all the
same, and the program then ends through `fatal`. -/
def plus_option_split (env : Env) (shown : CStr) (state : Bool) (value : Option CStr)
    (g : Globals) : Except Exit Globals :=
  if value.isSome && !state then
    plus_invalid_option shown
  else if !state then
    Except.ok { g with splitwidth := 0 }
  else
    match value with
    | none => Except.ok g
    | some v =>
      match parse_uint env v 1023 "split" g with
      | (Except.ok n, g1) => Except.ok (split_adjust { g1 with splitwidth := n })
      | (Except.error _, _) => fatal "Couldn't parse split"

/-- The `switch (cmd[0])` of `plus_option`; `shown` is the option text for
the error message. -/
def plus_option_switch (env : Env) (shown cmd : CStr) (state : Bool) (value : Option CStr)
    (g : Globals) : Except Exit Globals :=
  match cmd.getD 0 NUL with
  | 'a' =>
    if FULLCHECK cmd "all" then
      Except.ok { g with showcomments := state, rrcomments := state, showtrust := state }
    else plus_invalid_option shown
  | 'c' =>
    match cmd.getD 1 NUL with
    | 'd' =>
      if FULLCHECK cmd "cdflag" then Except.ok { g with cdflag := state }
      else plus_invalid_option shown
    | 'l' =>
      if FULLCHECK cmd "class" then Except.ok { g with noclass := !state }
      else plus_invalid_option shown
    | 'o' =>
      if FULLCHECK cmd "comments" then Except.ok { g with showcomments := state }
      else plus_invalid_option shown
    | 'r' =>
      if FULLCHECK cmd "crypto" then Except.ok { g with nocrypto := !state }
      else plus_invalid_option shown
    | _ => plus_invalid_option shown
  | 'd' =>
    match cmd.getD 1 NUL with
    | 'l' =>
      if FULLCHECK cmd "dlv" then
        if state then
          Except.error { code := 1, message := "Invalid option: +dlv is obsolete\n" }
        else Except.ok g
      else plus_invalid_option shown
    | 'n' =>
      if FULLCHECK cmd "dnssec" then Except.ok { g with showdnssec := state }
      else plus_invalid_option shown
    | _ => plus_invalid_option shown
  | 'm' =>
    match cmd.getD 1 NUL with
    | 't' =>
      let g1 := { g with message_trace := state }
      Except.ok (if state then { g1 with resolve_trace := state } else g1)
    | 'u' =>
      if FULLCHECK cmd "multiline" then Except.ok { g with multiline := state }
      else plus_invalid_option shown
    | _ => plus_invalid_option shown
  | 'r' =>
    match cmd.getD 1 NUL with
    | 'o' =>
      if FULLCHECK cmd "root" then
        if state && g.no_sigs then Except.ok g
        else
          let g1 := { g with root_validation := state }
          match value with
          | some v => Except.ok { g1 with trust_anchor := some v }
          | none => Except.ok g1
      else plus_invalid_option shown
    | 'r' =>
      if FULLCHECK cmd "rrcomments" then Except.ok { g with rrcomments := state }
      else plus_invalid_option shown
    | 't' =>
      if FULLCHECK cmd "rtrace" then Except.ok { g with resolve_trace := state }
      else plus_invalid_option shown
    | _ => plus_invalid_option shown
  | 's' =>
    match cmd.getD 1 NUL with
    | 'h' =>
      if FULLCHECK cmd "short" then
        let g1 := { g with short_form := state }
        Except.ok
          (if g1.short_form then
            { g1 with multiline := false, showcomments := false, showtrust := false,
                      showdnssec := false }
          else g1)
      else plus_invalid_option shown
    | 'p' =>
      if FULLCHECK cmd "split" then plus_option_split env shown state value g
      else plus_invalid_option shown
    | _ => plus_invalid_option shown
  | 'u' =>
    if FULLCHECK cmd "unknownformat" then Except.ok { g with print_unknown_format := state }
    else plus_invalid_option shown
  | 't' =>
    match cmd.getD 1 NUL with
    | 'c' =>
      if FULLCHECK cmd "tcp" then Except.ok { g with use_tcp := state }
      else plus_invalid_option shown
    | 'r' =>
      if FULLCHECK cmd "trust" then Except.ok { g with showtrust := state }
      else plus_invalid_option shown
    | 't' =>
      if FULLCHECK cmd "ttl" then Except.ok { g with nottl := !state }
      else plus_invalid_option shown
    | _ => plus_invalid_option shown
  | 'v' =>
    if FULLCHECK cmd "vtrace" then
      let g1 := { g with validator_trace := state }
      Except.ok (if state then { g1 with resolve_trace := state } else g1)
    else plus_invalid_option shown
  | 'y' =>
    if FULLCHECK cmd "yaml" then
      let g1 := { g with yaml := state }
      Except.ok (if state then { g1 with rrcomments := false } else g1)
    else plus_invalid_option shown
  | _ => plus_invalid_option shown

/-- The C function `plus_option(option)`. -/
def plus_option (env : Env) (option : CStr) (g : Globals) : Except Exit Globals :=
  match strtok_r option "=".toList with
  | (none, _) =>
    Except.ok { g with stdout := g.stdout ++ [";; Invalid option " ++ String.mk option ++ "\n"] }
  | (some cmd0, last) =>
    let shown := option.takeWhile (· == '=') ++ cmd0
    let stripped := strncasecmp_eq cmd0 "no".toList 2
    let cmd := if stripped then cmd0.drop 2 else cmd0
    let state := !stripped
    let value := (strtok_r last []).1
    plus_option_switch env shown cmd state value g

/-! ## Dash options (`dash_option`) -/

/-- The string `single_dash_opts`. -/
def single_dash_opts : CStr := "46himv".toList

/-- The string `dash_opts`. -/
def dash_opts : CStr := "46abcdhimpqtvx".toList

/-- The macro `MAXNAME`. -/
def MAXNAME (env : Env) : Nat := env.DNS_NAME_MAXTEXT + 1

/-- The C string held by a character array: the bytes before the first NUL. -/
def cstring (bytes : List Char) : CStr := bytes.takeWhile (· != NUL)

/-- The label `invalid_option` of `dash_option`. -/
def dash_invalid_option {α : Type} (option : CStr) : Except Exit α :=
  usage ("Invalid option: -" ++ String.mk option ++ "\n")

/-- One round of the `while` loop of `dash_option`: the `switch (opt)` over
the options that take no argument. -/
def dash_flag (env : Env) (opt : Char) (g : Globals) : Except Exit Globals :=
  match opt with
  | '4' =>
    if !env.probeipv4 then fatal "IPv4 networking not available"
    else if g.use_ipv6 then Except.ok { g with use_ipv6 := false }
    else Except.ok g
  | '6' =>
    if !env.probeipv6 then fatal "IPv6 networking not available"
    else if g.use_ipv4 then Except.ok { g with use_ipv4 := false }
    else Except.ok g
  | 'h' => usage ""
  | 'i' => Except.ok { g with no_sigs := true, root_validation := false }
  | 'm' => Except.ok g
  | 'v' => Except.error { code := 0, message := "delv " ++ env.PACKAGE_VERSION ++ "\n" }
  | _ => Except.error { code := 134, message := "UNREACHABLE" }

/-- The case `b` of `dash_option`. -/
def dash_option_b (env : Env) (value : CStr) (g : Globals) : Except Exit Globals :=
  let hash := strchr value '#'
  let port : Except Exit (Nat × Globals) :=
    match hash with
    | some h =>
      match parse_uint env (value.drop (h + 1)) 0xffff "port" g with
      | (Except.ok num, g1) => Except.ok (num, g1)
      | (Except.error _, _) => fatal "Couldn't parse port number"
    | none => Except.ok (0, g)
  match port with
  | Except.error e => Except.error e
  | Except.ok (srcport, g1) =>
    let addrtext := match hash with
      | some h => value.take h
      | none => value
    match env.inet_pton4 addrtext with
    | some in4 =>
      if g1.srcaddr4.isSome then
        fatal "Only one local address per family can be specified\n"
      else Except.ok { g1 with srcaddr4 := some (in4, srcport) }
    | none =>
      match env.inet_pton6 addrtext with
      | some in6 =>
        if g1.srcaddr6.isSome then
          fatal "Only one local address per family can be specified\n"
        else Except.ok { g1 with srcaddr6 := some (in6, srcport) }
      | none => fatal ("Invalid address " ++ String.mk value)

/-- The part of `dash_option` after the `while` loop: the options that take
a value.  The result is the return value, the new `*open_type_class` and the
new state. -/
def dash_option_value (env : Env) (option : CStr) (next : Option CStr)
    (open_type_class : Bool) (g : Globals) : Except Exit (Bool × Bool × Globals) :=
  let opt := option.getD 0 NUL
  let value_from_next := !(option.length > 1)
  let value := if option.length > 1 then some (option.drop 1) else next
  match value with
  | none => dash_invalid_option option
  | some value =>
    match opt with
    | 'a' => Except.ok (value_from_next, open_type_class, { g with anchorfile := some value })
    | 'b' =>
      match dash_option_b env value g with
      | Except.error e => Except.error e
      | Except.ok g1 => Except.ok (value_from_next, open_type_class, g1)
    | 'c' =>
      let g1 := if g.classset then warn "extra query class" g else g
      match env.rdataclass_fromtext value with
      | some _ => Except.ok (value_from_next, false, { g1 with classset := true })
      | none =>
        if env.stack_rdclass != dns_rdataclass_in then
          Except.ok (value_from_next, false, warn "ignoring non-IN query class" g1)
        else
          Except.ok (value_from_next, false, warn "ignoring invalid class" g1)
    | 'd' =>
      match parse_uint env value 99 "debug level" g with
      | (Except.ok num, g1) =>
        Except.ok (value_from_next, open_type_class, { g1 with loglevel := num })
      | (Except.error _, _) => fatal "Couldn't parse debug level"
    | 'p' => Except.ok (value_from_next, open_type_class, { g with port := value })
    | 'q' =>
      let g1 := if g.curqname.isSome then warn "extra query name" g else g
      Except.ok (value_from_next, open_type_class, { g1 with curqname := some value })
    | 't' =>
      match env.rdatatype_fromtext value with
      | some rdtype =>
        let g1 := if g.typeset then warn "extra query type" g else g
        if rdtype == dns_rdatatype_ixfr || rdtype == dns_rdatatype_axfr then
          fatal "Transfer not supported"
        else
          Except.ok (value_from_next, false, { g1 with qtype := rdtype, typeset := true })
      | none => Except.ok (value_from_next, false, warn "ignoring invalid type" g)
    | 'x' =>
      match get_reverse env (MAXNAME env) value false with
      | (Result.success, textname) =>
        let g1 := if g.curqname.isSome then warn "extra query name" g else g
        let g2 := { g1 with curqname := some (cstring textname) }
        let g3 := if g2.typeset then warn "extra query type" g2 else g2
        Except.ok (value_from_next, open_type_class,
          { g3 with qtype := dns_rdatatype_ptr, typeset := true })
      | (_, _) =>
        Except.error { code := 1, message := "Invalid IP address " ++ String.mk value ++ "\n" }
    | _ => dash_invalid_option option

/-- The C function `dash_option(option, next, open_type_class)`: the return
value, the new `*open_type_class` and the new state. -/
def dash_option (env : Env) : CStr → Option CStr → Bool → Globals →
    Except Exit (Bool × Bool × Globals)
  | [], next, open_type_class, g => dash_option_value env [] next open_type_class g
  | c :: rest, next, open_type_class, g =>
    if single_dash_opts.contains c then
      match dash_flag env c g with
      | Except.error e => Except.error e
      | Except.ok g1 =>
        if (c :: rest).length > 1 then dash_option env rest next open_type_class g1
        else Except.ok (false, open_type_class, g1)
    else dash_option_value env (c :: rest) next open_type_class g

/-! ## The command line (`parse_args`) -/

/-- The branch of the loop of `parse_args` for an argument that is not an
option; `none` stands for `continue` with the state unchanged but for
warnings, and the result is the new state. -/
def parse_args_bare (env : Env) (arg : CStr) (open_type_class : Bool) (g : Globals) :
    Except Exit Globals :=
  let name (g : Globals) : Except Exit Globals :=
    if g.curqname.isNone then Except.ok { g with curqname := some arg } else Except.ok g
  if open_type_class then
    match env.rdatatype_fromtext arg with
    | some rdtype =>
      let g1 := if g.typeset then warn "extra query type" g else g
      if rdtype == dns_rdatatype_ixfr || rdtype == dns_rdatatype_axfr then
        fatal "Transfer not supported"
      else Except.ok { g1 with qtype := rdtype, typeset := true }
    | none =>
      match env.rdataclass_fromtext arg with
      | some rdclass =>
        if g.classset then Except.ok (warn "extra query class" g)
        else if rdclass != dns_rdataclass_in then
          Except.ok (warn "ignoring non-IN query class" g)
        else Except.ok g
      | none => name g
  else name g

/-- One round of the `for` loop of `parse_args` on the argument `arg`;
`next` is `argv[1]`, absent when `argc <= 1`.  The result tells whether the
round also consumed `next`, and gives the new `open_type_class` and state. -/
def parse_args_step (env : Env) (arg : CStr) (next : Option CStr) (open_type_class : Bool)
    (g : Globals) : Except Exit (Bool × Bool × Globals) :=
  match arg with
  | '@' :: s => Except.ok (false, open_type_class, { g with server := some s })
  | '+' :: s =>
    match plus_option env s g with
    | Except.error e => Except.error e
    | Except.ok g1 => Except.ok (false, open_type_class, g1)
  | '-' :: s => dash_option env s next open_type_class g
  | _ =>
    match parse_args_bare env arg open_type_class g with
    | Except.error e => Except.error e
    | Except.ok g1 => Except.ok (false, open_type_class, g1)

/-- The `for` loop of `parse_args` over the remaining arguments. -/
def parse_args_loop (env : Env) : List CStr → Bool → Globals → Except Exit Globals
  | [], _, g => Except.ok g
  | [arg], open_type_class, g =>
    match parse_args_step env arg none open_type_class g with
    | Except.error e => Except.error e
    | Except.ok (_, _, g1) => Except.ok g1
  | arg :: next :: rest, open_type_class, g =>
    match parse_args_step env arg (some next) open_type_class g with
    | Except.error e => Except.error e
    | Except.ok (true, otc1, g1) => parse_args_loop env rest otc1 g1
    | Except.ok (false, otc1, g1) => parse_args_loop env (next :: rest) otc1 g1

/-- The end of `parse_args`, after the loop: the default name and type. -/
def parse_args_defaults (g : Globals) : Globals :=
  let g1 := if !g.typeset then { g with qtype := dns_rdatatype_a } else g
  match g1.curqname with
  | none =>
    let g2 := { g1 with qname := some ".".toList }
    if !g2.typeset then { g2 with qtype := dns_rdatatype_ns } else g2
  | some name => { g1 with qname := some name }

/-- The C function `parse_args(argc, argv)`, on the arguments after the
program name. -/
def parse_args (env : Env) (argv : List CStr) (g : Globals) : Except Exit Globals :=
  match parse_args_loop env argv true g with
  | Except.error e => Except.error e
  | Except.ok g1 => Except.ok (parse_args_defaults g1)

/-! ## Trust banner (`print_status`) -/

/-- The C function `strlcat(dst, src, size)` on the string held by `dst`. -/
def strlcat (dst : CStr) (src : String) (size : Nat) : CStr :=
  if dst.length ≥ size then dst else dst ++ src.toList.take (size - 1 - dst.length)

/-- The content of `buf` in `print_status` after the `switch` on the trust
level. -/
def print_status_buf (yaml root_validation : Bool) (rdataset : Rdataset) : CStr :=
  let size := 1024
  let buf : CStr := []
  let buf :=
    if rdataset.negative then
      strlcat (strlcat buf "negative response" size) (if yaml then "_" else ", ") size
    else buf
  match rdataset.trust with
  | Trust.none => strlcat buf "untrusted" size
  | Trust.pending_additional =>
    let buf := strlcat buf "signed additional data" size
    let buf := if !yaml then strlcat buf ", " size else buf
    strlcat buf "pending validation" size
  | Trust.pending_answer =>
    let buf := strlcat buf "signed answer" size
    let buf := if !yaml then strlcat buf ", " size else buf
    strlcat buf "pending validation" size
  | Trust.additional => strlcat buf "unsigned additional data" size
  | Trust.glue => strlcat buf "glue data" size
  | Trust.answer =>
    if root_validation then strlcat buf "unsigned answer" size
    else strlcat buf "answer not validated" size
  | Trust.authauthority => strlcat buf "authority data" size
  | Trust.authanswer => strlcat buf "authoritative" size
  | Trust.secure => strlcat buf "fully validated" size
  | Trust.ultimate => strlcat buf "ultimate trust" size

/-- The C function `print_status(rdataset)`. -/
def print_status (g : Globals) (rdataset : Rdataset) : Globals :=
  if !g.showtrust || !rdataset.associated then g
  else
    let buf := print_status_buf g.yaml g.root_validation rdataset
    if g.yaml then
      let buf := buf.map (fun c => if c = ' ' then '_' else c)
      { g with stdout := g.stdout ++ ["  - " ++ String.mk buf ++ ":\n"] }
    else
      { g with stdout := g.stdout ++ ["; " ++ String.mk buf ++ "\n"] }

/-! ## Resolution options (`resolve`) -/

/-- The constant `DNS_CLIENTRESOPT_NODNSSEC` of the DNS library. -/
def DNS_CLIENTRESOPT_NODNSSEC : Nat := 0x01

/-- The constant `DNS_CLIENTRESOPT_NOVALIDATE` of the DNS library. -/
def DNS_CLIENTRESOPT_NOVALIDATE : Nat := 0x02

/-- The constant `DNS_CLIENTRESOPT_NOCDFLAG` of the DNS library. -/
def DNS_CLIENTRESOPT_NOCDFLAG : Nat := 0x04

/-- The constant `DNS_CLIENTRESOPT_TCP` of the DNS library. -/
def DNS_CLIENTRESOPT_TCP : Nat := 0x08

/-- The value of `resopt` that `resolve` builds, an `unsigned int`. -/
def resolve_resopt (g : Globals) : Nat :=
  let resopt := DNS_CLIENTRESOPT_NOCDFLAG
  let resopt := if g.no_sigs then resopt ||| DNS_CLIENTRESOPT_NODNSSEC else resopt
  let resopt := if !g.root_validation then resopt ||| DNS_CLIENTRESOPT_NOVALIDATE else resopt
  let resopt :=
    if g.cdflag then resopt &&& (2 ^ 32 - 1 - DNS_CLIENTRESOPT_NOCDFLAG) else resopt
  let resopt := if g.use_tcp then resopt ||| DNS_CLIENTRESOPT_TCP else resopt
  resopt

/-- The arguments of the call `dns_client_resolve` made by `resolve`. -/
structure Request where
  query_name : DnsName
  rdclass : Nat
  qtype : Nat
  resopt : Nat
deriving DecidableEq, Repr

/-- The line `delv_log(ISC_LOG_ERROR, ...)`: errors reach the stderr
channel at every debug level. -/
def log_error (msg : String) (g : Globals) : Globals :=
  { g with stderr := g.stderr ++ [";; " ++ msg] }

/-- The C function `convert_name(fn, name, text)`. -/
def convert_name (env : Env) (text : CStr) (g : Globals) : Except Result DnsName × Globals :=
  match env.dns_name_fromtext text with
  | Except.error result =>
    (Except.error result,
      log_error ("failed to convert QNAME " ++ String.mk text ++ ": "
        ++ isc_result_totext result) g)
  | Except.ok n => (Except.ok n, g)

/-- The C function `resolve(arg)` up to the call of `dns_client_resolve`:
the request made, or the result that stopped it. -/
def resolve (env : Env) (g : Globals) : Except Result Request × Globals :=
  match convert_name env (g.qname.getD []) g with
  | (Except.error result, g1) =>
    (Except.error result,
      if !g1.yaml then log_error ("resolution failed: " ++ isc_result_totext result) g1
      else g1)
  | (Except.ok query_name, g1) =>
    (Except.ok { query_name := query_name, rdclass := dns_rdataclass_in, qtype := g1.qtype,
                 resopt := resolve_resopt g1 }, g1)

/-! ## Trust anchors (`key_fromconfig`, `load_keys`, `setup_dnsseckeys`) -/

/-- The enumeration `anchortype` of `key_fromconfig`. -/
inductive AnchorType where
  | INITIAL_KEY
  | STATIC_KEY
  | INITIAL_DS
  | STATIC_DS
  | TRUSTED
deriving DecidableEq, Repr

/-- The constant `DNS_DSDIGEST_SHA1` of the DNS library. -/
def DNS_DSDIGEST_SHA1 : Nat := 1

/-- The constant `DNS_DSDIGEST_SHA256` of the DNS library. -/
def DNS_DSDIGEST_SHA256 : Nat := 2

/-- The constant `DNS_DSDIGEST_SHA384` of the DNS library. -/
def DNS_DSDIGEST_SHA384 : Nat := 4

/-- Modelled from the spec: the constant `ISC_SHA1_DIGESTLENGTH` (absent
from the sources at hand); "SHA-1 = 20 bytes". -/
def ISC_SHA1_DIGESTLENGTH : Nat := 20

/-- Modelled from the spec: the constant `ISC_SHA256_DIGESTLENGTH` (absent
from the sources at hand); "SHA-256 = 32 bytes". -/
def ISC_SHA256_DIGESTLENGTH : Nat := 32

/-- Modelled from the spec: the constant `ISC_SHA384_DIGESTLENGTH` (absent
from the sources at hand); "SHA-384 = 48 bytes". -/
def ISC_SHA384_DIGESTLENGTH : Nat := 48

/-- The label `cleanup` of `key_fromconfig`: the result returned for the
result reached, with the line logged. -/
def key_fromconfig_cleanup (keynamestr : CStr) (result : Result) (g : Globals) :
    Result × Globals :=
  if result = Result.nocrypto then
    (result, log_error "no crypto support" g)
  else if result = Result.unsupportedalg then
    (Result.success,
      { g with stderr := g.stderr ++
          [";; skipping trusted key '" ++ String.mk keynamestr ++ "': "
            ++ isc_result_totext result] })
  else if result != Result.success then
    (Result.failure,
      log_error ("failed to add trusted key '" ++ String.mk keynamestr ++ "': "
        ++ isc_result_totext result) g)
  else (result, g)

/-- The part of `key_fromconfig` that finds the anchor type: the type, or
`none` for an invalid initialization method. -/
def key_anchortype (key : KeyEntry) : Option AnchorType :=
  match key.anchortype with
  | none => some AnchorType.STATIC_KEY
  | some atstr =>
    if strcasecmp_eq atstr "static-key".toList then some AnchorType.STATIC_KEY
    else if strcasecmp_eq atstr "static-ds".toList then some AnchorType.STATIC_DS
    else if strcasecmp_eq atstr "initial-key".toList then some AnchorType.INITIAL_KEY
    else if strcasecmp_eq atstr "initial-ds".toList then some AnchorType.INITIAL_DS
    else none

/-- The part of `key_fromconfig` from the range checks to `num_keys++`:
the result reached at `cleanup`, the client and the state. -/
def key_fromconfig_add (env : Env) (key : KeyEntry) (keyname : DnsName)
    (anchortype : AnchorType) (client : Client) (g : Globals) : Result × Client × Globals :=
  if key.rdata1 > 0xffff then (Result.range, client, g)
  else if key.rdata2 > 0xff then (Result.range, client, g)
  else if key.rdata3 > 0xff then (Result.range, client, g)
  else
    match anchortype with
    | AnchorType.STATIC_KEY | AnchorType.INITIAL_KEY | AnchorType.TRUSTED =>
      match env.isc_base64_decodestring key.data with
      | Except.error result => (result, client, g)
      | Except.ok r =>
        let dnskey := Rdata.dnskey (key.rdata1 % 2 ^ 16) (key.rdata2 % 2 ^ 8)
          (key.rdata3 % 2 ^ 8) r
        if env.dns_rdata_fromstruct dnskey != Result.success then
          (env.dns_rdata_fromstruct dnskey, client, g)
        else if env.dns_client_addtrustedkey client dns_rdatatype_dnskey keyname dnskey
            != Result.success then
          (env.dns_client_addtrustedkey client dns_rdatatype_dnskey keyname dnskey, client, g)
        else
          (Result.success,
            { client with trustedkeys :=
                client.trustedkeys ++ [(dns_rdatatype_dnskey, keyname, dnskey)] },
            { g with num_keys := g.num_keys + 1 })
    | AnchorType.INITIAL_DS | AnchorType.STATIC_DS =>
      match env.isc_hex_decodestring key.data with
      | Except.error result => (result, client, g)
      | Except.ok r =>
        let digest_type := key.rdata3 % 2 ^ 8
        if digest_type = DNS_DSDIGEST_SHA1 && r.length != ISC_SHA1_DIGESTLENGTH then
          (Result.unexpectedend, client, g)
        else if digest_type = DNS_DSDIGEST_SHA256 && r.length != ISC_SHA256_DIGESTLENGTH then
          (Result.unexpectedend, client, g)
        else if digest_type = DNS_DSDIGEST_SHA384 && r.length != ISC_SHA384_DIGESTLENGTH then
          (Result.unexpectedend, client, g)
        else
          let ds := Rdata.ds (key.rdata1 % 2 ^ 16) (key.rdata2 % 2 ^ 8) digest_type r
          if env.dns_rdata_fromstruct ds != Result.success then
            (env.dns_rdata_fromstruct ds, client, g)
          else if env.dns_client_addtrustedkey client dns_rdatatype_ds keyname ds
              != Result.success then
            (env.dns_client_addtrustedkey client dns_rdatatype_ds keyname ds, client, g)
          else
            (Result.success,
              { client with trustedkeys :=
                  client.trustedkeys ++ [(dns_rdatatype_ds, keyname, ds)] },
              { g with num_keys := g.num_keys + 1 })

/-- The C function `key_fromconfig(key, client)`. -/
def key_fromconfig (env : Env) (key : KeyEntry) (client : Client) (g : Globals) :
    Result × Client × Globals :=
  match convert_name env key.name g with
  | (Except.error result, g1) =>
    let (r, g2) := key_fromconfig_cleanup key.name result g1
    (r, client, g2)
  | (Except.ok keyname, g1) =>
    if !g1.root_validation then (Result.success, client, g1)
    else
      let match_root :=
        match g1.anchor_name with
        | some anchor_name => dns_name_equal keyname anchor_name
        | none => false
      if !match_root then (Result.success, client, g1)
      else if !g1.root_validation then (Result.success, client, g1)
      else
        match key_anchortype key with
        | none =>
          let g2 := log_error ("key '" ++ String.mk key.name
            ++ "': invalid initialization method '"
            ++ String.mk (key.anchortype.getD []) ++ "'") g1
          let (r, g3) := key_fromconfig_cleanup key.name Result.failure g2
          (r, client, g3)
        | some anchortype =>
          let (result, client1, g2) := key_fromconfig_add env key keyname anchortype client g1
          let (r, g3) := key_fromconfig_cleanup key.name result g2
          (r, client1, g3)

/-- The inner loop of `load_keys` over one key list: the result at the
point where the loop is left. -/
def load_keylist (env : Env) : List KeyEntry → Client → Globals → Result × Client × Globals
  | [], client, g => (Result.success, client, g)
  | key :: rest, client, g =>
    match key_fromconfig env key client g with
    | (Result.success, client1, g1) => load_keylist env rest client1 g1
    | (result, client1, g1) => (result, client1, g1)

/-- The outer loop of `load_keys`: the result at the label `cleanup`. -/
def load_keylists (env : Env) : List (List KeyEntry) → Client → Globals →
    Result × Client × Globals
  | [], client, g => (Result.success, client, g)
  | keylist :: rest, client, g =>
    match load_keylist env keylist client g with
    | (Result.success, client1, g1) => load_keylists env rest client1 g1
    | (result, client1, g1) => (result, client1, g1)

/-- The C function `load_keys(keys, client)`. -/
def load_keys (env : Env) (keys : List (List KeyEntry)) (client : Client) (g : Globals) :
    Result × Client × Globals :=
  match load_keylists env keys client g with
  | (Result.nocrypto, client1, g1) => (Result.success, client1, g1)
  | (result, client1, g1) => (result, client1, g1)

/-- The label `cleanup` of `setup_dnsseckeys`. -/
def setup_dnsseckeys_cleanup (result : Result) (client : Client) (g : Globals) :
    Result × Client × Globals :=
  if result != Result.success then
    (result, client, log_error ("setup_dnsseckeys: " ++ isc_result_totext result) g)
  else (result, client, g)

/-- One of the three guarded calls `CHECK(load_keys(..))` of
`setup_dnsseckeys`, reached with the result `st` of what came before. -/
def load_clause (env : Env) (keys : Option (List (List KeyEntry)))
    (st : Result × Client × Globals) : Result × Client × Globals :=
  match st with
  | (Result.success, client, g) =>
    match keys with
    | some keys => load_keys env keys client g
    | none => (Result.success, client, g)
  | st => st

/-- The three guarded calls of `load_keys` in `setup_dnsseckeys`, for
`trusted-keys`, `managed-keys` and `trust-anchors` in this order. -/
def load_clauses (env : Env) (bindkeys : BindKeys) (client : Client) (g : Globals) :
    Result × Client × Globals :=
  load_clause env bindkeys.trust_anchors
    (load_clause env bindkeys.managed_keys
      (load_clause env bindkeys.trusted_keys (Result.success, client, g)))

/-- The part of `setup_dnsseckeys` after the anchors were parsed. -/
def setup_dnsseckeys_load (env : Env) (bindkeys : BindKeys) (client : Client) (g : Globals) :
    Except Exit (Result × Client × Globals) :=
  match load_clauses env bindkeys client g with
  | (Result.success, client1, g1) =>
    if g1.num_keys == 0 then fatal "No trusted keys were loaded"
    else Except.ok (setup_dnsseckeys_cleanup Result.success client1 g1)
  | (result, client1, g1) => Except.ok (setup_dnsseckeys_cleanup result client1 g1)

/-- The note that a configuration source went to the parser. -/
def record_parse (source : Option CStr) (g : Globals) : Globals :=
  { g with parsed := g.parsed ++ [source] }

/-- The first step of `setup_dnsseckeys`: a missing `trust_anchor` becomes
the root name. -/
def default_trust_anchor (g : Globals) : Globals :=
  if g.trust_anchor.isNone then { g with trust_anchor := some ".".toList } else g

/-- The C function `setup_dnsseckeys(client)`. -/
def setup_dnsseckeys (env : Env) (client : Client) (g : Globals) :
    Except Exit (Result × Client × Globals) :=
  if !g.root_validation then Except.ok (Result.success, client, g)
  else
    let g1 := default_trust_anchor g
    match convert_name env (g1.trust_anchor.getD []) g1 with
    | (Except.error result, g2) => Except.ok (setup_dnsseckeys_cleanup result client g2)
    | (Except.ok name, g2) =>
      let g3 := { g2 with anchor_name := some name }
      if env.cfg_parser_create != Result.success then
        Except.ok (setup_dnsseckeys_cleanup env.cfg_parser_create client g3)
      else
        match g3.anchorfile with
        | some anchorfile =>
          if !env.access_R_OK anchorfile then
            fatal ("Unable to read key file '" ++ String.mk anchorfile ++ "'")
          else
            match env.cfg_parse_file anchorfile with
            | Except.error _ =>
              fatal ("Unable to load keys from '" ++ String.mk anchorfile ++ "'")
            | Except.ok bindkeys =>
              setup_dnsseckeys_load env bindkeys client (record_parse (some anchorfile) g3)
        | none =>
          match env.cfg_parse_builtin with
          | Except.error _ => fatal "Unable to parse built-in keys"
          | Except.ok bindkeys =>
            setup_dnsseckeys_load env bindkeys client (record_parse none g3)

/-! ## Style, servers and the main program -/

/-- The C function `setup_style()`. -/
def setup_style (env : Env) (g : Globals) : Result × Globals :=
  let f := env.styleflag
  let flags := g.styleflags ||| f.REL_OWNER
  let flags :=
    if g.yaml then flags ||| f.YAML
    else
      let flags := if g.showcomments then flags ||| f.COMMENT else flags
      let flags := if g.print_unknown_format then flags ||| f.UNKNOWNFORMAT else flags
      let flags := if g.rrcomments then flags ||| f.RRCOMMENT else flags
      let flags := if g.nottl then flags ||| f.NO_TTL else flags
      let flags := if g.noclass then flags ||| f.NO_CLASS else flags
      let flags := if g.nocrypto then flags ||| f.NOCRYPTO else flags
      if g.multiline then (flags ||| f.MULTILINE) ||| f.COMMENT else flags
  let g1 := { g with styleflags := flags }
  if g1.multiline || (g1.nottl && g1.noclass) then
    (env.dns_master_stylecreate flags [24, 24, 24, 32, 80, 8] g1.splitwidth, g1)
  else if g1.nottl || g1.noclass then
    (env.dns_master_stylecreate flags [24, 24, 32, 40, 80, 8] g1.splitwidth, g1)
  else
    (env.dns_master_stylecreate flags [24, 32, 40, 48, 80, 8] g1.splitwidth, g1)

/-- The C function `setup_logging(errout)`, as far as it can end the
program. -/
def setup_logging (env : Env) (g : Globals) : Except Exit Globals :=
  if env.isc_log_usechannel "stderr" != Result.success then
    fatal "Couldn't attach to log channel 'stderr'"
  else if (g.resolve_trace && g.loglevel < 1)
      && env.isc_log_usechannel "resolver" != Result.success then
    fatal "Couldn't attach to log channel 'resolver'"
  else if (g.validator_trace && g.loglevel < 3)
      && env.isc_log_usechannel "validator" != Result.success then
    fatal "Couldn't attach to log channel 'validator'"
  else if (g.message_trace && g.loglevel < 10)
      && env.isc_log_usechannel "messages" != Result.success then
    fatal "Couldn't attach to log channel 'messagse'"
  else Except.ok g

/-- The C function `addserver(client)`; `server` is the global of that
name, which `main` has found set. -/
def addserver (env : Env) (server : CStr) (client : Client) (g : Globals) :
    Except Exit (Result × Client × Globals) :=
  match parse_uint env g.port 0xffff "port" g with
  | (Except.error _, _) => fatal "Couldn't parse port number"
  | (Except.ok destport, g1) =>
    let finish (servers : List Sockaddr) : Except Exit (Result × Client × Globals) :=
      let result := env.dns_client_setservers servers
      if result != Result.success then
        Except.ok (result, client, log_error ("addserver: " ++ isc_result_totext result) g1)
      else Except.ok (result, { client with servers := servers }, g1)
    match env.inet_pton4 server with
    | some in4 =>
      if !g1.use_ipv4 then fatal "Use of IPv4 disabled by -6"
      else finish [{ family := AF_INET, addr := in4, port := destport }]
    | none =>
      match env.inet_pton6 server with
      | some in6 =>
        if !g1.use_ipv6 then fatal "Use of IPv6 disabled by -4"
        else finish [{ family := AF_INET6, addr := in6, port := destport }]
      | none =>
        let family :=
          if !g1.use_ipv6 then AF_INET else if !g1.use_ipv4 then AF_INET6 else AF_UNSPEC
        match env.getaddrinfo server g1.port family with
        | Except.error gaierror =>
          Except.ok (Result.failure, client,
            log_error ("getaddrinfo failed: " ++ toString gaierror) g1)
        | Except.ok res =>
          finish (res.filter (fun cur => cur.family == AF_INET || cur.family == AF_INET6))

/-- The C function `findserver(client)`. -/
def findserver (env : Env) (client : Client) (g : Globals) :
    Except Exit (Result × Client × Globals) :=
  match parse_uint env g.port 0xffff "port" g with
  | (Except.error _, _) => fatal "Couldn't parse port number"
  | (Except.ok destport, g1) =>
    let (result, configured) := env.irs_resconf_load
    if result != Result.success && result != Result.filenotfound then
      Except.ok (result, client,
        log_error ("irs_resconf_load: " ++ isc_result_totext result) g1)
    else
      let kept := configured.filterMap (fun sa =>
        if sa.family == AF_INET && g1.use_ipv4 then some { sa with port := destport }
        else if sa.family == AF_INET6 && g1.use_ipv6 then some { sa with port := destport }
        else none)
      let nameservers :=
        if kept.isEmpty then
          (if g1.use_ipv4 then
              [({ family := AF_INET, addr := [127, 0, 0, 1], port := destport } : Sockaddr)]
            else [])
          ++ (if g1.use_ipv6 then
              [({ family := AF_INET6, addr := List.replicate 15 0 ++ [1],
                  port := destport } : Sockaddr)]
            else [])
        else kept
      let result := env.dns_client_setservers nameservers
      if result != Result.success then
        Except.ok (result, client,
          log_error ("dns_client_setservers: " ++ isc_result_totext result) g1)
      else Except.ok (result, { client with servers := nameservers }, g1)

/-- The `while` loop of `preparse_args` over the leading options that take
no argument: what is left of the option, and the two flags. -/
def preparse_flags : CStr → Bool → Bool → Except Exit (CStr × Bool × Bool)
  | [], ipv4only, ipv6only => Except.ok ([], ipv4only, ipv6only)
  | c :: rest, ipv4only, ipv6only =>
    if single_dash_opts.contains c then
      if c = '4' then
        if ipv6only then fatal "only one of -4 and -6 allowed"
        else preparse_flags rest true ipv6only
      else if c = '6' then
        if ipv4only then fatal "only one of -4 and -6 allowed"
        else preparse_flags rest ipv4only true
      else preparse_flags rest ipv4only ipv6only
    else Except.ok (c :: rest, ipv4only, ipv6only)

/-- The `for` loop of `preparse_args`, as far as it can end the program. -/
def preparse_loop : List CStr → Bool → Bool → Except Exit Unit
  | [], _, _ => Except.ok ()
  | [arg], ipv4only, ipv6only =>
    match arg with
    | '-' :: option =>
      match preparse_flags option ipv4only ipv6only with
      | Except.error e => Except.error e
      | Except.ok _ => Except.ok ()
    | _ => Except.ok ()
  | arg :: next :: rest, ipv4only, ipv6only =>
    match arg with
    | '-' :: option =>
      match preparse_flags option ipv4only ipv6only with
      | Except.error e => Except.error e
      | Except.ok (option1, v4, v6) =>
        if option1.length == 0 then preparse_loop (next :: rest) v4 v6
        else if !(dash_opts.contains (option1.getD 0 NUL)) || option1.length > 1 then
          preparse_loop (next :: rest) v4 v6
        else preparse_loop rest v4 v6
    | _ => preparse_loop (next :: rest) ipv4only ipv6only

/-- The C function `preparse_args(argc, argv)`, on the arguments after the
program name. -/
def preparse_args (argv : List CStr) : Except Exit Unit :=
  preparse_loop argv false false

/-- What `main` hands back when it returns: its return value, the request
that `resolve` made if the event loop was started and the request could be
built, the client and the state. -/
structure MainResult where
  status : Nat
  request : Option Request
  client : Client
  g : Globals
deriving DecidableEq, Repr

/-- The label `cleanup` of `main`: the resources are released and the
function returns 0. -/
def main_cleanup (request : Option Request) (client : Client) (g : Globals) : MainResult :=
  { status := 0, request := request, client := client, g := g }

/-- The part of `main` from `CHECK(setup_dnsseckeys(client))` on: the
anchors are loaded and, if that succeeds, the event loop runs `resolve`. -/
def main_anchors (env : Env) (client : Client) (g : Globals) : Except Exit MainResult :=
  match setup_dnsseckeys env client g with
  | Except.error e => Except.error e
  | Except.ok (Result.success, client1, g1) =>
    match resolve env g1 with
    | (Except.ok request, g2) => Except.ok (main_cleanup (some request) client1 g2)
    | (Except.error _, g2) => Except.ok (main_cleanup none client1 g2)
  | Except.ok (_, client1, g1) => Except.ok (main_cleanup none client1 g1)

/-- The C function `main(argc, argv)`, on the arguments after the program
name: either the program leaves through `exit`, or `main` returns. -/
def main (env : Env) (argv : List CStr) : Except Exit MainResult :=
  let client : Client := { trustedkeys := [], servers := [] }
  match preparse_args argv with
  | Except.error e => Except.error e
  | Except.ok _ =>
    if env.dst_lib_init != Result.success then
      fatal ("dst_lib_init failed: " ++ isc_result_totext env.dst_lib_init)
    else
      match parse_args env argv Globals.init with
      | Except.error e => Except.error e
      | Except.ok g1 =>
        match setup_style env g1 with
        | (Result.success, g2) =>
          match setup_logging env g2 with
          | Except.error e => Except.error e
          | Except.ok g3 =>
            if env.dns_client_create != Result.success then
              Except.ok (main_cleanup none client
                (log_error ("dns_client_create: " ++ isc_result_totext env.dns_client_create)
                  g3))
            else
              let served :=
                match g3.server with
                | some server => addserver env server client g3
                | none => findserver env client g3
              match served with
              | Except.error e => Except.error e
              | Except.ok (_, client1, g4) => main_anchors env client1 g4
        | (_, g2) => Except.ok (main_cleanup none client g2)

/-- The exit status of the process for an outcome of `main`. -/
def exit_status (r : Except Exit MainResult) : Nat :=
  match r with
  | Except.error e => e.code
  | Except.ok m => m.status

/-- The text that `print_status` puts in place of `%s`: the content of
`buf` at the `printf`, that is, after the conversion of spaces to
underscores in YAML mode. -/
def print_status_text (yaml root_validation : Bool) (rdataset : Rdataset) : CStr :=
  let buf := print_status_buf yaml root_validation rdataset
  if yaml then buf.map (fun c => if c = ' ' then '_' else c) else buf

/-- The list `*nameservers` as `findserver` hands it to
`dns_client_setservers`, for the name servers of the resolver configuration,
the two family switches and the destination port: the loop that sets the
port or unlinks the entry, then the loopback addresses when none is left. -/
def findserver_nameservers (configured : List Sockaddr) (use_ipv4 use_ipv6 : Bool)
    (destport : Nat) : List Sockaddr :=
  let kept := configured.filterMap (fun sa =>
    if sa.family == AF_INET && use_ipv4 then some { sa with port := destport }
    else if sa.family == AF_INET6 && use_ipv6 then some { sa with port := destport }
    else none)
  if kept.isEmpty then
    (if use_ipv4 then
        [({ family := AF_INET, addr := [127, 0, 0, 1], port := destport } : Sockaddr)]
      else [])
    ++ (if use_ipv6 then
        [({ family := AF_INET6, addr := List.replicate 15 0 ++ [1],
            port := destport } : Sockaddr)]
      else [])
  else kept

/-- The lower-case hexadecimal digit of a nibble. -/
def hexdigit (n : Nat) : Char :=
  "0123456789abcdef".toList.getD n '0'

/-- The nibbles of a list of octets, in the order of the address: for each
octet the high nibble, then the low one. -/
def nibbles (octets : List Nat) : List Nat :=
  (octets.map (fun o => [o / 16 % 16, o % 16])).flatten

/-- Modelled from the spec: the calls `dns_byaddr_createptrname` and
`dns_name_format` of the DNS library (absent from the sources at hand) on an
IPv6 address; "IPv6 address → `dns_byaddr`-style reversed nibble ptr name
ending in `.ip6.arpa.`", the nibbles of the address in reverse order, each
followed by a dot. -/
def ip6_arpa_name (octets : List Nat) : CStr :=
  ((nibbles octets).reverse.map (fun n => [hexdigit n, '.'])).flatten ++ "ip6.arpa.".toList

/-! ## Record output (`printdata`) -/

/-- The column and width arguments with which `setup_style` created
`style`. -/
def style_columns (g : Globals) : List Nat :=
  if g.multiline || (g.nottl && g.noclass) then [24, 24, 24, 32, 80, 8]
  else if g.nottl || g.noclass then [24, 24, 32, 40, 80, 8]
  else [24, 32, 40, 48, 80, 8]

/-- The `for` loop of `printdata` in short form over the records still to
come, writing to a target of `len` bytes that holds `target` so far: the
result with which the loop is left, and the target. -/
def printdata_short (env : Env) (g : Globals) (negative : Bool) (len : Nat) :
    List CStr → CStr → Result × CStr
  | [], target => (Result.nomore, target)
  | rdata :: rest, target =>
    if negative then printdata_short env g negative len rest target
    else
      match env.dns_rdata_tofmttext rdata g.styleflags g.splitwidth with
      | Except.error e => (e.val, target)
      | Except.ok text =>
        if text.length > len - target.length then (Result.nospace, target)
        else if len - (target ++ text).length < 1 then (Result.nospace, target ++ text)
        else printdata_short env g negative len rest (target ++ text ++ "\n".toList)

/-- The branch of `printdata` for the long form, writing to a target of
`len` bytes. -/
def printdata_long (env : Env) (g : Globals) (rdataset : Rdataset) (owner : DnsName)
    (len : Nat) : Result × CStr :=
  let target : CStr := if !g.yaml && rdataset.negative then "; ".toList else []
  match env.dns_master_rdatasettotext owner rdataset g.styleflags (style_columns g)
      g.splitwidth g.yaml with
  | Except.error e => (e.val, target)
  | Except.ok text =>
    if text.length > len - target.length then (Result.nospace, target)
    else (Result.success, target ++ text)

/-- One round of the `do` loop of `printdata`, with a target of `len`
bytes: the result before the test of the loop, and the target. -/
def printdata_attempt (env : Env) (g : Globals) (rdataset : Rdataset) (owner : DnsName)
    (len : Nat) : Result × CStr :=
  if g.short_form then printdata_short env g rdataset.negative len rdataset.rdatas []
  else printdata_long env g rdataset owner len

/-- The `do` loop of `printdata`, with the number of rounds bounded by
`fuel`: the result after the loop (`ISC_R_NOMORE` turned into success) and
the target; `none` when the bound is reached. -/
def printdata_renderF (env : Env) (g : Globals) (rdataset : Rdataset) (owner : DnsName) :
    Nat → Nat → Option (Result × CStr)
  | 0, _ => none
  | fuel + 1, len =>
    match printdata_attempt env g rdataset owner len with
    | (Result.nospace, _) => printdata_renderF env g rdataset owner fuel (len + 1024)
    | (Result.nomore, target) => some (Result.success, target)
    | (result, target) => some (result, target)

/-- The room that a record takes in the target in short form: its text and
a newline. -/
def rdata_need (env : Env) (g : Globals) (rdata : CStr) : Nat :=
  match env.dns_rdata_tofmttext rdata g.styleflags g.splitwidth with
  | Except.error _ => 0
  | Except.ok text => text.length + 1

/-- A target size with which a round of the `do` loop of `printdata` has
room for all it writes. -/
def printdata_need (env : Env) (g : Globals) (rdataset : Rdataset) (owner : DnsName) : Nat :=
  if g.short_form then (rdataset.rdatas.map (rdata_need env g)).sum
  else
    match env.dns_master_rdatasettotext owner rdataset g.styleflags (style_columns g)
        g.splitwidth g.yaml with
    | Except.error _ => 2
    | Except.ok text => text.length + 2

theorem printdata_short_room (env : Env) (g : Globals) (negative : Bool) (len : Nat)
    (rdatas : List CStr) (target : CStr)
    (h : target.length + (rdatas.map (rdata_need env g)).sum ≤ len) :
    (printdata_short env g negative len rdatas target).1 ≠ Result.nospace := by
  induction rdatas generalizing target with
  | nil =>
    unfold printdata_short
    simp
  | cons rdata rest ih =>
    unfold printdata_short
    simp only [List.map_cons, List.sum_cons] at h
    split
    · exact ih target (by omega)
    · split
      · rename_i e _
        exact e.property.2
      · rename_i text htext
        have hneed : rdata_need env g rdata = text.length + 1 := by
          unfold rdata_need
          rw [htext]
        rw [hneed] at h
        rw [if_neg (by omega)]
        rw [if_neg (by simp only [List.length_append]; omega)]
        apply ih
        have h1 : "\n".toList.length = 1 := by decide
        simp only [List.length_append, h1]
        omega

theorem printdata_attempt_room (env : Env) (g : Globals) (rdataset : Rdataset)
    (owner : DnsName) (len : Nat) (h : printdata_need env g rdataset owner ≤ len) :
    (printdata_attempt env g rdataset owner len).1 ≠ Result.nospace := by
  unfold printdata_attempt
  unfold printdata_need at h
  split
  · rename_i hs
    rw [if_pos hs] at h
    exact printdata_short_room env g _ len _ [] (by simpa using h)
  · rename_i hs
    rw [if_neg hs] at h
    unfold printdata_long
    simp only
    split
    · rename_i e _
      exact e.property.2
    · rename_i text htext
      rw [htext] at h
      simp only at h
      have hlen : (if (!g.yaml && rdataset.negative) = true then "; ".toList
          else ([] : CStr)).length ≤ 2 := by
        split <;> decide
      rw [if_neg (by omega)]
      simp

/-- The `do` loop of `printdata` ends: the target grows by 1024 bytes a
round, so after as many rounds as `printdata_need` it is large enough. -/
theorem printdata_renderF_ne_none (env : Env) (g : Globals) (rdataset : Rdataset)
    (owner : DnsName) (fuel len : Nat)
    (h : printdata_need env g rdataset owner ≤ len + 1024 * fuel) :
    printdata_renderF env g rdataset owner (fuel + 1) len ≠ none := by
  induction fuel generalizing len with
  | zero =>
    unfold printdata_renderF
    have hroom := printdata_attempt_room env g rdataset owner len (by omega)
    split
    · rename_i heq
      rw [heq] at hroom
      exact absurd rfl hroom
    · simp
    · simp
  | succ fuel ih =>
    unfold printdata_renderF
    split
    · exact ih (len + 1024) (by omega)
    · simp
    · simp

/-- The `do` loop of `printdata`, which starts with a target of 2048 bytes:
the result after the loop and the target. -/
def printdata_render (env : Env) (g : Globals) (rdataset : Rdataset) (owner : DnsName) :
    Result × CStr :=
  match h : printdata_renderF env g rdataset owner
      (printdata_need env g rdataset owner + 1) 2048 with
  | some r => r
  | none =>
    absurd h (printdata_renderF_ne_none env g rdataset owner _ 2048
      (by omega))

/-- The part of `printdata` that deals with the trust banner: on the first
rdataset printed and on every change of the trust level, a blank line
(between banners of the long zone-file form), the banner of `print_status`,
and the new values of the statics `trust` and `first`. -/
def printdata_banner (rdataset : Rdataset) (g : Globals) : Globals :=
  if g.printdata_first || rdataset.trust != g.printdata_trust then
    let g2 : Globals :=
      if !g.printdata_first && g.showtrust && !g.short_form && !g.yaml then
        { g with stdout := g.stdout ++ ["\n"] }
      else g
    { print_status g2 rdataset with
        printdata_trust := rdataset.trust, printdata_first := false }
  else g

/-- The C function `printdata(rdataset, owner)`.  The debug line for an
empty rdataset is left out; the function returns success on every path. -/
def printdata (env : Env) (rdataset : Rdataset) (owner : DnsName) (g : Globals) :
    Result × Globals :=
  if !rdataset.associated then (Result.success, g)
  else if !g.showdnssec && rdataset.rdtype == dns_rdatatype_rrsig then (Result.success, g)
  else
    match printdata_render env (printdata_banner rdataset g) rdataset owner with
    | (Result.success, target) =>
      (Result.success,
        { printdata_banner rdataset g with
            stdout := (printdata_banner rdataset g).stdout ++ [String.mk target] })
    | (_, _) => (Result.success, printdata_banner rdataset g)

/-- Calls of `printdata` in a row, one for each rdataset with its owner
name. -/
def printdata_each (env : Env) : List (Rdataset × DnsName) → Globals → Globals
  | [], g => g
  | (rdataset, owner) :: rest, g => printdata_each env rest (printdata env rdataset owner g).2

end Delv

/-!
# dig: a shallow embedding of parts of `bin/dig/dighost.c`

The functions of `dighost.c` that clone, time out, clear and cancel a lookup,
and the one that follows a zone transfer.  A lookup and its queries are
records; the module-level variables are the record `Globals`.  Calls that
leave the program are the error side of `Except Exit`.
-/

namespace Dighost

open Delv (CStr Result Exit)

/-! ## Lookups, queries and module-level state -/

/-- The constant `dns_rdatatype_a` of the DNS library. -/
def dns_rdatatype_a : Nat := 1

/-- The constant `dns_rdatatype_soa` of the DNS library. -/
def dns_rdatatype_soa : Nat := 6

/-- The constant `dns_rdatatype_ixfr` of the DNS library. -/
def dns_rdatatype_ixfr : Nat := 251

/-- The constant `dns_rdatatype_axfr` of the DNS library. -/
def dns_rdatatype_axfr : Nat := 252

/-- The constant `dns_rdataclass_in` of the DNS library. -/
def dns_rdataclass_in : Nat := 1

/-- The constant `DNS_MESSAGEFLAG_TC` of the DNS library. -/
def DNS_MESSAGEFLAG_TC : Nat := 0x0200

/-- A `dig_server_t`: the string held by `servername`. -/
structure dig_server where
  servername : CStr
deriving DecidableEq, Repr

/-- The fields of a `dig_query_t` that the functions below use.  `sock` tells
whether the pointer of that name is set; the counters are taken as natural
numbers, without wrap-around. -/
structure dig_query where
  servname : CStr
  sock : Bool
  waiting_connect : Bool
  first_pass : Bool
  first_soa_rcvd : Bool
  second_rr_rcvd : Bool
  first_repeat_rcvd : Bool
  first_rr_serial : Nat
  second_rr_serial : Nat
  rr_count : Nat
  name_count : Nat
deriving DecidableEq, Repr

/-- The fields of a `dig_lookup_t` that `make_empty_lookup` sets.  For the
pointers `sendspace`, `sendmsg`, `name`, `oname`, `timer`, `xfr_q`, `origin`
and `querysig` the field tells whether the pointer is set; `q` is the list of
queries and `my_server_list` the list of servers. -/
structure dig_lookup where
  pending : Bool
  textname : CStr
  rdtype : Nat
  rdclass : Nat
  sendspace : Bool
  sendmsg : Bool
  name : Bool
  oname : Bool
  timer : Bool
  xfr_q : Bool
  doing_xfr : Bool
  ixfr_serial : Nat
  defname : Bool
  trace : Bool
  trace_root : Bool
  identify : Bool
  ignore : Bool
  udpsize : Nat
  recurse : Bool
  aaonly : Bool
  adflag : Bool
  cdflag : Bool
  ns_search_only : Bool
  origin : Bool
  querysig : Bool
  retries : Int
  nsfound : Nat
  tcp_mode : Bool
  nibble : Bool
  comments : Bool
  stats : Bool
  section_question : Bool
  section_answer : Bool
  section_authority : Bool
  section_additional : Bool
  new_search : Bool
  q : List dig_query
  my_server_list : List dig_server
deriving DecidableEq, Repr

/-- A call of a library routine that acts on a socket, on a timer or on
memory, with the server name of the query or the name of what is freed; for
`isc_socket_sendv`, whether the list of buffers sent holds the question. -/
inductive Call where
  | isc_timer_create
  | isc_timer_reset
  | isc_timer_detach
  | isc_socket_recvv (servname : CStr)
  | isc_socket_sendtov (servname : CStr)
  | isc_socket_sendv (servname : CStr) (include_question : Bool)
  | isc_socket_cancel (servname : CStr)
  | isc_socket_detach (servname : CStr)
  | free_query (servname : CStr)
  | free_server (servername : CStr)
  | free_lookup (textname : CStr)
  | dns_message_destroy
  | isc_buffer_free
  | isc_mempool_put
  | received
deriving DecidableEq, Repr

/-- The module-level variables of `dighost.c` that the functions below use,
followed by the text written to the two output streams and the library calls
made.  A function that gets a lookup through a pointer takes the value of the
lookup as an argument and returns the value it has afterwards; `current_lookup`
holds the lookup that `start_lookup` made current, as `setup_lookup` and
`do_lookup` left it, and is `none` for a null pointer. -/
structure Globals where
  lookup_list : List dig_lookup
  free_now : Bool
  cancel_now : Bool
  debugging : Bool
  timeout : Nat
  sendcount : Int
  recvcount : Int
  sockcount : Int
  tries : Int
  lookup_counter : Int
  exitcode : Int
  current_lookup : Option dig_lookup
  name_limit : Nat
  rr_limit : Nat
  stderr : List String
  stdout : List String
  calls : List Call
deriving DecidableEq, Repr

/-- What the embedded functions call and this development takes as given:
the constants of `dig.h` and `limits.h`, the results of library routines, the
function `dighost_shutdown` of the program that uses `dighost.c`, and the two
functions `setup_lookup` and `do_lookup` with which `start_lookup` starts the
lookup it has made current. -/
structure Env where
  /-- The constant `MXNAME` of `dig.h`. -/
  MXNAME : Nat
  /-- The constant `LOOKUP_LIMIT` of `dig.h`. -/
  LOOKUP_LIMIT : Int
  /-- The constant `UDP_TIMEOUT` of `dig.h`. -/
  UDP_TIMEOUT : Nat
  /-- The constant `INT_MAX`. -/
  INT_MAX : Nat
  /-- The result of `isc_mutex_lock`. -/
  isc_mutex_lock : Result
  /-- The result of `isc_mutex_unlock`. -/
  isc_mutex_unlock : Result
  /-- The result of `isc_timer_create`. -/
  isc_timer_create : Result
  /-- The result of `isc_timer_reset`. -/
  isc_timer_reset : Result
  /-- The result of `isc_time_now`. -/
  isc_time_now : Result
  /-- The result of `isc_socket_recvv`. -/
  isc_socket_recvv : Result
  /-- The result of `isc_socket_sendtov`. -/
  isc_socket_sendtov : Result
  /-- The result of `isc_socket_sendv`. -/
  isc_socket_sendv : Result
  /-- The result of `isc_sockaddr_totext`. -/
  isc_sockaddr_totext : Result
  /-- The function `dighost_shutdown()`. -/
  dighost_shutdown : Globals → Except Exit Globals
  /-- The calls `setup_lookup(current_lookup); do_lookup(current_lookup);`
  of `start_lookup`: the lookup as the two functions leave it, and the
  state. -/
  setup_and_do_lookup : dig_lookup → Globals → Except Exit (dig_lookup × Globals)

/-- The initial values of the module-level variables. -/
def Globals.init : Globals where
  lookup_list := []
  free_now := false
  cancel_now := false
  debugging := false
  timeout := 0
  sendcount := 0
  recvcount := 0
  sockcount := 0
  tries := 2
  lookup_counter := 0
  exitcode := 0
  current_lookup := none
  name_limit := 2147483647
  rr_limit := 2147483647
  stderr := []
  stdout := []
  calls := []

/-- The text of an `isc_result_t`; only its presence in a message matters
here. -/
def isc_result_totext (result : Result) : String := Delv.isc_result_totext result

/-- The C function `fatal(format, ...)`: a line on stderr, then `exit` with
`exitcode` raised to at least 10. -/
def fatal {α : Type} (msg : String) (g : Globals) : Except Exit α :=
  Except.error { code := (if g.exitcode < 10 then 10 else g.exitcode).toNat, message := msg }

/-- A failed `INSIST` or `REQUIRE`: the program aborts. -/
def assertion_failed {α : Type} (cond : String) : Except Exit α :=
  Except.error { code := 134, message := cond }

/-- The C function `debug(format, ...)`: one line on stderr when `debugging`
is set.  Pointer values, file names and line numbers are not modelled: their
conversions stay in the line as they are in the format. -/
def debug (msg : String) (g : Globals) : Globals :=
  if g.debugging then { g with stderr := g.stderr ++ [msg ++ "\n"] } else g

/-- The C function `check_result(result, msg)`. -/
def check_result (result : Result) (msg : String) (g : Globals) : Except Exit Globals :=
  if result != Result.success then fatal (msg ++ ": " ++ isc_result_totext result) g
  else Except.ok g

/-- The macro `LOCK_LOOKUP`. -/
def LOCK_LOOKUP (env : Env) (g : Globals) : Except Exit Globals :=
  match check_result env.isc_mutex_lock "isc_mutex_lock" (debug "lock_lookup %s:%d" g) with
  | Except.error e => Except.error e
  | Except.ok g1 => Except.ok (debug "success" g1)

/-- The macro `UNLOCK_LOOKUP`. -/
def UNLOCK_LOOKUP (env : Env) (g : Globals) : Except Exit Globals :=
  check_result env.isc_mutex_unlock "isc_mutex_unlock" (debug "unlock_lookup %s:%d" g)

/-! ## Cloning a lookup (`clone_server_list`, `make_empty_lookup`, `clone_lookup`, `requeue_lookup`) -/

/-- The string that an array holds after `strncpy(dst, src, n)` when `src`
has fewer than `n` characters; a longer `src` leaves its first `n` characters
in the array, with no terminating NUL. -/
def strncpy (src : CStr) (n : Nat) : CStr := src.take n

/-- The C function `make_server(servname)`; the allocation is taken to
succeed. -/
def make_server (env : Env) (servname : CStr) (g : Globals) : dig_server × Globals :=
  ({ servername := strncpy servname env.MXNAME },
    debug ("make_server(" ++ String.mk servname ++ ")") g)

/-- The `while` loop of `clone_server_list` over the servers of `src` still
to come. -/
def clone_server_list_loop (env : Env) :
    List dig_server → List dig_server → Globals → List dig_server × Globals
  | [], dest, g => (dest, g)
  | srv :: rest, dest, g =>
    match make_server env srv.servername g with
    | (newsrv, g1) => clone_server_list_loop env rest (dest ++ [newsrv]) g1

/-- The C function `clone_server_list(src, dest)`: the new `*dest`. -/
def clone_server_list (env : Env) (src dest : List dig_server) (g : Globals) :
    List dig_server × Globals :=
  clone_server_list_loop env src dest (debug "clone_server_list()" g)

/-- The C function `make_empty_lookup()`; the allocation is taken to
succeed. -/
def make_empty_lookup (g : Globals) : Except Exit (dig_lookup × Globals) :=
  let g1 := debug "make_lookup()" g
  if g1.free_now then assertion_failed "INSIST(!free_now)"
  else
    Except.ok
      ({ pending := true
         textname := []
         rdtype := dns_rdatatype_a
         rdclass := dns_rdataclass_in
         sendspace := false
         sendmsg := false
         name := false
         oname := false
         timer := false
         xfr_q := false
         doing_xfr := false
         ixfr_serial := 0
         defname := false
         trace := false
         trace_root := false
         identify := false
         ignore := false
         udpsize := 0
         recurse := true
         aaonly := false
         adflag := false
         cdflag := false
         ns_search_only := false
         origin := false
         querysig := false
         retries := g1.tries
         nsfound := 0
         tcp_mode := false
         nibble := false
         comments := true
         stats := true
         section_question := true
         section_answer := true
         section_authority := true
         section_additional := true
         new_search := false
         q := []
         my_server_list := [] },
        g1)

/-- The C function `clone_lookup(lookold, servers)`. -/
def clone_lookup (env : Env) (lookold : dig_lookup) (servers : Bool) (g : Globals) :
    Except Exit (dig_lookup × Globals) :=
  let g1 := debug "clone_lookup()" g
  if g1.free_now then assertion_failed "INSIST(!free_now)"
  else
    match make_empty_lookup g1 with
    | Except.error e => Except.error e
    | Except.ok (looknew, g2) =>
      let looknew : dig_lookup :=
        { looknew with
            textname := strncpy lookold.textname env.MXNAME
            rdtype := lookold.rdtype
            rdclass := lookold.rdclass
            doing_xfr := lookold.doing_xfr
            ixfr_serial := lookold.ixfr_serial
            defname := lookold.defname
            trace := lookold.trace
            trace_root := lookold.trace_root
            identify := lookold.identify
            ignore := lookold.ignore
            udpsize := lookold.udpsize
            recurse := lookold.recurse
            aaonly := lookold.aaonly
            adflag := lookold.adflag
            cdflag := lookold.cdflag
            ns_search_only := lookold.ns_search_only
            tcp_mode := lookold.tcp_mode
            comments := lookold.comments
            stats := lookold.stats
            section_question := lookold.section_question
            section_answer := lookold.section_answer
            section_authority := lookold.section_authority
            section_additional := lookold.section_additional }
      if servers then
        match clone_server_list env lookold.my_server_list looknew.my_server_list g2 with
        | (list, g3) => Except.ok ({ looknew with my_server_list := list }, g3)
      else Except.ok (looknew, g2)

/-- The C function `requeue_lookup(lookold, servers)`: the new lookup, which
is also the head of `lookup_list` in the new state. -/
def requeue_lookup (env : Env) (lookold : dig_lookup) (servers : Bool) (g : Globals) :
    Except Exit (dig_lookup × Globals) :=
  let g1 := debug "requeue_lookup()" g
  let g2 := { g1 with lookup_counter := g1.lookup_counter + 1 }
  if g2.lookup_counter > env.LOOKUP_LIMIT then fatal "Too many lookups" g2
  else
    match clone_lookup env lookold servers g2 with
    | Except.error e => Except.error e
    | Except.ok (looknew, g3) =>
      let g4 := debug "before insertion, init@%p -> %p, new@%p -> %p" g3
      let g5 := { g4 with lookup_list := looknew :: g4.lookup_list }
      Except.ok (looknew, debug "after insertion, init -> %p, new = %p, new -> %p" g5)

/-! ## Ending a lookup (`check_if_done`, `clear_query`, `try_clear_lookup`, `start_lookup`, `check_next_lookup`, `cancel_lookup`) -/

/-- The C function `check_if_done()`. -/
def check_if_done (env : Env) (g : Globals) : Except Exit Globals :=
  let g1 := debug "check_if_done()" g
  let g2 := debug ("list " ++ (if g1.lookup_list.isEmpty then "empty" else "full")) g1
  if g2.lookup_list.isEmpty && g2.current_lookup.isNone && g2.sendcount == 0 then
    if g2.sockcount != 0 then assertion_failed "INSIST(sockcount == 0)"
    else if g2.recvcount != 0 then assertion_failed "INSIST(recvcount == 0)"
    else env.dighost_shutdown (debug "shutting down" g2)
  else Except.ok g2

/-- The C function `clear_query(query)` on the query at position `i` of the
list `lookup->q`: the lookup without the query, and the state.  The receive
buffers are not modelled. -/
def clear_query (lookup : dig_lookup) (i : Nat) (g : Globals) :
    Except Exit (dig_lookup × Globals) :=
  match lookup.q.get? i with
  | none => assertion_failed "REQUIRE(query != NULL)"
  | some query =>
    let g1 := debug "clear_query(%p)" g
    let g2 :=
      if query.sock then
        debug ("sockcount=" ++ toString (g1.sockcount - 1))
          { g1 with
              sockcount := g1.sockcount - 1,
              calls := g1.calls ++ [Call.isc_socket_detach query.servname] }
      else g1
    Except.ok
      ({ lookup with q := lookup.q.eraseIdx i },
        { g2 with calls := g2.calls ++ [Call.isc_mempool_put, Call.free_query query.servname] })

/-- The part of `try_clear_lookup` after the comment "At this point, we know
there are no queries on the lookup": the servers, the message, the signature
buffer, the timer, the send space and the lookup itself are given back. -/
def try_clear_lookup_free (lookup : dig_lookup) (g : Globals) : Globals :=
  let g1 := debug "cleared" g
  let g2 := lookup.my_server_list.foldl
    (fun (g : Globals) (s : dig_server) =>
      let g := debug "freeing server %p belonging to %p" g
      { g with calls := g.calls ++ [Call.free_server s.servername] })
    g1
  let g3 := if lookup.sendmsg then { g2 with calls := g2.calls ++ [Call.dns_message_destroy] } else g2
  let g4 :=
    if lookup.querysig then
      let g := debug "freeing buffer %p" g3
      { g with calls := g.calls ++ [Call.isc_buffer_free] }
    else g3
  let g5 := if lookup.timer then { g4 with calls := g4.calls ++ [Call.isc_timer_detach] } else g4
  let g6 := if lookup.sendspace then { g5 with calls := g5.calls ++ [Call.isc_mempool_put] } else g5
  { g6 with calls := g6.calls ++ [Call.free_lookup lookup.textname] }

/-- The C function `try_clear_lookup(lookup)`: the return value, the lookup
(`none` once it is freed) and the state.  As in the source, the statement
`return (ISC_FALSE);` stands inside the block of `if (debugging)`. -/
def try_clear_lookup (lookup : dig_lookup) (g : Globals) : Bool × Option dig_lookup × Globals :=
  let g1 := debug "try_clear_lookup(%p)" g
  if !lookup.q.isEmpty then
    if g1.debugging then
      (false, some lookup,
        lookup.q.foldl
          (fun (g : Globals) (q : dig_query) =>
            debug ("query to " ++ String.mk q.servname ++ " still pending") g)
          g1)
    else (true, none, try_clear_lookup_free lookup g1)
  else (true, none, try_clear_lookup_free lookup g1)

/-- The C function `start_lookup()`. -/
def start_lookup (env : Env) (g : Globals) : Except Exit Globals :=
  let g1 := debug "start_lookup()" g
  if g1.cancel_now then Except.ok g1
  else if g1.current_lookup.isSome then assertion_failed "INSIST(current_lookup == NULL)"
  else
    match g1.lookup_list with
    | lookup :: rest =>
      match env.setup_and_do_lookup lookup
          { g1 with current_lookup := some lookup, lookup_list := rest } with
      | Except.error e => Except.error e
      | Except.ok (lookup1, g2) => Except.ok { g2 with current_lookup := some lookup1 }
    | [] => check_if_done env g1

/-- The C function `check_next_lookup(lookup)`: the lookup (`none` once it is
freed) and the state. -/
def check_next_lookup (env : Env) (lookup : dig_lookup) (g : Globals) :
    Except Exit (Option dig_lookup × Globals) :=
  if g.free_now then assertion_failed "INSIST(!free_now)"
  else
    let g1 := debug "check_next_lookup(%p)" g
    if !lookup.q.isEmpty then Except.ok (some lookup, debug "still have a worker" g1)
    else
      match try_clear_lookup lookup g1 with
      | (true, lookup1, g2) =>
        match start_lookup env { g2 with current_lookup := none } with
        | Except.error e => Except.error e
        | Except.ok g3 => Except.ok (lookup1, g3)
      | (false, lookup1, g2) => Except.ok (lookup1, g2)

/-- The `for` loop of `cancel_lookup` over the queries still to come. -/
def cancel_lookup_loop (env : Env) : List dig_query → Globals → Except Exit Globals
  | [], g => Except.ok g
  | query :: rest, g =>
    if query.sock then
      match check_if_done env
          { g with calls := g.calls ++ [Call.isc_socket_cancel query.servname] } with
      | Except.error e => Except.error e
      | Except.ok g1 => cancel_lookup_loop env rest g1
    else cancel_lookup_loop env rest g

/-- The C function `cancel_lookup(lookup)`. -/
def cancel_lookup (env : Env) (lookup : dig_lookup) (g : Globals) :
    Except Exit (dig_lookup × Globals) :=
  match cancel_lookup_loop env lookup.q (debug "cancel_lookup()" g) with
  | Except.error e => Except.error e
  | Except.ok g1 => Except.ok ({ lookup with pending := false, retries := 0 }, g1)

/-! ## Timeouts (`send_udp`, `connect_timeout`) -/

/-- The `for` loop of `send_udp` over the queries still to come. -/
def send_udp_loop (env : Env) (make_recv : Bool) : List dig_query → Globals → Except Exit Globals
  | [], g => Except.ok g
  | query :: rest, g =>
    let g1 := debug "working on lookup %p, query %p" g
    let received : Except Exit Globals :=
      if make_recv then
        let g2 := debug "recving with lookup=%p, query=%p, sock=%p" g1
        match check_result env.isc_socket_recvv "isc_socket_recvv"
            { g2 with calls := g2.calls ++ [Call.isc_socket_recvv query.servname] } with
        | Except.error e => Except.error e
        | Except.ok g3 =>
          Except.ok
            (debug ("recvcount=" ++ toString (g3.recvcount + 1))
              { g3 with recvcount := g3.recvcount + 1 })
      else Except.ok g1
    match received with
    | Except.error e => Except.error e
    | Except.ok g4 =>
      match check_result env.isc_time_now "isc_time_now" (debug "sending a request" g4) with
      | Except.error e => Except.error e
      | Except.ok g5 =>
        if !query.sock then assertion_failed "INSIST(query->sock != NULL)"
        else
          match check_result env.isc_socket_sendtov "isc_socket_sendtov"
              { g5 with calls := g5.calls ++ [Call.isc_socket_sendtov query.servname] } with
          | Except.error e => Except.error e
          | Except.ok g6 =>
            send_udp_loop env make_recv rest { g6 with sendcount := g6.sendcount + 1 }

/-- The C function `send_udp(lookup, make_recv)`. -/
def send_udp (env : Env) (lookup : dig_lookup) (make_recv : Bool) (g : Globals) :
    Except Exit (dig_lookup × Globals) :=
  let g1 := debug "send_udp()" g
  let timed : Except Exit (dig_lookup × Globals) :=
    if !lookup.timer then
      if g1.timeout != env.INT_MAX then
        let local_timeout := if g1.timeout == 0 then env.UDP_TIMEOUT else g1.timeout
        let g2 := debug ("have local timeout of " ++ toString local_timeout) g1
        match check_result env.isc_timer_create "isc_timer_create"
            { g2 with calls := g2.calls ++ [Call.isc_timer_create] } with
        | Except.error e => Except.error e
        | Except.ok g3 => Except.ok ({ lookup with timer := true }, g3)
      else Except.ok (lookup, g1)
    else
      match check_result env.isc_timer_reset "isc_timer_reset"
          { g1 with calls := g1.calls ++ [Call.isc_timer_reset] } with
      | Except.error e => Except.error e
      | Except.ok g2 => Except.ok (lookup, g2)
  match timed with
  | Except.error e => Except.error e
  | Except.ok (lookup1, g4) =>
    match send_udp_loop env make_recv lookup1.q g4 with
    | Except.error e => Except.error e
    | Except.ok g5 => Except.ok (lookup1, g5)

/-- The C function `connect_timeout(task, event)`, `lookup` being the lookup
that `event->ev_arg` designates. -/
def connect_timeout (env : Env) (lookup : dig_lookup) (g : Globals) :
    Except Exit (dig_lookup × Globals) :=
  match LOCK_LOOKUP env (debug "connect_timeout()" g) with
  | Except.error e => Except.error e
  | Except.ok g1 =>
    if g1.free_now then assertion_failed "INSIST(!free_now)"
    else
      let handled : Except Exit (dig_lookup × Globals) :=
        if lookup.retries > 1 then
          if !lookup.tcp_mode then
            send_udp env { lookup with retries := lookup.retries - 1 } false
              (debug "resending UDP request" g1)
          else
            match cancel_lookup env lookup (debug "making new TCP request" g1) with
            | Except.error e => Except.error e
            | Except.ok (lookup1, g2) =>
              match requeue_lookup env { lookup1 with retries := lookup1.retries - 1 } true g2 with
              | Except.error e => Except.error e
              | Except.ok (_, g3) => Except.ok ({ lookup1 with retries := lookup1.retries - 1 }, g3)
        else
          cancel_lookup env lookup
            { g1 with
                stdout := g1.stdout
                  ++ [";; connection timed out; no servers could be reached\n"] }
      match handled with
      | Except.error e => Except.error e
      | Except.ok (lookup2, g4) =>
        match UNLOCK_LOOKUP env g4 with
        | Except.error e => Except.error e
        | Except.ok g5 => Except.ok (lookup2, g5)

/-! ## Zone transfers (`launch_next_query`, `check_for_more_data`) -/

/-- The C function `launch_next_query(query, include_question)` on the query
at position `i` of `lookup->q`: the lookup (`none` once it is freed) and the
state.  Of the buffers only the presence of the question in the list sent is
kept. -/
def launch_next_query (env : Env) (lookup : dig_lookup) (i : Nat) (include_question : Bool)
    (g : Globals) : Except Exit (Option dig_lookup × Globals) :=
  if g.free_now then assertion_failed "INSIST(!free_now)"
  else
    let g1 := debug "launch_next_query()" g
    match lookup.q.get? i with
    | none => assertion_failed "query != NULL"
    | some query =>
      if !lookup.pending then
        let g2 := debug "ignoring launch_next_query because !pending" g1
        let g3 :=
          { g2 with
              sockcount := g2.sockcount - 1,
              calls := g2.calls ++ [Call.isc_socket_detach query.servname] }
        let g4 := debug ("sockcount=" ++ toString g3.sockcount) g3
        if g4.sockcount < 0 then assertion_failed "INSIST(sockcount >= 0)"
        else
          match clear_query
              { lookup with
                  q := lookup.q.set i { query with sock := false, waiting_connect := false } }
              i g4 with
          | Except.error e => Except.error e
          | Except.ok (lookup1, g5) => check_next_lookup env lookup1 g5
      else
        match check_result env.isc_socket_recvv "isc_socket_recvv"
            { g1 with calls := g1.calls ++ [Call.isc_socket_recvv query.servname] } with
        | Except.error e => Except.error e
        | Except.ok g2 =>
          let g3 := debug ("recvcount=" ++ toString (g2.recvcount + 1))
            { g2 with recvcount := g2.recvcount + 1 }
          let sent : Except Exit Globals :=
            if !query.first_soa_rcvd then
              match check_result env.isc_time_now "isc_time_now"
                  (debug "sending a request in launch_next_query" g3) with
              | Except.error e => Except.error e
              | Except.ok g4 =>
                match check_result env.isc_socket_sendv "isc_socket_sendv"
                    { g4 with calls := g4.calls ++ [Call.isc_socket_sendv query.servname include_question] } with
                | Except.error e => Except.error e
                | Except.ok g5 =>
                  Except.ok
                    (debug ("sendcount=" ++ toString (g5.sendcount + 1))
                      { g5 with sendcount := g5.sendcount + 1 })
            else Except.ok g3
          match sent with
          | Except.error e => Except.error e
          | Except.ok g6 =>
            Except.ok
              (some { lookup with q := lookup.q.set i { query with waiting_connect := false } },
                g6)

/-- A record of the answer section, as `check_for_more_data` looks at it: its
type and, for an SOA record, the serial that `dns_rdata_tostruct` reads from
it; the conversion is taken to succeed. -/
structure dns_rdata where
  type : Nat
  serial : Nat
deriving DecidableEq, Repr

/-- The answer section of a `dns_message_t`: for each name its rdatasets, and
for each rdataset its records. -/
abbrev Answer := List (List (List dns_rdata))

/-- How the walk over the records of `check_for_more_data` goes on: to the
next record, to `return (ISC_TRUE)` after the complaint about the first
record, or to the label `doexit`. -/
inductive Flow where
  | next
  | failed
  | doexit
deriving DecidableEq, Repr

/-- One round of the inner `do` loop of `check_for_more_data` after the
count of the record, on the current record `rdata` with the records `rest`
still to come: either the loop is left (to `return`, or to the label
`doexit`), or another round follows, on the records given.  The statement
`continue` in the loop goes to the test of `result`, which is still success,
and so to another round on the same record; the label `next_rdata` leads to
the next record. -/
def rdata_round_body (lookup : dig_lookup) (rdata : dns_rdata) (rest : List dns_rdata)
    (query : dig_query) (atlimit : Bool) (g : Globals) :
    (Flow × dig_query × Bool × Globals) ⊕ (List dns_rdata × dig_query × Bool × Globals) :=
  if !query.first_soa_rcvd && rdata.type != dns_rdatatype_soa then
    Sum.inl (Flow.failed, query, atlimit,
      { g with stdout := g.stdout ++ ["; Transfer failed.  Didn't start with SOA answer.\n"] })
  else if !query.second_rr_rcvd && rdata.type != dns_rdatatype_soa then
    Sum.inr (rdata :: rest, { query with second_rr_rcvd := true, second_rr_serial := 0 },
      atlimit, debug "got the second rr as nonsoa" g)
  else if rdata.type != dns_rdatatype_soa then Sum.inr (rest, query, atlimit, g)
  else if !query.first_soa_rcvd then
    if lookup.ixfr_serial ≥ rdata.serial then
      Sum.inl (Flow.doexit,
        { query with first_soa_rcvd := true, first_rr_serial := rdata.serial }, atlimit,
        debug ("this is the first " ++ toString lookup.ixfr_serial) (debug "got an SOA" g))
    else
      Sum.inr (rest,
        { query with first_soa_rcvd := true, first_rr_serial := rdata.serial }, atlimit,
        debug ("this is the first " ++ toString lookup.ixfr_serial) (debug "got an SOA" g))
  else if lookup.rdtype == dns_rdatatype_axfr then
    Sum.inl (Flow.doexit, query, atlimit,
      debug "doing axfr, got second SOA" (debug "got an SOA" g))
  else if !query.second_rr_rcvd then
    if rdata.serial == query.first_rr_serial then
      Sum.inl (Flow.doexit, query, atlimit,
        debug "doing ixfr, got empty zone" (debug "got an SOA" g))
    else
      Sum.inr (rest, { query with second_rr_rcvd := true, second_rr_serial := rdata.serial },
        atlimit,
        debug ("this is the second " ++ toString lookup.ixfr_serial) (debug "got an SOA" g))
  else if query.second_rr_serial == 0 then
    Sum.inl (Flow.doexit, query, atlimit, debug "done, since axfr" (debug "got an SOA" g))
  else if query.first_rr_serial == rdata.serial then
    if !query.first_repeat_rcvd then
      Sum.inr (rest, { query with first_repeat_rcvd := true }, atlimit,
        debug "got a match for ixfr" (debug "got an SOA" g))
    else
      Sum.inl (Flow.doexit, query, atlimit,
        debug "done with ixfr" (debug "got a match for ixfr" (debug "got an SOA" g)))
  else
    Sum.inr (rest, query, atlimit,
      debug ("meaningless soa " ++ toString rdata.serial) (debug "got an SOA" g))

/-- One round of the inner `do` loop of `check_for_more_data`: the record is
counted, and `atlimit` is set when the count has reached `rr_limit`. -/
def rdata_round (lookup : dig_lookup) (rdata : dns_rdata) (rest : List dns_rdata)
    (query : dig_query) (atlimit : Bool) (g : Globals) :
    (Flow × dig_query × Bool × Globals) ⊕ (List dns_rdata × dig_query × Bool × Globals) :=
  rdata_round_body lookup rdata rest { query with rr_count := query.rr_count + 1 }
    (if query.rr_count + 1 ≥ g.rr_limit then true else atlimit) g

/-- The inner `do` loop of `check_for_more_data` over the records of one
rdataset, the first of the list being the current one, with the number of
rounds bounded by `fuel`; the loop ends when `dns_rdataset_next` finds no
further record. -/
def rdata_loop (lookup : dig_lookup) :
    Nat → List dns_rdata → dig_query → Bool → Globals →
      Option (Flow × dig_query × Bool × Globals)
  | 0, _, _, _, _ => none
  | _ + 1, [], query, atlimit, g => some (Flow.next, query, atlimit, g)
  | fuel + 1, rdata :: rest, query, atlimit, g =>
    match rdata_round lookup rdata rest query atlimit g with
    | Sum.inl r => some r
    | Sum.inr (rdatas, query1, atlimit1, g1) => rdata_loop lookup fuel rdatas query1 atlimit1 g1

/-- The rounds that the inner loop can still make: two for a record while
the second record is not yet seen, one afterwards. -/
def rdata_rounds (rdatas : List dns_rdata) (query : dig_query) : Nat :=
  2 * rdatas.length + (if query.second_rr_rcvd then 0 else 1)

theorem rdata_rounds_next (rdata : dns_rdata) (rest : List dns_rdata) (query query1 : dig_query)
    (h : query.second_rr_rcvd = true → query1.second_rr_rcvd = true) :
    rdata_rounds rest query1 < rdata_rounds (rdata :: rest) query := by
  unfold rdata_rounds
  simp only [List.length_cons]
  cases hq : query.second_rr_rcvd
  · split <;> simp only [Bool.false_eq_true, if_false] <;> omega
  · rw [h hq]
    simp

theorem rdata_rounds_again (rdatas : List dns_rdata) (query query1 : dig_query)
    (h0 : query.second_rr_rcvd = false) (h1 : query1.second_rr_rcvd = true) :
    rdata_rounds rdatas query1 < rdata_rounds rdatas query := by
  unfold rdata_rounds
  rw [h0, h1]
  simp

theorem rdata_round_rounds (lookup : dig_lookup) (rdata : dns_rdata) (rest : List dns_rdata)
    (query : dig_query) (atlimit : Bool) (g : Globals) (rdatas : List dns_rdata)
    (query1 : dig_query) (atlimit1 : Bool) (g1 : Globals)
    (h : rdata_round lookup rdata rest query atlimit g = Sum.inr (rdatas, query1, atlimit1, g1)) :
    rdata_rounds rdatas query1 < rdata_rounds (rdata :: rest) query := by
  unfold rdata_round rdata_round_body at h
  dsimp only at h
  by_cases c1 : (!query.first_soa_rcvd && rdata.type != dns_rdatatype_soa) = true
  · rw [if_pos c1] at h
    exact absurd h (by simp)
  rw [if_neg c1] at h
  by_cases c2 : (!query.second_rr_rcvd && rdata.type != dns_rdatatype_soa) = true
  · rw [if_pos c2] at h
    cases h
    apply rdata_rounds_again
    · simp only [Bool.and_eq_true, Bool.not_eq_true'] at c2
      exact c2.1
    · rfl
  rw [if_neg c2] at h
  by_cases c3 : (rdata.type != dns_rdatatype_soa) = true
  · rw [if_pos c3] at h
    cases h
    exact rdata_rounds_next _ _ _ _ (fun hq => hq)
  rw [if_neg c3] at h
  by_cases c4 : (!query.first_soa_rcvd) = true
  · rw [if_pos c4] at h
    by_cases c5 : lookup.ixfr_serial ≥ rdata.serial
    · rw [if_pos c5] at h
      exact absurd h (by simp)
    · rw [if_neg c5] at h
      cases h
      exact rdata_rounds_next _ _ _ _ (fun hq => hq)
  rw [if_neg c4] at h
  by_cases c6 : (lookup.rdtype == dns_rdatatype_axfr) = true
  · rw [if_pos c6] at h
    exact absurd h (by simp)
  rw [if_neg c6] at h
  by_cases c7 : (!query.second_rr_rcvd) = true
  · rw [if_pos c7] at h
    by_cases c8 : (rdata.serial == query.first_rr_serial) = true
    · rw [if_pos c8] at h
      exact absurd h (by simp)
    · rw [if_neg c8] at h
      cases h
      exact rdata_rounds_next _ _ _ _ (fun _ => rfl)
  rw [if_neg c7] at h
  by_cases c9 : (query.second_rr_serial == 0) = true
  · rw [if_pos c9] at h
    exact absurd h (by simp)
  rw [if_neg c9] at h
  by_cases c10 : (query.first_rr_serial == rdata.serial) = true
  · rw [if_pos c10] at h
    by_cases c11 : (!query.first_repeat_rcvd) = true
    · rw [if_pos c11] at h
      cases h
      exact rdata_rounds_next _ _ _ _ (fun hq => hq)
    · rw [if_neg c11] at h
      exact absurd h (by simp)
  rw [if_neg c10] at h
  cases h
  exact rdata_rounds_next _ _ _ _ (fun hq => hq)

/-- The inner loop of `check_for_more_data` ends: a round either goes on to
the next record or, once, marks the second record as seen. -/
theorem rdata_loop_ne_none (lookup : dig_lookup) (fuel : Nat) (rdatas : List dns_rdata)
    (query : dig_query) (atlimit : Bool) (g : Globals)
    (h : rdata_rounds rdatas query < fuel) :
    rdata_loop lookup fuel rdatas query atlimit g ≠ none := by
  induction fuel generalizing rdatas query atlimit g with
  | zero => omega
  | succ fuel ih =>
    cases rdatas with
    | nil => simp [rdata_loop]
    | cons rdata rest =>
      unfold rdata_loop
      cases hr : rdata_round lookup rdata rest query atlimit g with
      | inl r => simp
      | inr r =>
        obtain ⟨rdatas1, query1, atlimit1, g1⟩ := r
        have := rdata_round_rounds lookup rdata rest query atlimit g _ _ _ _ hr
        exact ih _ _ _ _ (by omega)

/-- The inner `do` loop of `check_for_more_data` over the records of an
rdataset. -/
def rdata_walk (lookup : dig_lookup) (rdatas : List dns_rdata) (query : dig_query)
    (atlimit : Bool) (g : Globals) : Flow × dig_query × Bool × Globals :=
  match h : rdata_loop lookup (rdata_rounds rdatas query + 1) rdatas query atlimit g with
  | some r => r
  | none => absurd h (rdata_loop_ne_none lookup _ rdatas query atlimit g (Nat.lt_succ_self _))

/-- The `for` loop of `check_for_more_data` over the rdatasets of a name; an
rdataset without records makes `dns_rdataset_first` fail and is passed over. -/
def rdataset_loop (lookup : dig_lookup) :
    List (List dns_rdata) → dig_query → Bool → Globals → Flow × dig_query × Bool × Globals
  | [], query, atlimit, g => (Flow.next, query, atlimit, g)
  | rdataset :: rest, query, atlimit, g =>
    if rdataset.isEmpty then rdataset_loop lookup rest query atlimit g
    else
      match rdata_walk lookup rdataset query atlimit g with
      | (Flow.next, query1, atlimit1, g1) => rdataset_loop lookup rest query1 atlimit1 g1
      | (flow, query1, atlimit1, g1) => (flow, query1, atlimit1, g1)

/-- The outer `do` loop of `check_for_more_data` over the names of the answer
section. -/
def name_loop (lookup : dig_lookup) :
    Answer → dig_query → Bool → Globals → Flow × dig_query × Bool × Globals
  | [], query, atlimit, g => (Flow.next, query, atlimit, g)
  | name :: rest, query, atlimit, g =>
    match rdataset_loop lookup name query atlimit g with
    | (Flow.next, query1, atlimit1, g1) =>
      let query2 := { query1 with name_count := query1.name_count + 1 }
      if query2.name_count ≥ g1.name_limit then
        name_loop lookup rest query2 true
          (debug ("name_count(" ++ toString query2.name_count ++ ") > name_limit("
            ++ toString g1.name_limit ++ ")") g1)
      else name_loop lookup rest query2 atlimit1 g1
    | (flow, query1, atlimit1, g1) => (flow, query1, atlimit1, g1)

/-- The C function `check_for_more_data(query, msg, sevent)` on the query at
position `i` of `lookup->q` and the answer section of `msg`: the return
value, the lookup (`none` once it is freed) and the state. -/
def check_for_more_data (env : Env) (lookup : dig_lookup) (i : Nat) (msg : Answer)
    (g : Globals) : Except Exit (Bool × Option dig_lookup × Globals) :=
  let g1 := debug "check_for_more_data()" g
  match lookup.q.get? i with
  | none => assertion_failed "query != NULL"
  | some query =>
    if msg.isEmpty then
      Except.ok (true, some lookup, { g1 with stdout := g1.stdout ++ ["; Transfer failed.\n"] })
    else
      match name_loop lookup msg query false g1 with
      | (Flow.failed, query1, _, g2) =>
        Except.ok (true, some { lookup with q := lookup.q.set i query1 }, g2)
      | (flow, query1, atlimit, g2) =>
        if flow == Flow.doexit || atlimit then
          match check_result env.isc_sockaddr_totext "isc_sockaddr_totext" g2 with
          | Except.error e => Except.error e
          | Except.ok g3 =>
            let g4 := { g3 with calls := g3.calls ++ [Call.received] }
            let g5 :=
              if atlimit then (if g4.exitcode < 7 then { g4 with exitcode := 7 } else g4)
              else g4
            Except.ok (true, some { lookup with q := lookup.q.set i query1 }, g5)
        else
          match launch_next_query env { lookup with q := lookup.q.set i query1 } i false g2 with
          | Except.error e => Except.error e
          | Except.ok (lookup1, g3) => Except.ok (false, lookup1, g3)

/-! ## Truncated replies (`recv_done`) -/

/-- The test of `recv_done` for a truncated reply:
`((msg->flags & DNS_MESSAGEFLAG_TC) != 0) && !l->ignore && !l->tcp_mode`. -/
def recv_done_truncated_test (flags : Nat) (l : dig_lookup) : Bool :=
  ((flags &&& DNS_MESSAGEFLAG_TC) != 0) && !l.ignore && !l.tcp_mode

/-- The branch of `recv_done` for a truncated reply, `l` being the lookup of
the query at position `i` of `l->q`: the lookup (`none` once it is freed) and
the state.  The new lookup `n` is the head of `lookup_list` when
`requeue_lookup` returns. -/
def recv_done_truncated (env : Env) (l : dig_lookup) (i : Nat) (g : Globals) :
    Except Exit (Option dig_lookup × Globals) :=
  match requeue_lookup env l true
      { g with stdout := g.stdout ++ [";; Truncated, retrying in TCP mode.\n"] } with
  | Except.error e => Except.error e
  | Except.ok (_, g1) =>
    let g2 :=
      { g1 with
          lookup_list := g1.lookup_list.modifyHead (fun n => { n with tcp_mode := true }) }
    match clear_query l i g2 with
    | Except.error e => Except.error e
    | Except.ok (l1, g3) =>
      match cancel_lookup env l1 g3 with
      | Except.error e => Except.error e
      | Except.ok (l2, g4) =>
        match check_next_lookup env l2 g4 with
        | Except.error e => Except.error e
        | Except.ok (l3, g5) =>
          match UNLOCK_LOOKUP env g5 with
          | Except.error e => Except.error e
          | Except.ok g6 => Except.ok (l3, g6)

/-! ## Predicates of the specification and sample inputs -/

/-- An environment with the constants of `dig.h` as in the release of the
source (`MXNAME` 1024, `LOOKUP_LIMIT` 64, `UDP_TIMEOUT` 5), in which every
library call succeeds, `dighost_shutdown` does nothing, and `setup_lookup` and
`do_lookup` leave the lookup and the state as they are. -/
def plainEnv : Env where
  MXNAME := 1024
  LOOKUP_LIMIT := 64
  UDP_TIMEOUT := 5
  INT_MAX := 2147483647
  isc_mutex_lock := Result.success
  isc_mutex_unlock := Result.success
  isc_timer_create := Result.success
  isc_timer_reset := Result.success
  isc_time_now := Result.success
  isc_socket_recvv := Result.success
  isc_socket_sendtov := Result.success
  isc_socket_sendv := Result.success
  isc_sockaddr_totext := Result.success
  dighost_shutdown := fun g => Except.ok g
  setup_and_do_lookup := fun lookup g => Except.ok (lookup, g)

/-- A query to the server 192.0.2.1 as `setup_lookup` creates it, once its
socket is open. -/
def freshQuery : dig_query :=
  { servname := "192.0.2.1".toList, sock := true, waiting_connect := false, first_pass := true,
    first_soa_rcvd := false, second_rr_rcvd := false, first_repeat_rcvd := false,
    first_rr_serial := 0, second_rr_serial := 0, rr_count := 0, name_count := 0 }

/-- The lookup that `make_empty_lookup` makes in the initial state. -/
def emptyLookup : dig_lookup :=
  { pending := true, textname := [], rdtype := dns_rdatatype_a, rdclass := dns_rdataclass_in,
    sendspace := false, sendmsg := false, name := false, oname := false, timer := false,
    xfr_q := false, doing_xfr := false, ixfr_serial := 0, defname := false, trace := false,
    trace_root := false, identify := false, ignore := false, udpsize := 0, recurse := true,
    aaonly := false, adflag := false, cdflag := false, ns_search_only := false, origin := false,
    querysig := false, retries := 2, nsfound := 0, tcp_mode := false, nibble := false,
    comments := true, stats := true, section_question := true, section_answer := true,
    section_authority := true, section_additional := true, new_search := false, q := [],
    my_server_list := [] }

/-- A lookup of `example.com` that is under way over UDP: one server, one
query to it, the message, the send space and the timer set up. -/
def busyLookup : dig_lookup :=
  { emptyLookup with
      textname := "example.com".toList, sendmsg := true, sendspace := true, timer := true,
      name := true, q := [freshQuery], my_server_list := [⟨"192.0.2.1".toList⟩] }

/-- A transfer of the zone `example.com` by AXFR that is under way: the lookup
of `make_empty_lookup` with the name and the type set, then set up over TCP,
with one query to the server. -/
def axfrLookup : dig_lookup :=
  { busyLookup with rdtype := dns_rdatatype_axfr, doing_xfr := true, tcp_mode := true }

/-- The state while a lookup is current. -/
def busyState : Globals :=
  { Globals.init with current_lookup := some busyLookup, sockcount := 1 }

/-- An SOA record with the given serial. -/
def soaRecord (serial : Nat) : dns_rdata :=
  { type := dns_rdatatype_soa, serial := serial }

/-- Timeouts in a row, `k` of them, for a lookup that gets no reply in
between: `connect_timeout` is called on the lookup as the call before left
it. -/
def timeouts (env : Env) : Nat → dig_lookup → Globals → Except Exit (dig_lookup × Globals)
  | 0, lookup, g => Except.ok (lookup, g)
  | k + 1, lookup, g =>
    match connect_timeout env lookup g with
    | Except.error e => Except.error e
    | Except.ok (lookup1, g1) => timeouts env k lookup1 g1

/-- The library calls of one re-send of a lookup over UDP: the timer is set
again, and the request goes to the server of each query. -/
def resend_calls (lookup : dig_lookup) : List Call :=
  Call.isc_timer_reset :: lookup.q.map (fun q => Call.isc_socket_sendtov q.servname)

/-- The lookup that the specification expects `clone_lookup` to make of
`lookold` when the servers are asked for: the name, the type, the class and
the flags of `lookold`, with what belongs to the run of a lookup in its
initial state (no message, no timer, no queries, `retries` at `tries`, and
`pending` set), and a server list of the same names. -/
def clone_expected (env : Env) (tries : Int) (lookold : dig_lookup) : dig_lookup :=
  { lookold with
      pending := true, sendspace := false, sendmsg := false, name := false, oname := false,
      timer := false, xfr_q := false, origin := false, querysig := false, retries := tries,
      nsfound := 0, nibble := false, new_search := false, q := [],
      textname := lookold.textname.take env.MXNAME,
      my_server_list := lookold.my_server_list.map
        (fun s => ({ servername := s.servername.take env.MXNAME } : dig_server)) }

/-- A lookup of `example.com` over UDP with two servers and a query under way
to each. -/
def twoServerLookup : dig_lookup :=
  { busyLookup with
      q := [freshQuery, { freshQuery with servname := "192.0.2.2".toList }],
      my_server_list := [⟨"192.0.2.1".toList⟩, ⟨"192.0.2.2".toList⟩] }

/-- What `debug` adds to stderr. -/
def debug_err (msg : String) (g : Globals) : List String :=
  if g.debugging then g.stderr ++ [msg ++ "\n"] else g.stderr

/-- The conditions under which the timeouts of a lookup over UDP run their
course: the library calls that `connect_timeout` and `send_udp` check
succeed, the structures are not being freed, a lookup is current, and the
lookup has its timer and a socket for each query. -/
structure TimeoutRuns (env : Env) (lookup : dig_lookup) (g : Globals) : Prop where
  lock : env.isc_mutex_lock = Result.success
  unlock : env.isc_mutex_unlock = Result.success
  reset : env.isc_timer_reset = Result.success
  now : env.isc_time_now = Result.success
  send : env.isc_socket_sendtov = Result.success
  free : g.free_now = false
  current : g.current_lookup.isSome = true
  udp : lookup.tcp_mode = false
  timer : lookup.timer = true
  sock : ∀ q ∈ lookup.q, q.sock = true

/-- The conditions under which the branch of `recv_done` for a truncated
reply runs its course: the reply has the TC bit and the lookup neither
ignores truncation nor is in TCP mode; the structures are not being freed and
nothing is being cancelled; the limit on lookups is not reached; the query is
one of the lookup; the name of the lookup and those of its servers fit their
arrays with the terminating NUL; and the mutex is released. -/
structure TruncatedRuns (env : Env) (flags : Nat) (l : dig_lookup) (i : Nat) (g : Globals) :
    Prop where
  test : recv_done_truncated_test flags l = true
  unlock : env.isc_mutex_unlock = Result.success
  free : g.free_now = false
  cancel : g.cancel_now = false
  limit : g.lookup_counter + 1 ≤ env.LOOKUP_LIMIT
  query : i < l.q.length
  textname : l.textname.length < env.MXNAME
  servers : ∀ s ∈ l.my_server_list, s.servername.length < env.MXNAME

end Dighost

namespace Delv

/-! ## Predicates of the specification and sample inputs -/

/-- The text the spec describes for an IPv4-style value: its dot-separated
tokens, reversed and joined by dots again. -/
def reversedTokens (value : CStr) : List Char :=
  ['.'].intercalate (value.splitOn '.').reverse

/-- What every option handler keeps: `no_sigs` implies that root
validation is off. -/
def SigsInvariant (g : Globals) : Prop :=
  g.no_sigs = true → g.root_validation = false

/-- The query type is neither AXFR nor IXFR. -/
def NoTransfer (g : Globals) : Prop :=
  g.qtype ≠ dns_rdatatype_axfr ∧ g.qtype ≠ dns_rdatatype_ixfr

/-- What a round of the argument loop may do to the fields that the
properties below speak of: `no_sigs` is never cleared, and the two
invariants are kept. -/
def Keeps (g g1 : Globals) : Prop :=
  (g.no_sigs = true → g1.no_sigs = true)
    ∧ (SigsInvariant g → SigsInvariant g1)
    ∧ (NoTransfer g → NoTransfer g1)

/-- The loop of `parse_args`, started on the arguments `args` in a given
state, comes to stand on the arguments `args2`: rounds that end the
program lead nowhere, and a round that takes its value from the next
argument steps over it. -/
inductive Arrives (env : Env) :
    List CStr → Bool → Globals → List CStr → Bool → Globals → Prop
  | here (args : List CStr) (otc : Bool) (g : Globals) : Arrives env args otc g args otc g
  | over {arg next : CStr} {rest args2 : List CStr} {otc otc1 otc2 : Bool}
      {g g1 g2 : Globals}
      (hstep : parse_args_step env arg (some next) otc g = Except.ok (true, otc1, g1))
      (hrest : Arrives env rest otc1 g1 args2 otc2 g2) :
      Arrives env (arg :: next :: rest) otc g args2 otc2 g2
  | onto {arg next : CStr} {rest args2 : List CStr} {otc otc1 otc2 : Bool}
      {g g1 g2 : Globals}
      (hstep : parse_args_step env arg (some next) otc g = Except.ok (false, otc1, g1))
      (hrest : Arrives env (next :: rest) otc1 g1 args2 otc2 g2) :
      Arrives env (arg :: next :: rest) otc g args2 otc2 g2

/-- A root `static-ds` entry of digest type SHA-256 whose digest text
decodes to two octets. -/
def shortDigestKey : KeyEntry :=
  { name := ".".toList, anchortype := some "static-ds".toList, rdata1 := 20326, rdata2 := 8,
    rdata3 := 2, data := "ABCD".toList }

/-- The initial state once `setup_dnsseckeys` has selected the root as the
anchor name. -/
def rootAnchorState : Globals :=
  { Globals.init with trust_anchor := some ".".toList, anchor_name := some [[], []] }

/-- A root `static-key` entry. -/
def rootKey : KeyEntry :=
  { name := ".".toList, anchortype := some "static-key".toList, rdata1 := 257, rdata2 := 3,
    rdata3 := 8, data := "AwEAAQ==".toList }

/-- An environment in which the client refuses every key with the
unsupported-algorithm result. -/
def unsupportedEnv : Env :=
  { bareEnv with dns_client_addtrustedkey := fun _ _ _ _ => Result.unsupportedalg }

/-- An environment in which every anchor file parses to a `trust-anchors`
clause with one root `static-ds` entry of digest type SHA-256 and a
two-octet digest. -/
def shortDigestEnv : Env :=
  { bareEnv with cfg_parse_file := fun _ => Except.ok ⟨none, none, some [[shortDigestKey]]⟩ }

/-- The command line `-a bad.keys`. -/
def shortDigestArgs : List CStr := ["-a".toList, "bad.keys".toList]

/-- An environment in which the texts `AXFR` and `IXFR` are read as the
transfer types and `A` as the address type. -/
def transferEnv : Env :=
  { bareEnv with
      rdatatype_fromtext := fun t =>
        if t = "AXFR".toList then some dns_rdatatype_axfr
        else if t = "IXFR".toList then some dns_rdatatype_ixfr
        else if t = "A".toList then some dns_rdatatype_a
        else none }

/-- The command line `+noroot -i +root example.com`. -/
def dashIArgs : List CStr :=
  ["+noroot".toList, "-i".toList, "+root".toList, "example.com".toList]

/-- The state after parsing `+noroot -i +root example.com`. -/
def dashIState : Globals :=
  { Globals.init with
      no_sigs := true, root_validation := false, curqname := some "example.com".toList,
      qname := some "example.com".toList, qtype := dns_rdatatype_a }

/-- The replacement of each space by an underscore, as the spec words it. -/
def underscored (text : CStr) : CStr :=
  text.map (fun c => if c = ' ' then '_' else c)

/-- An entry owned by `example.com` whose anchor-type tag is none of the
four known ones. -/
def strayTagKey : KeyEntry :=
  { name := "example.com".toList, anchortype := some "bogus".toList, rdata1 := 257,
    rdata2 := 3, rdata3 := 8, data := "AwEAAQ==".toList }

/-- Whether a socket address is of a family that the switches allow. -/
def familyEnabled (use_ipv4 use_ipv6 : Bool) (sa : Sockaddr) : Bool :=
  (sa.family == AF_INET && use_ipv4) || (sa.family == AF_INET6 && use_ipv6)

/-- An environment whose resolver configuration names one IPv6 server,
`2001:db8::53`. -/
def v6ResolverEnv : Env :=
  { bareEnv with
      irs_resconf_load :=
        (Result.success,
          [{ family := AF_INET6, addr := [32, 1, 13, 184, 0, 0, 0, 0, 0, 0, 0, 0, 0, 0, 0, 83],
             port := 53 }]) }

/-- An environment in which `192.0.2.1` is an IPv4 address. -/
def v4LiteralEnv : Env :=
  { bareEnv with
      inet_pton4 := fun t => if t = "192.0.2.1".toList then some [192, 0, 2, 1] else none }

/-- The octets of the address `2001:db8::1`. -/
def addr_2001_db8_1 : List Nat :=
  [0x20, 0x01, 0x0d, 0xb8, 0, 0, 0, 0, 0, 0, 0, 0, 0, 0, 0, 0x01]

/-- An environment in which `2001:db8::1` is an IPv6 address and the
pointer name of an address is the one modelled from the spec. -/
def ip6Env : Env :=
  { bareEnv with
      inet_pton6 := fun t => if t = "2001:db8::1".toList then some addr_2001_db8_1 else none
      createptrname := fun a => Except.ok (ip6_arpa_name a) }

/-- An environment whose resolver configuration names, in this order,
192.0.2.1, 2001:db8::53 and 192.0.2.2, all on port 53. -/
def mixedResolverEnv : Env :=
  { bareEnv with
      irs_resconf_load :=
        (Result.success,
          [{ family := AF_INET, addr := [192, 0, 2, 1], port := 53 },
           { family := AF_INET6, addr := [32, 1, 13, 184, 0, 0, 0, 0, 0, 0, 0, 0, 0, 0, 0, 83],
             port := 53 },
           { family := AF_INET, addr := [192, 0, 2, 2], port := 53 }]) }

/-- The text of the records of a list in short form: for each record the
text that `dns_rdata_tofmttext` gives it, then a newline. -/
def short_lines (env : Env) (g : Globals) (rdatas : List CStr) : CStr :=
  (rdatas.map (fun rdata =>
    match env.dns_rdata_tofmttext rdata g.styleflags g.splitwidth with
    | Except.error _ => []
    | Except.ok text => text ++ "\n".toList)).flatten

/-- The state after `+short`, from the initial one. -/
def shortState : Globals :=
  { Globals.init with short_form := true, multiline := false, showcomments := false,
                      showtrust := false, showdnssec := false }

/-- A secure A rdataset with the two records 192.0.2.1 and 192.0.2.2. -/
def twoAddresses : Rdataset :=
  { associated := true, negative := false, trust := Trust.secure, rdtype := dns_rdatatype_a,
    rdatas := ["192.0.2.1".toList, "192.0.2.2".toList] }

/-- An environment in which the texts `IN`, `CH` and `HS` are read as the
classes 1, 3 and 4. -/
def classEnv : Env :=
  { bareEnv with
      rdataclass_fromtext := fun t =>
        if t = "IN".toList then some 1
        else if t = "CH".toList then some 3
        else if t = "HS".toList then some 4
        else none }

/-- The keywords that the specification lists for plus options. -/
def plus_keywords : List String :=
  ["all", "class", "cdflag", "comments", "crypto", "dnssec", "mtrace", "multiline", "root",
   "rrcomments", "rtrace", "short", "split", "tcp", "trust", "ttl", "unknownformat", "vtrace",
   "yaml"]

/-- Whether `printdata` leaves an rdataset out altogether: it is not
associated, or it is an RRSIG rdataset while DNSSEC records are hidden. -/
def printdata_skips (g : Globals) (rdataset : Rdataset) : Bool :=
  !rdataset.associated || (!g.showdnssec && rdataset.rdtype == dns_rdatatype_rrsig)

/-- What `print_status` writes for an rdataset: the banner line when trust
display is on, nothing otherwise. -/
def print_status_lines (g : Globals) (rdataset : Rdataset) : List String :=
  if !g.showtrust || !rdataset.associated then []
  else if g.yaml then
    ["  - " ++ String.mk (print_status_text g.yaml g.root_validation rdataset) ++ ":\n"]
  else ["; " ++ String.mk (print_status_text g.yaml g.root_validation rdataset) ++ "\n"]

/-- What `printdata` writes for the records of an rdataset, after the
banner if there is one. -/
def printdata_body (env : Env) (g : Globals) (rdataset : Rdataset) (owner : DnsName) :
    List String :=
  match printdata_render env g rdataset owner with
  | (Result.success, target) => [String.mk target]
  | (_, _) => []

/-- The banner that the specification expects before a record set that is
printed, `last` being the trust level of the record set printed before it
(`none` when it is the first): nothing when the level is the same, else what
`print_status` writes, after a blank line when it is not the first and the
long zone-file form with trust display is on. -/
def expected_banner (g : Globals) (last : Option Trust) (rdataset : Rdataset) : List String :=
  if last = some rdataset.trust then []
  else
    (if last.isSome && g.showtrust && !g.short_form && !g.yaml then ["\n"] else [])
      ++ print_status_lines g rdataset

/-- The output that the specification expects from a sequence of calls of
`printdata` with the settings of `g`: record sets that are skipped give
nothing and leave `last` alone; every other one gives its banner, if any,
then its records, and becomes the record set printed last. -/
def expected_output (env : Env) (g : Globals) :
    Option Trust → List (Rdataset × DnsName) → List String
  | _, [] => []
  | last, (rdataset, owner) :: rest =>
    if printdata_skips g rdataset then expected_output env g last rest
    else
      expected_banner g last rdataset ++ printdata_body env g rdataset owner
        ++ expected_output env g (some rdataset.trust) rest

/-- The trust level of the record set printed last in a sequence. -/
def expected_last (g : Globals) : Option Trust → List (Rdataset × DnsName) → Option Trust
  | last, [] => last
  | last, (rdataset, _) :: rest =>
    if printdata_skips g rdataset then expected_last g last rest
    else expected_last g (some rdataset.trust) rest

/-- The trust level that the statics of `printdata` remember: none while
`first` is set, else `trust`. -/
def remembered (g : Globals) : Option Trust :=
  if g.printdata_first then none else some g.printdata_trust

/-- The settings that `printdata` reads are the same in two states. -/
def SameSettings (g g1 : Globals) : Prop :=
  g1.showdnssec = g.showdnssec ∧ g1.showtrust = g.showtrust ∧ g1.short_form = g.short_form
    ∧ g1.yaml = g.yaml ∧ g1.root_validation = g.root_validation
    ∧ g1.styleflags = g.styleflags ∧ g1.splitwidth = g.splitwidth
    ∧ g1.multiline = g.multiline ∧ g1.nottl = g.nottl ∧ g1.noclass = g.noclass

/-- A secure rdataset with the NEGATIVE attribute, whose one record is
named by the text of an NSEC record. -/
def secureDenial : Rdataset :=
  { associated := true, negative := true, trust := Trust.secure, rdtype := 47,
    rdatas := ["example.com. NSEC".toList] }

/-- An rdataset that is not associated. -/
def emptyRdataset : Rdataset :=
  { associated := false, negative := false, trust := Trust.glue, rdtype := dns_rdatatype_a,
    rdatas := [] }

/-- An MX rdataset of trust level `answer`. -/
def unsignedAnswer : Rdataset :=
  { associated := true, negative := false, trust := Trust.answer, rdtype := 15,
    rdatas := ["10 mail".toList] }

/-- Four rdatasets in a row, all owned by `example.com`: two addresses that
are secure, a secure denial, an rdataset that is not associated, and an
unsigned answer. -/
def fourRdatasets : List (Rdataset × DnsName) :=
  [(twoAddresses, ["example".toList, "com".toList, []]),
   (secureDenial, ["example".toList, "com".toList, []]),
   (emptyRdataset, ["example".toList, "com".toList, []]),
   (unsignedAnswer, ["example".toList, "com".toList, []])]

theorem strchr_none {s : CStr} {c : Char} (h : strchr s c = none) : c ∉ s := by
  induction s with
  | nil => simp
  | cons x xs ih =>
    simp only [strchr] at h
    split at h
    · simp at h
    · rename_i hx
      simp only [Option.map_eq_none'] at h
      simp only [List.mem_cons, not_or]
      exact ⟨fun hc => hx hc.symm, ih h⟩

theorem strchr_some {s : CStr} {c : Char} {i : Nat} (h : strchr s c = some i) :
    ∃ tok rest, s = tok ++ c :: rest ∧ c ∉ tok ∧ tok.length = i := by
  induction s generalizing i with
  | nil => simp [strchr] at h
  | cons x xs ih =>
    simp only [strchr] at h
    split at h
    · rename_i hx
      simp only [Option.some.injEq] at h
      exact ⟨[], xs, by simp [hx], by simp, by simpa using h⟩
    · rename_i hx
      simp only [Option.map_eq_some'] at h
      obtain ⟨j, hj, rfl⟩ := h
      obtain ⟨tok, rest, hs, hn, hl⟩ := ih hj
      refine ⟨x :: tok, rest, by simp [hs], ?_, by simp [hl]⟩
      simp only [List.mem_cons, not_or]
      exact ⟨fun hc => hx hc.symm, hn⟩

theorem intercalate_append_singleton {α : Type} (sep : List α) (l : List (List α))
    (x : List α) (hl : l ≠ []) :
    sep.intercalate (l ++ [x]) = sep.intercalate l ++ sep ++ x := by
  induction l with
  | nil => exact absurd rfl hl
  | cons a l ih =>
    cases l with
    | nil => simp [List.intercalate, List.intersperse]
    | cons b l =>
      have h := ih (by simp)
      simp only [List.intercalate, List.cons_append, List.intersperse, List.flatten_cons,
        List.append_assoc, List.append_eq] at h ⊢
      rw [h]

theorem reversedTokens_nodot {value : CStr} (h : '.' ∉ value) :
    reversedTokens value = value := by
  unfold reversedTokens List.splitOn
  rw [List.splitOnP_eq_single]
  · simp [List.intercalate, List.intersperse]
  · intro x hx hp
    simp only [beq_iff_eq] at hp
    exact h (hp ▸ hx)

theorem reversedTokens_dot {tok rest : CStr} (h : '.' ∉ tok) :
    reversedTokens (tok ++ '.' :: rest) = reversedTokens rest ++ '.' :: tok := by
  unfold reversedTokens List.splitOn
  rw [List.splitOnP_first (· == '.') tok ?_ '.' (by simp) rest]
  · rw [List.reverse_cons, intercalate_append_singleton]
    · simp
    · simpa using List.splitOnP_ne_nil _ rest
  · intro x hx hp
    simp only [beq_iff_eq] at hp
    exact h (hp ▸ hx)

theorem reversedTokens_length (value : CStr) :
    (reversedTokens value).length = value.length := by
  suffices h : ∀ n (v : CStr), v.length = n → (reversedTokens v).length = v.length from
    h _ value rfl
  intro n
  induction n using Nat.strong_induction_on with
  | _ n ih =>
    intro v hn
    cases hs : strchr v '.' with
    | none => rw [reversedTokens_nodot (strchr_none hs)]
    | some i =>
      obtain ⟨tok, rest, hv, hnd, -⟩ := strchr_some hs
      subst hv
      rw [reversedTokens_dot hnd]
      have hr := ih rest.length (by rw [← hn]; simp; omega) rest rfl
      simp only [List.length_append, List.length_cons] at hn ⊢
      omega

theorem reverse_octetsF_success (fuel : Nat) (inp : CStr) (b : OutBuf)
    (hf : inp.length < fuel) (hb : b.data.length + inp.length ≤ b.cap) :
    reverse_octetsF fuel inp b
      = some (Result.success, { b with data := b.data ++ reversedTokens inp }) := by
  induction fuel generalizing inp b with
  | zero => omega
  | succ fuel ih =>
    unfold reverse_octetsF
    cases hs : strchr inp '.' with
    | none =>
      have hnd := strchr_none hs
      simp only [append_str, cbytes]
      rw [if_neg (by omega), reversedTokens_nodot hnd]
      simp
    | some i =>
      obtain ⟨tok, rest, hv, hnd, hl⟩ := strchr_some hs
      subst hv
      subst hl
      have hdrop : (tok ++ '.' :: rest).drop (tok.length + 1) = rest := by
        rw [show tok ++ '.' :: rest = (tok ++ ['.']) ++ rest by simp]
        rw [List.drop_append_of_le_length (by simp)]
        simp
      simp only [List.length_append, List.length_cons] at hf hb
      simp only [hdrop]
      rw [ih rest b (by omega) (by omega)]
      have hlen := reversedTokens_length rest
      simp only [append_str, cbytes, List.length_append, hlen]
      rw [if_neg (by omega)]
      simp only [List.length_append, List.length_take, List.length_cons, List.length_nil,
        hlen]
      rw [if_neg (by simp; omega), reversedTokens_dot hnd]
      simp [List.take_append_of_le_length]

theorem reverse_octets_of_fuel {inp : CStr} {b : OutBuf} {r : Result × OutBuf}
    (h : reverse_octetsF (inp.length + 1) inp b = some r) : reverse_octets inp b = r := by
  unfold reverse_octets
  split
  · rename_i r2 h2
    rw [h] at h2
    exact (Option.some.inj h2).symm
  · rename_i h2
    rw [h] at h2
    exact absurd h2 (by simp)

theorem reverse_octets_success (inp : CStr) (b : OutBuf)
    (hb : b.data.length + inp.length ≤ b.cap) :
    reverse_octets inp b
      = (Result.success, { b with data := b.data ++ reversedTokens inp }) :=
  reverse_octets_of_fuel (reverse_octetsF_success _ inp b (Nat.lt_succ_self _) hb)

/-- C1. For every value that is not a valid IPv6 address and every buffer
of at least `strlen(value) + 15` bytes, non-strict `get_reverse` succeeds and
the bytes it writes are the dot-separated tokens of `value` in reverse order
joined by dots, then `.in-addr.arpa.` and a terminating NUL; the tokens are
copied verbatim, whatever characters they hold. -/
theorem get_reverse_nonstrict_reverses_tokens (env : Env) (value : CStr) (len : Nat)
    (h6 : env.inet_pton6 value = none) (hlen : value.length + 15 ≤ len) :
    get_reverse env len value false
      = (Result.success,
          ['.'].intercalate (value.splitOn '.').reverse
            ++ ".in-addr.arpa.".toList ++ [NUL]) := by
  have hro := reverse_octets_success value ⟨len, []⟩ (by simp; omega)
  have hlen2 := reversedTokens_length value
  simp only [get_reverse, h6, hro, Bool.false_and, append_str, cbytes,
    List.nil_append, hlen2]
  rw [if_neg (by simp), if_neg (by omega)]
  simp [reversedTokens]

/-- The values of C1 on the two sample addresses: `1.2.3.4` and the
RFC 2317 style `0/25.2.0.192`. -/
theorem get_reverse_nonstrict_reverses_tokens_witness :
    get_reverse bareEnv 1024 "1.2.3.4".toList false
        = (Result.success, "4.3.2.1.in-addr.arpa.".toList ++ [NUL])
      ∧ get_reverse bareEnv 1024 "0/25.2.0.192".toList false
        = (Result.success, "192.0.2.0/25.in-addr.arpa.".toList ++ [NUL]) :=
  ⟨(get_reverse_nonstrict_reverses_tokens bareEnv "1.2.3.4".toList 1024 rfl
      (by decide)).trans (by decide),
    (get_reverse_nonstrict_reverses_tokens bareEnv "0/25.2.0.192".toList 1024 rfl
      (by decide)).trans (by decide)⟩

/-! ## Properties of the trust banner and of the resolution options -/

/-- C3. In zone-file mode with trust display on, for every associated
rdataset `print_status` writes one line: `; `, then `negative response, `
exactly when the rdataset has the NEGATIVE attribute, then a non-empty
description of the trust level, then a newline.  The description is
`fully validated` for secure, `ultimate trust` for ultimate, and for answer
`unsigned answer` with root validation on, `answer not validated` with it
off. -/
theorem print_status_zone_banner (g : Globals) (rdataset : Rdataset)
    (hyaml : g.yaml = false) (htrust : g.showtrust = true)
    (hassoc : rdataset.associated = true) :
    ∃ desc : String, desc ≠ "" ∧
      print_status g rdataset
        = { g with stdout := g.stdout ++
              ["; " ++ (if rdataset.negative then "negative response, " else "")
                ++ desc ++ "\n"] } ∧
      (rdataset.trust = Trust.secure → desc = "fully validated") ∧
      (rdataset.trust = Trust.ultimate → desc = "ultimate trust") ∧
      (rdataset.trust = Trust.answer →
        desc = if g.root_validation then "unsigned answer" else "answer not validated") := by
  obtain ⟨assoc, neg, trust, rdtype, rdatas⟩ := rdataset
  simp only at hassoc
  subst hassoc
  refine ⟨String.mk (print_status_buf false g.root_validation
    ⟨true, false, trust, 0, []⟩), ?_, ?_, ?_, ?_, ?_⟩
  · cases trust <;> cases g.root_validation <;> decide
  · simp only [print_status, hyaml, htrust]
    cases trust <;> cases neg <;> cases g.root_validation <;> rfl
  · intro h
    simp only at h
    subst h
    rfl
  · intro h
    simp only at h
    subst h
    rfl
  · intro h
    simp only at h
    subst h
    cases g.root_validation <;> rfl

/-- The banner of C3 for a secure negative response, from the initial
state: `; negative response, fully validated`. -/
theorem print_status_zone_banner_witness :
    ∃ desc : String, desc ≠ "" ∧
      print_status Globals.init ⟨true, true, Trust.secure, 1, []⟩
        = { Globals.init with stdout := Globals.init.stdout ++
              ["; " ++ (if (⟨true, true, Trust.secure, 1, []⟩ : Rdataset).negative
                  then "negative response, " else "") ++ desc ++ "\n"] } ∧
      ((⟨true, true, Trust.secure, 1, []⟩ : Rdataset).trust = Trust.secure
        → desc = "fully validated") ∧
      ((⟨true, true, Trust.secure, 1, []⟩ : Rdataset).trust = Trust.ultimate
        → desc = "ultimate trust") ∧
      ((⟨true, true, Trust.secure, 1, []⟩ : Rdataset).trust = Trust.answer →
        desc = if Globals.init.root_validation then "unsigned answer"
          else "answer not validated") :=
  print_status_zone_banner Globals.init ⟨true, true, Trust.secure, 1, []⟩ rfl rfl rfl

theorem resolve_resopt_flags (g : Globals) :
    (resolve_resopt g &&& DNS_CLIENTRESOPT_NOCDFLAG ≠ 0 ↔ g.cdflag = false) ∧
      (resolve_resopt g &&& DNS_CLIENTRESOPT_NODNSSEC ≠ 0 ↔ g.no_sigs = true) ∧
      (resolve_resopt g &&& DNS_CLIENTRESOPT_NOVALIDATE ≠ 0 ↔ g.root_validation = false) ∧
      (resolve_resopt g &&& DNS_CLIENTRESOPT_TCP ≠ 0 ↔ g.use_tcp = true) ∧
      resolve_resopt g
        = (if g.cdflag then 0 else DNS_CLIENTRESOPT_NOCDFLAG)
          ||| (if g.no_sigs then DNS_CLIENTRESOPT_NODNSSEC else 0)
          ||| (if g.root_validation then 0 else DNS_CLIENTRESOPT_NOVALIDATE)
          ||| (if g.use_tcp then DNS_CLIENTRESOPT_TCP else 0) := by
  refine ⟨?_, ?_, ?_, ?_, ?_⟩
  all_goals
    simp only [resolve_resopt]
    cases g.cdflag <;> cases g.no_sigs <;> cases g.root_validation <;> cases g.use_tcp <;>
      decide

/-- C4. The option word that `resolve` passes to `dns_client_resolve` is
fixed by four flags: NOCDFLAG is set exactly when `cdflag` is false,
NODNSSEC exactly when `no_sigs`, NOVALIDATE exactly when `root_validation`
is false, TCP exactly when `use_tcp`; no other bit is set; and NOCDFLAG is
set in the initial state. -/
theorem resolve_resopt_bits (env : Env) (g : Globals) :
    (∀ request g1, resolve env g = (Except.ok request, g1) →
        request.resopt = resolve_resopt g) ∧
      (resolve_resopt g &&& DNS_CLIENTRESOPT_NOCDFLAG ≠ 0 ↔ g.cdflag = false) ∧
      (resolve_resopt g &&& DNS_CLIENTRESOPT_NODNSSEC ≠ 0 ↔ g.no_sigs = true) ∧
      (resolve_resopt g &&& DNS_CLIENTRESOPT_NOVALIDATE ≠ 0 ↔ g.root_validation = false) ∧
      (resolve_resopt g &&& DNS_CLIENTRESOPT_TCP ≠ 0 ↔ g.use_tcp = true) ∧
      resolve_resopt g
        = (if g.cdflag then 0 else DNS_CLIENTRESOPT_NOCDFLAG)
          ||| (if g.no_sigs then DNS_CLIENTRESOPT_NODNSSEC else 0)
          ||| (if g.root_validation then 0 else DNS_CLIENTRESOPT_NOVALIDATE)
          ||| (if g.use_tcp then DNS_CLIENTRESOPT_TCP else 0) ∧
      resolve_resopt Globals.init &&& DNS_CLIENTRESOPT_NOCDFLAG ≠ 0 := by
  have hflags := resolve_resopt_flags g
  refine ⟨?_, hflags.1, hflags.2.1, hflags.2.2.1, hflags.2.2.2.1, hflags.2.2.2.2, by decide⟩
  intro request g1 h
  simp only [resolve, convert_name] at h
  split at h
  · split at h <;> simp_all
  · rename_i query_name g2 heq
    split at heq
    · simp at heq
    · simp only [Prod.mk.injEq, Except.ok.injEq] at heq h
      rw [← h.1, ← heq.2]

/-! ## Properties of the trust-anchor loader -/

theorem strcasecmp_eq_iff (a b : CStr) :
    strcasecmp_eq a b = true ↔ a.map Char.toLower = b.map Char.toLower := by
  simp [strcasecmp_eq]

theorem key_anchortype_ds {key : KeyEntry} {tag : CStr} (htag : key.anchortype = some tag)
    (hds : strcasecmp_eq tag "static-ds".toList = true
      ∨ strcasecmp_eq tag "initial-ds".toList = true) :
    key_anchortype key = some AnchorType.STATIC_DS
      ∨ key_anchortype key = some AnchorType.INITIAL_DS := by
  simp only [key_anchortype, htag]
  rcases hds with h | h
  · have h2 := (strcasecmp_eq_iff _ _).1 h
    have h1 : strcasecmp_eq tag "static-key".toList = false := by
      rw [Bool.eq_false_iff]
      intro hc
      have h3 := (strcasecmp_eq_iff _ _).1 hc
      rw [h2] at h3
      revert h3
      decide
    rw [h1, h]
    simp
  · have h2 := (strcasecmp_eq_iff _ _).1 h
    have h1 : strcasecmp_eq tag "static-key".toList = false := by
      rw [Bool.eq_false_iff]
      intro hc
      have h3 := (strcasecmp_eq_iff _ _).1 hc
      rw [h2] at h3
      revert h3
      decide
    have h4 : strcasecmp_eq tag "static-ds".toList = false := by
      rw [Bool.eq_false_iff]
      intro hc
      have h3 := (strcasecmp_eq_iff _ _).1 hc
      rw [h2] at h3
      revert h3
      decide
    have h5 : strcasecmp_eq tag "initial-key".toList = false := by
      rw [Bool.eq_false_iff]
      intro hc
      have h3 := (strcasecmp_eq_iff _ _).1 hc
      rw [h2] at h3
      revert h3
      decide
    rw [h1, h4, h5, h]
    simp

/-- A failed `key_fromconfig_add` leaves the client and the state as they
were. -/
theorem key_fromconfig_add_failure (env : Env) (key : KeyEntry) (keyname : DnsName)
    (anchortype : AnchorType) (client : Client) (g : Globals)
    (h : (key_fromconfig_add env key keyname anchortype client g).1 ≠ Result.success) :
    key_fromconfig_add env key keyname anchortype client g
      = ((key_fromconfig_add env key keyname anchortype client g).1, client, g) := by
  revert h
  simp only [key_fromconfig_add]
  repeat' split
  all_goals simp_all

/-- The label `cleanup` of `key_fromconfig` changes nothing but stderr. -/
theorem key_fromconfig_cleanup_frame (name : CStr) (result : Result) (g : Globals) :
    (key_fromconfig_cleanup name result g).2.num_keys = g.num_keys
      ∧ (key_fromconfig_cleanup name result g).2.root_validation = g.root_validation
      ∧ (key_fromconfig_cleanup name result g).2.anchor_name = g.anchor_name := by
  unfold key_fromconfig_cleanup log_error
  repeat' split
  all_goals simp

/-- With a DS anchor type, a digest of the wrong length stops
`key_fromconfig_add` short of success. -/
theorem key_fromconfig_add_bad_digest (env : Env) (key : KeyEntry) (keyname : DnsName)
    (anchortype : AnchorType) (client : Client) (g : Globals) (digest : List Nat)
    (htype : anchortype = AnchorType.STATIC_DS ∨ anchortype = AnchorType.INITIAL_DS)
    (hdec : env.isc_hex_decodestring key.data = Except.ok digest)
    (hlen : (key.rdata3 = DNS_DSDIGEST_SHA1 ∧ digest.length ≠ 20)
      ∨ (key.rdata3 = DNS_DSDIGEST_SHA256 ∧ digest.length ≠ 32)
      ∨ (key.rdata3 = DNS_DSDIGEST_SHA384 ∧ digest.length ≠ 48)) :
    (key_fromconfig_add env key keyname anchortype client g).1 = Result.range
      ∨ (key_fromconfig_add env key keyname anchortype client g).1
          = Result.unexpectedend := by
  unfold key_fromconfig_add
  by_cases h1 : key.rdata1 > 0xffff
  · simp [h1]
  by_cases h2 : key.rdata2 > 0xff
  · simp [h1, h2]
  have h3 : ¬ key.rdata3 > 0xff := by
    rcases hlen with h | h | h <;> rw [h.1] <;> decide
  simp only [h1, h2, h3, if_false]
  rcases htype with rfl | rfl <;> simp only [hdec] <;>
    rcases hlen with h | h | h <;> rw [h.1] <;>
      simp [DNS_DSDIGEST_SHA1, DNS_DSDIGEST_SHA256, DNS_DSDIGEST_SHA384,
        ISC_SHA1_DIGESTLENGTH, ISC_SHA256_DIGESTLENGTH, ISC_SHA384_DIGESTLENGTH, h.2]

/-- C5. For a DS anchor entry (tag `static-ds` or `initial-ds`, in any
letter case) owned by the selected anchor name, with digest type SHA-1,
SHA-256 or SHA-384 and a hex-decoded digest whose length is not 20, 32 or 48
respectively, `key_fromconfig` returns failure, leaves the client as it was
and leaves `num_keys` unchanged.  A selected anchor name exists only while
root validation is on. -/
theorem key_fromconfig_rejects_bad_digest_length (env : Env) (key : KeyEntry)
    (client : Client) (g : Globals) (keyname anchor : DnsName) (tag : CStr)
    (digest : List Nat)
    (hrv : g.root_validation = true)
    (hname : env.dns_name_fromtext key.name = Except.ok keyname)
    (hanchor : g.anchor_name = some anchor)
    (hown : dns_name_equal keyname anchor = true)
    (htag : key.anchortype = some tag)
    (hds : strcasecmp_eq tag "static-ds".toList = true
      ∨ strcasecmp_eq tag "initial-ds".toList = true)
    (hdec : env.isc_hex_decodestring key.data = Except.ok digest)
    (hlen : (key.rdata3 = DNS_DSDIGEST_SHA1 ∧ digest.length ≠ 20)
      ∨ (key.rdata3 = DNS_DSDIGEST_SHA256 ∧ digest.length ≠ 32)
      ∨ (key.rdata3 = DNS_DSDIGEST_SHA384 ∧ digest.length ≠ 48)) :
    (key_fromconfig env key client g).1 = Result.failure
      ∧ (key_fromconfig env key client g).2.1 = client
      ∧ (key_fromconfig env key client g).2.2.num_keys = g.num_keys := by
  obtain ⟨anchortype, hat, hatds⟩ :
      ∃ a, key_anchortype key = some a
        ∧ (a = AnchorType.STATIC_DS ∨ a = AnchorType.INITIAL_DS) := by
    rcases key_anchortype_ds htag hds with h | h
    · exact ⟨_, h, Or.inl rfl⟩
    · exact ⟨_, h, Or.inr rfl⟩
  have hbad := key_fromconfig_add_bad_digest env key keyname anchortype client g digest
    hatds hdec hlen
  have hne : (key_fromconfig_add env key keyname anchortype client g).1 ≠ Result.success := by
    rcases hbad with h | h <;> rw [h] <;> decide
  have hadd := key_fromconfig_add_failure env key keyname anchortype client g hne
  simp only [key_fromconfig, convert_name, hname, hrv, hanchor, hown, hat, Bool.not_true,
    Bool.false_eq_true, if_false]
  rw [hadd]
  rcases hbad with h | h <;> rw [h] <;>
    simp [key_fromconfig_cleanup, log_error]

/-- C5 on a root `static-ds` entry with a two-octet SHA-256 digest. -/
theorem key_fromconfig_rejects_bad_digest_length_witness :
    (key_fromconfig bareEnv shortDigestKey ⟨[], []⟩ rootAnchorState).1 = Result.failure
      ∧ (key_fromconfig bareEnv shortDigestKey ⟨[], []⟩ rootAnchorState).2.1 = ⟨[], []⟩
      ∧ (key_fromconfig bareEnv shortDigestKey ⟨[], []⟩ rootAnchorState).2.2.num_keys
          = rootAnchorState.num_keys :=
  key_fromconfig_rejects_bad_digest_length bareEnv shortDigestKey ⟨[], []⟩ rootAnchorState
    [[], []] [[], []] "static-ds".toList [0, 0] rfl (by decide) rfl (by decide) rfl
    (Or.inl (by decide)) (by decide) (Or.inr (Or.inl ⟨rfl, by decide⟩))

/-- C6. With root validation off, `setup_dnsseckeys` returns success at
once: nothing is parsed, the client and the state are as before.  With
root validation on, when the anchors are parsed and the three `load_keys`
calls complete with success while `num_keys` is still 0, the program ends
through `fatal` with `No trusted keys were loaded`. -/
theorem setup_dnsseckeys_no_trusted_keys (env : Env) (client : Client) (g : Globals) :
    (g.root_validation = false →
        setup_dnsseckeys env client g = Except.ok (Result.success, client, g)) ∧
      (∀ (name : DnsName) (bindkeys : BindKeys) (client1 : Client) (g1 : Globals),
        g.root_validation = true →
        env.dns_name_fromtext ((default_trust_anchor g).trust_anchor.getD []) = Except.ok name →
        env.cfg_parser_create = Result.success →
        (match g.anchorfile with
          | some file =>
            env.access_R_OK file = true ∧ env.cfg_parse_file file = Except.ok bindkeys
          | none => env.cfg_parse_builtin = Except.ok bindkeys) →
        load_clauses env bindkeys client
            (record_parse g.anchorfile { default_trust_anchor g with anchor_name := some name })
          = (Result.success, client1, g1) →
        g1.num_keys = 0 →
        setup_dnsseckeys env client g
          = Except.error { code := 1, message := "No trusted keys were loaded" }) := by
  constructor
  · intro h
    simp [setup_dnsseckeys, h]
  · intro name bindkeys client1 g1 hrv hname hparser hparse hload hzero
    have hfile : (default_trust_anchor g).anchorfile = g.anchorfile := by
      unfold default_trust_anchor
      split <;> rfl
    simp only [setup_dnsseckeys, hrv, convert_name, hname, hparser, Bool.not_true,
      Bool.false_eq_true, if_false, bne_self_eq_false]
    rw [hfile]
    cases hf : g.anchorfile with
    | none =>
      simp only [hfile, hf] at hparse hload
      simp only [hparse, setup_dnsseckeys_load, hload, hzero]
      rfl
    | some file =>
      simp only [hfile, hf] at hparse hload
      simp only [hparse.1, hparse.2, Bool.not_true, Bool.false_eq_true, if_false,
        setup_dnsseckeys_load, hload, hzero]
      rfl

/-- C6 at concrete inputs: with validation off the initial state comes back
untouched, and built-in anchors that hold no entry at all end the program
with `No trusted keys were loaded`. -/
theorem setup_dnsseckeys_no_trusted_keys_witness :
    setup_dnsseckeys bareEnv ⟨[], []⟩ { Globals.init with root_validation := false }
        = Except.ok (Result.success, ⟨[], []⟩, { Globals.init with root_validation := false })
      ∧ setup_dnsseckeys bareEnv ⟨[], []⟩ Globals.init
        = Except.error { code := 1, message := "No trusted keys were loaded" } :=
  ⟨(setup_dnsseckeys_no_trusted_keys bareEnv ⟨[], []⟩
      { Globals.init with root_validation := false }).1 rfl,
    (setup_dnsseckeys_no_trusted_keys bareEnv ⟨[], []⟩ Globals.init).2 [[], []]
      ⟨none, none, none⟩ ⟨[], []⟩
      (record_parse none { default_trust_anchor Globals.init with anchor_name := some [[], []] })
      rfl (by decide) rfl rfl rfl rfl⟩

/-- C7. When the attempt to add an anchor ends with the
unsupported-algorithm result, `key_fromconfig` returns success, the client
and `num_keys` are as before, and the loop of `load_keys` goes on with the
remaining entries of the list. -/
theorem key_fromconfig_skips_unsupported_algorithm (env : Env) (key : KeyEntry)
    (client : Client) (g : Globals) (keyname anchor : DnsName) (anchortype : AnchorType)
    (hrv : g.root_validation = true)
    (hname : env.dns_name_fromtext key.name = Except.ok keyname)
    (hanchor : g.anchor_name = some anchor)
    (hown : dns_name_equal keyname anchor = true)
    (htype : key_anchortype key = some anchortype)
    (hadd : (key_fromconfig_add env key keyname anchortype client g).1
      = Result.unsupportedalg) :
    (key_fromconfig env key client g).1 = Result.success
      ∧ (key_fromconfig env key client g).2.1 = client
      ∧ (key_fromconfig env key client g).2.2.num_keys = g.num_keys
      ∧ ∀ rest : List KeyEntry,
          load_keylist env (key :: rest) client g
            = load_keylist env rest client (key_fromconfig env key client g).2.2 := by
  have hne : (key_fromconfig_add env key keyname anchortype client g).1 ≠ Result.success := by
    rw [hadd]
    decide
  have hfail := key_fromconfig_add_failure env key keyname anchortype client g hne
  rw [hadd] at hfail
  have hkey : key_fromconfig env key client g
      = (Result.success, client,
          (key_fromconfig_cleanup key.name Result.unsupportedalg g).2) := by
    simp only [key_fromconfig, convert_name, hname, hrv, hanchor, hown, htype, Bool.not_true,
      Bool.false_eq_true, if_false]
    rw [hfail]
    simp [key_fromconfig_cleanup]
  refine ⟨by rw [hkey], by rw [hkey], ?_, ?_⟩
  · rw [hkey]
    exact (key_fromconfig_cleanup_frame key.name Result.unsupportedalg g).1
  · intro rest
    rw [load_keylist, hkey]

/-- C7 on a root `static-key` entry that the client refuses as unsupported. -/
theorem key_fromconfig_skips_unsupported_algorithm_witness :
    (key_fromconfig unsupportedEnv rootKey ⟨[], []⟩ rootAnchorState).1 = Result.success
      ∧ (key_fromconfig unsupportedEnv rootKey ⟨[], []⟩ rootAnchorState).2.1 = ⟨[], []⟩
      ∧ (key_fromconfig unsupportedEnv rootKey ⟨[], []⟩ rootAnchorState).2.2.num_keys
          = rootAnchorState.num_keys
      ∧ ∀ rest : List KeyEntry,
          load_keylist unsupportedEnv (rootKey :: rest) ⟨[], []⟩ rootAnchorState
            = load_keylist unsupportedEnv rest ⟨[], []⟩
                (key_fromconfig unsupportedEnv rootKey ⟨[], []⟩ rootAnchorState).2.2 :=
  key_fromconfig_skips_unsupported_algorithm unsupportedEnv rootKey ⟨[], []⟩ rootAnchorState
    [[], []] [[], []] AnchorType.STATIC_KEY rfl (by decide) rfl (by decide) (by decide)
    (by decide)

/-! ## Properties of the main program -/

/-- C8, the code at the failing input.  For `delv -a bad.keys`, where the
anchor file holds an entry whose digest length is wrong, `setup_dnsseckeys`
returns failure, no request is made, and `main` returns 0: the exit status
is zero. -/
theorem main_exit_status_anchor_failure :
    (setup_dnsseckeys shortDigestEnv ⟨[], []⟩
        { parse_args_defaults Globals.init with anchorfile := some "bad.keys".toList }).map
        (fun r => r.1) = Except.ok Result.failure
      ∧ (main shortDigestEnv shortDigestArgs).map (fun m => m.request) = Except.ok none
      ∧ exit_status (main shortDigestEnv shortDigestArgs) = 0 := by
  refine ⟨by decide, by decide, by decide⟩

/-- Whenever `main` returns, it returns 0. -/
theorem main_returns_zero (env : Env) (argv : List CStr) (m : MainResult)
    (h : main env argv = Except.ok m) : m.status = 0 := by
  have hanchors : ∀ client g, main_anchors env client g = Except.ok m → m.status = 0 := by
    intro client g h
    unfold main_anchors at h
    repeat' split at h
    all_goals first
      | (simp only [reduceCtorEq] at h; done)
      | (simp only [Except.ok.injEq] at h; rw [← h]; rfl)
  unfold main at h
  repeat' split at h
  all_goals first
    | (simp only [reduceCtorEq] at h; done)
    | (simp only [fatal, reduceCtorEq] at h; done)
    | (simp only [Except.ok.injEq] at h; rw [← h]; rfl)
    | exact hanchors _ _ h
    | skip
  all_goals
    simp only at h
    split at h
  all_goals first
    | (simp only [reduceCtorEq] at h; done)
    | exact hanchors _ _ h

/-! ## Properties of the command line -/

theorem Keeps.refl (g : Globals) : Keeps g g := ⟨id, id, id⟩

theorem Keeps.trans {g g1 g2 : Globals} (h1 : Keeps g g1) (h2 : Keeps g1 g2) : Keeps g g2 :=
  ⟨fun h => h2.1 (h1.1 h), fun h => h2.2.1 (h1.2.1 h), fun h => h2.2.2 (h1.2.2 h)⟩

theorem Keeps.of_eq {g g1 : Globals} (h1 : g1.no_sigs = g.no_sigs)
    (h2 : g1.root_validation = g.root_validation) (h3 : g1.qtype = g.qtype) : Keeps g g1 := by
  refine ⟨?_, ?_, ?_⟩
  · rw [h1]; exact id
  · unfold SigsInvariant; rw [h1, h2]; exact id
  · unfold NoTransfer; rw [h3]; exact id

theorem parse_uint_frame (env : Env) (value : CStr) (max : Nat) (desc : String) (g : Globals) :
    (parse_uint env value max desc g).2.no_sigs = g.no_sigs
      ∧ (parse_uint env value max desc g).2.root_validation = g.root_validation
      ∧ (parse_uint env value max desc g).2.qtype = g.qtype := by
  unfold parse_uint
  repeat' split
  all_goals simp

theorem split_adjust_frame (g : Globals) :
    (split_adjust g).no_sigs = g.no_sigs
      ∧ (split_adjust g).root_validation = g.root_validation
      ∧ (split_adjust g).qtype = g.qtype := by
  unfold split_adjust
  refine ⟨?_, ?_, ?_⟩ <;> simp only [warn] <;> (repeat' split) <;> rfl

theorem plus_option_split_keeps (env : Env) (shown : CStr) (state : Bool)
    (value : Option CStr) (g g1 : Globals)
    (h : plus_option_split env shown state value g = Except.ok g1) : Keeps g g1 := by
  unfold plus_option_split at h
  cases value with
  | none =>
    cases state
    · simp only [Option.isSome_none, Bool.false_and, Bool.false_eq_true, if_false,
        Bool.not_false, if_true, Except.ok.injEq] at h
      subst h
      exact Keeps.of_eq rfl rfl rfl
    · simp only [Option.isSome_none, Bool.false_and, Bool.false_eq_true, if_false,
        Bool.not_true, Except.ok.injEq] at h
      subst h
      exact Keeps.refl g
  | some v =>
    cases state
    · simp [plus_invalid_option, usage] at h
    · have hv := parse_uint_frame env v 1023 "split" g
      simp only [Option.isSome_some, Bool.not_true, Bool.and_false, Bool.false_eq_true,
        if_false] at h
      split at h
      · rename_i n gp heq
        rw [heq] at hv
        simp only [Except.ok.injEq] at h
        subst h
        have ha := split_adjust_frame { gp with splitwidth := n }
        exact Keeps.of_eq (by rw [ha.1]; exact hv.1) (by rw [ha.2.1]; exact hv.2.1)
          (by rw [ha.2.2]; exact hv.2.2)
      · simp [fatal] at h

theorem plus_option_switch_keeps (env : Env) (shown cmd : CStr) (state : Bool)
    (value : Option CStr) (g g1 : Globals)
    (h : plus_option_switch env shown cmd state value g = Except.ok g1) : Keeps g g1 := by
  unfold plus_option_switch at h
  repeat' split at h
  all_goals first
    | (simp only [plus_invalid_option, usage, reduceCtorEq] at h; done)
    | exact plus_option_split_keeps env shown state value g g1 h
    | (simp only [Except.ok.injEq] at h
       subst h
       first
        | exact Keeps.refl g
        | exact Keeps.of_eq rfl rfl rfl
        | (refine ⟨?_, ?_, ?_⟩ <;> cases state <;> simp_all [SigsInvariant, NoTransfer]))

theorem plus_option_keeps (env : Env) (option : CStr) (g g1 : Globals)
    (h : plus_option env option g = Except.ok g1) : Keeps g g1 := by
  unfold plus_option at h
  split at h
  · simp only [Except.ok.injEq] at h
    subst h
    exact Keeps.of_eq rfl rfl rfl
  · exact plus_option_switch_keeps _ _ _ _ _ _ _ h

theorem dash_flag_keeps (env : Env) (opt : Char) (g g1 : Globals)
    (h : dash_flag env opt g = Except.ok g1) :
    Keeps g g1 ∧ (SigsInvariant g → SigsInvariant g1) ∧ (opt = 'i' → g1.no_sigs = true) := by
  unfold dash_flag at h
  repeat' split at h
  all_goals first
    | (simp only [fatal, usage, reduceCtorEq] at h; done)
    | (simp only [Except.ok.injEq] at h
       subst h
       refine ⟨⟨?_, ?_, ?_⟩, ?_, ?_⟩ <;> simp_all [SigsInvariant, NoTransfer])

theorem dash_option_b_frame (env : Env) (value : CStr) (g g1 : Globals)
    (h : dash_option_b env value g = Except.ok g1) :
    g1.no_sigs = g.no_sigs ∧ g1.root_validation = g.root_validation ∧ g1.qtype = g.qtype := by
  unfold dash_option_b at h
  have hp := fun v => parse_uint_frame env v 0xffff "port" g
  simp only at h
  split at h
  · simp at h
  · rename_i srcport gp hport
    have hgp : gp.no_sigs = g.no_sigs ∧ gp.root_validation = g.root_validation
        ∧ gp.qtype = g.qtype := by
      split at hport
      · split at hport
        · rename_i dot _ _ num gq heq
          simp only [Except.ok.injEq, Prod.mk.injEq] at hport
          have := hp (List.drop (dot + 1) value)
          rw [heq] at this
          rw [← hport.2]
          exact this
        · simp [fatal] at hport
      · simp only [Except.ok.injEq, Prod.mk.injEq] at hport
        rw [← hport.2]
        exact ⟨rfl, rfl, rfl⟩
    repeat' split at h
    all_goals first
      | (simp only [fatal, reduceCtorEq] at h; done)
      | (simp only [Except.ok.injEq] at h
         subst h
         exact hgp)

theorem Keeps.of_frame {g g1 : Globals} (h1 : g1.no_sigs = g.no_sigs)
    (h2 : g1.root_validation = g.root_validation) (h3 : NoTransfer g → NoTransfer g1) :
    Keeps g g1 := by
  refine ⟨?_, ?_, h3⟩
  · rw [h1]; exact id
  · unfold SigsInvariant; rw [h1, h2]; exact id

theorem dash_option_value_keeps (env : Env) (option : CStr) (next : Option CStr)
    (otc : Bool) (g : Globals) (r : Bool × Bool × Globals)
    (h : dash_option_value env option next otc g = Except.ok r) :
    r.2.2.no_sigs = g.no_sigs ∧ r.2.2.root_validation = g.root_validation
      ∧ (NoTransfer g → NoTransfer r.2.2) := by
  unfold dash_option_value at h
  simp only at h
  split at h
  · simp [dash_invalid_option, usage] at h
  rename_i value _
  split at h
  · simp only [Except.ok.injEq] at h
    subst h
    exact ⟨rfl, rfl, id⟩
  · split at h
    · simp at h
    · rename_i gb hb
      simp only [Except.ok.injEq] at h
      subst h
      have := dash_option_b_frame env value g gb hb
      exact ⟨this.1, this.2.1, fun hn => ⟨this.2.2 ▸ hn.1, this.2.2 ▸ hn.2⟩⟩
  · repeat' split at h
    all_goals
      simp only [Except.ok.injEq] at h
      subst h
      refine ⟨?_, ?_, ?_⟩ <;> (try split) <;> simp_all [warn, NoTransfer]
  · have hp := parse_uint_frame env value 99 "debug level" g
    split at h
    · rename_i num gd heq
      rw [heq] at hp
      simp only [Except.ok.injEq] at h
      subst h
      exact ⟨hp.1, hp.2.1, fun hn => ⟨hp.2.2 ▸ hn.1, hp.2.2 ▸ hn.2⟩⟩
    · simp [fatal] at h
  · simp only [Except.ok.injEq] at h
    subst h
    exact ⟨rfl, rfl, id⟩
  · simp only [Except.ok.injEq] at h
    subst h
    refine ⟨?_, ?_, ?_⟩ <;> (try split) <;> simp_all [warn, NoTransfer]
  · split at h
    · split at h
      · simp [fatal] at h
      · rename_i hno
        simp only [Except.ok.injEq] at h
        subst h
        refine ⟨?_, ?_, ?_⟩
        · simp only; split <;> rfl
        · simp only; split <;> rfl
        · intro _
          simp only [NoTransfer]
          simp only [Bool.or_eq_true, beq_iff_eq, not_or] at hno
          exact ⟨hno.2, hno.1⟩
    · simp only [Except.ok.injEq] at h
      subst h
      exact ⟨rfl, rfl, id⟩
  · split at h
    · simp only [Except.ok.injEq] at h
      subst h
      refine ⟨?_, ?_, ?_⟩
      · simp only; repeat' split
        all_goals rfl
      · simp only; repeat' split
        all_goals rfl
      · intro _
        simp only [NoTransfer]
        decide
    · simp at h
  · simp [dash_invalid_option, usage] at h

theorem dash_option_keeps (env : Env) (option : CStr) (next : Option CStr)
    (otc : Bool) (g : Globals) (r : Bool × Bool × Globals)
    (h : dash_option env option next otc g = Except.ok r) : Keeps g r.2.2 := by
  induction option generalizing g with
  | nil =>
    unfold dash_option at h
    have := dash_option_value_keeps env [] next otc g r h
    exact Keeps.of_frame this.1 this.2.1 this.2.2
  | cons c rest ih =>
    unfold dash_option at h
    split at h
    · split at h
      · simp at h
      · rename_i gf hf
        have hk := (dash_flag_keeps env c g gf hf).1
        split at h
        · exact hk.trans (ih gf h)
        · simp only [Except.ok.injEq] at h
          subst h
          exact hk
    · have := dash_option_value_keeps env (c :: rest) next otc g r h
      exact Keeps.of_frame this.1 this.2.1 this.2.2

theorem parse_args_bare_keeps (env : Env) (arg : CStr) (otc : Bool) (g g1 : Globals)
    (h : parse_args_bare env arg otc g = Except.ok g1) : Keeps g g1 := by
  unfold parse_args_bare at h
  simp only at h
  repeat' split at h
  all_goals first
    | (simp only [fatal, reduceCtorEq] at h; done)
    | (simp only [Except.ok.injEq] at h
       subst h
       first
        | exact Keeps.refl g
        | exact Keeps.of_eq rfl rfl rfl
        | (apply Keeps.of_frame
           · rfl
           · rfl
           · intro _
             simp_all [NoTransfer]))

theorem parse_args_step_keeps (env : Env) (arg : CStr) (next : Option CStr) (otc : Bool)
    (g : Globals) (r : Bool × Bool × Globals)
    (h : parse_args_step env arg next otc g = Except.ok r) : Keeps g r.2.2 := by
  unfold parse_args_step at h
  split at h
  · simp only [Except.ok.injEq] at h
    subst h
    exact Keeps.of_eq rfl rfl rfl
  · split at h
    · simp at h
    · rename_i g1 hp
      simp only [Except.ok.injEq] at h
      subst h
      exact plus_option_keeps env _ g g1 hp
  · exact dash_option_keeps env _ next otc g r h
  · split at h
    · simp at h
    · rename_i g1 hb
      simp only [Except.ok.injEq] at h
      subst h
      exact parse_args_bare_keeps env arg otc g g1 hb

theorem parse_args_loop_keeps (env : Env) (argv : List CStr) (otc : Bool) (g g1 : Globals)
    (h : parse_args_loop env argv otc g = Except.ok g1) : Keeps g g1 := by
  induction argv, otc, g using parse_args_loop.induct env with
  | case1 otc g =>
    simp only [parse_args_loop, Except.ok.injEq] at h
    subst h
    exact Keeps.refl g
  | case2 arg otc g e hs =>
    simp [parse_args_loop, hs] at h
  | case3 arg otc g b otc1 gs hs =>
    simp only [parse_args_loop, hs, Except.ok.injEq] at h
    subst h
    exact parse_args_step_keeps env arg none otc g _ hs
  | case4 arg next rest otc g e hs =>
    simp [parse_args_loop, hs] at h
  | case5 arg next rest otc g otc1 gs hs ih =>
    simp only [parse_args_loop, hs] at h
    exact (parse_args_step_keeps env arg (some next) otc g _ hs).trans (ih h)
  | case6 arg next rest otc g otc1 gs hs ih =>
    simp only [parse_args_loop, hs] at h
    exact (parse_args_step_keeps env arg (some next) otc g _ hs).trans (ih h)

theorem Arrives.loop_eq {env : Env} {args args2 : List CStr} {otc otc2 : Bool}
    {g g2 : Globals} (h : Arrives env args otc g args2 otc2 g2) :
    parse_args_loop env args otc g = parse_args_loop env args2 otc2 g2 := by
  induction h with
  | here => rfl
  | over hstep _ ih => rw [parse_args_loop, hstep]; exact ih
  | onto hstep _ ih => rw [parse_args_loop, hstep]; exact ih

theorem Arrives.keeps {env : Env} {args args2 : List CStr} {otc otc2 : Bool}
    {g g2 : Globals} (h : Arrives env args otc g args2 otc2 g2) : Keeps g g2 := by
  induction h with
  | here => exact Keeps.refl _
  | over hstep _ ih => exact (parse_args_step_keeps _ _ _ _ _ _ hstep).trans ih
  | onto hstep _ ih => exact (parse_args_step_keeps _ _ _ _ _ _ hstep).trans ih

theorem dash_option_sets_no_sigs (env : Env) (flags tail : CStr) (next : Option CStr)
    (otc : Bool) (g : Globals) (r : Bool × Bool × Globals)
    (hflags : ∀ c ∈ flags, single_dash_opts.contains c = true) (hi : 'i' ∈ flags)
    (h : dash_option env (flags ++ tail) next otc g = Except.ok r) :
    r.2.2.no_sigs = true := by
  induction flags generalizing g with
  | nil => simp at hi
  | cons c fs ih =>
    rw [List.cons_append, dash_option, if_pos (hflags c (List.mem_cons_self _ _))] at h
    split at h
    · simp at h
    · rename_i gf hf
      have hflag := dash_flag_keeps env c g gf hf
      by_cases hc : c = 'i'
      · have hgf := hflag.2.2 hc
        split at h
        · exact (dash_option_keeps env _ next otc gf r h).1 hgf
        · simp only [Except.ok.injEq] at h
          subst h
          exact hgf
      · have hfs : 'i' ∈ fs := by
          rcases List.mem_cons.1 hi with h1 | h1
          · exact absurd h1.symm hc
          · exact h1
        split at h
        · exact ih gf (fun c hc => hflags c (List.mem_cons_of_mem _ hc)) hfs h
        · rename_i hlen
          cases fs with
          | nil => simp at hfs
          | cons d ds => simp at hlen

theorem parse_args_loop_dash_i (env : Env) (flags tail : CStr) (rest : List CStr)
    (otc : Bool) (g g1 : Globals)
    (hflags : ∀ c ∈ flags, single_dash_opts.contains c = true) (hi : 'i' ∈ flags)
    (h : parse_args_loop env (('-' :: (flags ++ tail)) :: rest) otc g = Except.ok g1) :
    g1.no_sigs = true := by
  cases rest with
  | nil =>
    rw [parse_args_loop] at h
    split at h
    · simp at h
    · rename_i b otc1 gs hs
      simp only [Except.ok.injEq] at h
      subst h
      exact dash_option_sets_no_sigs env flags tail none otc g _ hflags hi hs
  | cons next rest =>
    rw [parse_args_loop] at h
    split at h
    · simp at h
    · rename_i otc1 gs hs
      exact (parse_args_loop_keeps env _ _ _ _ h).1
        (dash_option_sets_no_sigs env flags tail (some next) otc g _ hflags hi hs)
    · rename_i otc1 gs hs
      exact (parse_args_loop_keeps env _ _ _ _ h).1
        (dash_option_sets_no_sigs env flags tail (some next) otc g _ hflags hi hs)

theorem parse_args_defaults_frame (g : Globals) :
    (parse_args_defaults g).no_sigs = g.no_sigs
      ∧ (parse_args_defaults g).root_validation = g.root_validation
      ∧ (parse_args_defaults g).curqname = g.curqname
      ∧ (parse_args_defaults g).typeset = g.typeset := by
  unfold parse_args_defaults
  refine ⟨?_, ?_, ?_, ?_⟩ <;> simp only <;> (repeat' split) <;> simp_all

theorem sigsInvariant_init : SigsInvariant Globals.init := by
  intro h
  exact absurd h (by decide)

/-- C2. Every option handler keeps the invariant that `no_sigs` implies
root validation off, and none clears `no_sigs`.  So for every command line
on which the argument loop comes to an option argument whose run of
argument-less flags holds `i`, and which parses without ending the program,
`no_sigs` is true and `root_validation` is false after parsing, whatever
came before or after, and the option word of `resolve` has both NODNSSEC
and NOVALIDATE set. -/
theorem dash_i_keeps_validation_off (env : Env) (argv rest : List CStr) (flags tail : CStr)
    (otc : Bool) (gm g : Globals)
    (harrives : Arrives env argv true Globals.init (('-' :: (flags ++ tail)) :: rest) otc gm)
    (hflags : ∀ c ∈ flags, single_dash_opts.contains c = true) (hi : 'i' ∈ flags)
    (hparse : parse_args env argv Globals.init = Except.ok g) :
    (∀ option g0 g1, plus_option env option g0 = Except.ok g1 →
        SigsInvariant g0 → SigsInvariant g1) ∧
      (∀ option next otc0 g0 r, dash_option env option next otc0 g0 = Except.ok r →
        SigsInvariant g0 → SigsInvariant r.2.2) ∧
      g.no_sigs = true ∧ g.root_validation = false ∧
      resolve_resopt g &&& DNS_CLIENTRESOPT_NODNSSEC ≠ 0 ∧
      resolve_resopt g &&& DNS_CLIENTRESOPT_NOVALIDATE ≠ 0 := by
  have hplus : ∀ option g0 g1, plus_option env option g0 = Except.ok g1 →
      SigsInvariant g0 → SigsInvariant g1 :=
    fun option g0 g1 h => (plus_option_keeps env option g0 g1 h).2.1
  have hdash : ∀ option next otc0 g0 r, dash_option env option next otc0 g0 = Except.ok r →
      SigsInvariant g0 → SigsInvariant r.2.2 :=
    fun option next otc0 g0 r h => (dash_option_keeps env option next otc0 g0 r h).2.1
  unfold parse_args at hparse
  split at hparse
  · simp at hparse
  · rename_i gl hloop
    simp only [Except.ok.injEq] at hparse
    subst hparse
    have hinv : SigsInvariant gl :=
      (parse_args_loop_keeps env argv true Globals.init gl hloop).2.1 sigsInvariant_init
    have hsigs : gl.no_sigs = true := by
      rw [harrives.loop_eq] at hloop
      exact parse_args_loop_dash_i env flags tail rest otc gm gl hflags hi hloop
    have hframe := parse_args_defaults_frame gl
    have h1 : (parse_args_defaults gl).no_sigs = true := by rw [hframe.1]; exact hsigs
    have h2 : (parse_args_defaults gl).root_validation = false := by
      rw [hframe.2.1]; exact hinv hsigs
    refine ⟨hplus, hdash, h1, h2, ?_, ?_⟩
    · exact (resolve_resopt_flags _).2.1.2 h1
    · exact (resolve_resopt_flags _).2.2.1.2 h2

/-- C2 on `+noroot -i +root example.com`: the `+root` after `-i` does not
turn validation on again. -/
theorem dash_i_keeps_validation_off_witness :
    dashIState.no_sigs = true ∧ dashIState.root_validation = false ∧
      resolve_resopt dashIState &&& DNS_CLIENTRESOPT_NODNSSEC ≠ 0 ∧
      resolve_resopt dashIState &&& DNS_CLIENTRESOPT_NOVALIDATE ≠ 0 :=
  (dash_i_keeps_validation_off bareEnv dashIArgs ["+root".toList, "example.com".toList]
    ['i'] [] true { Globals.init with root_validation := false } dashIState
    (Arrives.onto (by decide) (Arrives.here _ _ _))
    (by decide) (by decide) (by decide)).2.2

theorem parse_args_loop_step_error (env : Env) (arg : CStr) (rest : List CStr)
    (otc : Bool) (g : Globals) (e : Exit)
    (h : ∀ next, parse_args_step env arg next otc g = Except.error e) :
    parse_args_loop env (arg :: rest) otc g = Except.error e := by
  cases rest with
  | nil => rw [parse_args_loop, h none]
  | cons next rest => rw [parse_args_loop, h (some next)]

theorem parse_args_step_bare (env : Env) (arg : CStr) (next : Option CStr) (otc : Bool)
    (g : Globals) (h1 : arg.head? ≠ some '@') (h2 : arg.head? ≠ some '+')
    (h3 : arg.head? ≠ some '-') :
    parse_args_step env arg next otc g
      = match parse_args_bare env arg otc g with
        | Except.error e => Except.error e
        | Except.ok g1 => Except.ok (false, otc, g1) := by
  unfold parse_args_step
  split
  · simp at h1
  · simp at h2
  · simp at h3
  · rfl

theorem noTransfer_init : NoTransfer Globals.init := by
  unfold NoTransfer
  decide

theorem parse_args_defaults_noTransfer (g : Globals) (h : NoTransfer g) :
    NoTransfer (parse_args_defaults g) := by
  unfold NoTransfer at h
  unfold parse_args_defaults NoTransfer
  cases ht : g.typeset <;> cases hn : g.curqname <;>
    simp [ht, hn, dns_rdatatype_a, dns_rdatatype_ns, dns_rdatatype_axfr, dns_rdatatype_ixfr]
  all_goals exact h

/-- C10. A bare argument read while type and class tokens are still
accepted, or the value of `-t` (in the same argument or in the next), that
`dns_rdatatype_fromtext` reads as AXFR or IXFR ends the argument loop with
the fatal error `Transfer not supported`; hence after every successful
`parse_args` the query type is neither AXFR nor IXFR. -/
theorem parse_args_rejects_transfers (env : Env) :
    (∀ (arg : CStr) (rest : List CStr) (g : Globals) (rdtype : Nat),
        arg.head? ≠ some '@' → arg.head? ≠ some '+' → arg.head? ≠ some '-' →
        env.rdatatype_fromtext arg = some rdtype →
        (rdtype = dns_rdatatype_axfr ∨ rdtype = dns_rdatatype_ixfr) →
        parse_args_loop env (arg :: rest) true g
          = Except.error { code := 1, message := "Transfer not supported" }) ∧
      (∀ (value : CStr) (rest : List CStr) (otc : Bool) (g : Globals) (rdtype : Nat),
        value ≠ [] →
        env.rdatatype_fromtext value = some rdtype →
        (rdtype = dns_rdatatype_axfr ∨ rdtype = dns_rdatatype_ixfr) →
        parse_args_loop env (('-' :: 't' :: value) :: rest) otc g
          = Except.error { code := 1, message := "Transfer not supported" }) ∧
      (∀ (value : CStr) (rest : List CStr) (otc : Bool) (g : Globals) (rdtype : Nat),
        env.rdatatype_fromtext value = some rdtype →
        (rdtype = dns_rdatatype_axfr ∨ rdtype = dns_rdatatype_ixfr) →
        parse_args_loop env ("-t".toList :: value :: rest) otc g
          = Except.error { code := 1, message := "Transfer not supported" }) ∧
      (∀ (argv : List CStr) (g : Globals),
        parse_args env argv Globals.init = Except.ok g →
        g.qtype ≠ dns_rdatatype_axfr ∧ g.qtype ≠ dns_rdatatype_ixfr) := by
  refine ⟨?_, ?_, ?_, ?_⟩
  · intro arg rest g rdtype h1 h2 h3 hty hx
    apply parse_args_loop_step_error
    intro next
    rw [parse_args_step_bare env arg next true g h1 h2 h3]
    have hcond : (rdtype == dns_rdatatype_ixfr || rdtype == dns_rdatatype_axfr) = true := by
      rcases hx with h | h <;> rw [h] <;> decide
    simp [parse_args_bare, hty, hcond, fatal]
  · intro value rest otc g rdtype hne hty hx
    apply parse_args_loop_step_error
    intro next
    have hcond : (rdtype == dns_rdatatype_ixfr || rdtype == dns_rdatatype_axfr) = true := by
      rcases hx with h | h <;> rw [h] <;> decide
    have hlen : ('t' :: value).length > 1 := by
      cases value with
      | nil => exact absurd rfl hne
      | cons c cs => simp
    have hsingle : single_dash_opts.contains 't' = false := by decide
    simp only [parse_args_step, dash_option, hsingle, Bool.false_eq_true, if_false]
    simp only [dash_option_value, hlen, if_true, List.getD_cons_zero, List.drop_succ_cons,
      List.drop_zero, hty, hcond, fatal]
  · intro value rest otc g rdtype hty hx
    have hcond : (rdtype == dns_rdatatype_ixfr || rdtype == dns_rdatatype_axfr) = true := by
      rcases hx with h | h <;> rw [h] <;> decide
    have hsingle : single_dash_opts.contains 't' = false := by decide
    have hstep : parse_args_step env "-t".toList (some value) otc g
        = Except.error { code := 1, message := "Transfer not supported" } := by
      show parse_args_step env ['-', 't'] (some value) otc g = _
      simp only [parse_args_step, dash_option, hsingle, Bool.false_eq_true, if_false]
      simp [dash_option_value, hty, hcond, fatal]
    rw [parse_args_loop, hstep]
  · intro argv g h
    unfold parse_args at h
    split at h
    · simp at h
    · rename_i gl hloop
      simp only [Except.ok.injEq] at h
      subst h
      exact parse_args_defaults_noTransfer gl
        ((parse_args_loop_keeps env argv true Globals.init gl hloop).2.2 noTransfer_init)

/-- C10 on the command lines `example.com AXFR`, `-tIXFR` and `-t AXFR`:
each ends with `Transfer not supported`. -/
theorem parse_args_rejects_transfers_witness :
    parse_args_loop transferEnv ["AXFR".toList] true
        { Globals.init with curqname := some "example.com".toList }
        = Except.error { code := 1, message := "Transfer not supported" }
      ∧ parse_args_loop transferEnv ["-tIXFR".toList] true Globals.init
        = Except.error { code := 1, message := "Transfer not supported" }
      ∧ parse_args_loop transferEnv ["-t".toList, "AXFR".toList] true Globals.init
        = Except.error { code := 1, message := "Transfer not supported" } :=
  ⟨(parse_args_rejects_transfers transferEnv).1 "AXFR".toList []
      { Globals.init with curqname := some "example.com".toList } dns_rdatatype_axfr
      (by decide) (by decide) (by decide) (by decide) (Or.inl rfl),
    (parse_args_rejects_transfers transferEnv).2.1 "IXFR".toList [] true Globals.init
      dns_rdatatype_ixfr (by decide) (by decide) (Or.inr rfl),
    (parse_args_rejects_transfers transferEnv).2.2.1 "AXFR".toList [] true Globals.init
      dns_rdatatype_axfr (by decide) (Or.inl rfl)⟩

/-! ## Properties of the trust annotation in YAML mode -/

/-- What `print_status` writes, in terms of the annotation: nothing when
trust display is off or the rdataset is not associated, else one line
around the annotation, `  - <annotation>:` in YAML mode and `; <annotation>`
in zone-file mode. -/
theorem print_status_eq (g : Globals) (rdataset : Rdataset) :
    print_status g rdataset
      = if !g.showtrust || !rdataset.associated then g
        else if g.yaml then
          { g with stdout := g.stdout ++
              ["  - " ++ String.mk (print_status_text g.yaml g.root_validation rdataset)
                ++ ":\n"] }
        else
          { g with stdout := g.stdout ++
              ["; " ++ String.mk (print_status_text g.yaml g.root_validation rdataset)
                ++ "\n"] } := by
  unfold print_status print_status_text
  cases hy : g.yaml <;> simp

theorem not_mem_underscored (text : CStr) : ' ' ∉ text.map (fun c => if c = ' ' then '_' else c) := by
  intro h
  obtain ⟨c, _, hc⟩ := List.mem_map.1 h
  by_cases hsp : c = ' '
  · rw [if_pos hsp] at hc
    exact absurd hc (by decide)
  · rw [if_neg hsp] at hc
    exact hsp hc

/-- C11. In YAML mode, for every trust level, either value of the negative
attribute and either value of `root_validation`, the line `print_status`
writes for an associated rdataset is `  - <annotation>:` where the
annotation is not empty and holds no space character. -/
theorem print_status_yaml_no_space (g : Globals) (rdataset : Rdataset)
    (hyaml : g.yaml = true) (htrust : g.showtrust = true)
    (hassoc : rdataset.associated = true) :
    print_status g rdataset
        = { g with stdout := g.stdout ++
              ["  - " ++ String.mk (print_status_text true g.root_validation rdataset)
                ++ ":\n"] }
      ∧ ' ' ∉ print_status_text true g.root_validation rdataset
      ∧ print_status_text true g.root_validation rdataset ≠ [] := by
  refine ⟨?_, ?_, ?_⟩
  · rw [print_status_eq]
    simp [hyaml, htrust, hassoc]
  · unfold print_status_text
    simp only [if_true]
    exact not_mem_underscored _
  · obtain ⟨assoc, neg, trust, rdtype, rdatas⟩ := rdataset
    cases trust <;> cases neg <;> cases g.root_validation <;>
      simp [print_status_text, print_status_buf, strlcat]

/-- C11 on a secure negative response in YAML mode, from the initial state
with `+yaml`: the annotation is `negative_response_fully_validated`. -/
theorem print_status_yaml_no_space_witness :
    print_status { Globals.init with yaml := true } ⟨true, true, Trust.secure, 1, []⟩
        = { Globals.init with
              yaml := true,
              stdout := ["  - negative_response_fully_validated:\n"] }
      ∧ ' ' ∉ "negative_response_fully_validated".toList :=
  ⟨(print_status_yaml_no_space { Globals.init with yaml := true }
      ⟨true, true, Trust.secure, 1, []⟩ rfl rfl rfl).1.trans (by decide),
    (print_status_yaml_no_space { Globals.init with yaml := true }
      ⟨true, true, Trust.secure, 1, []⟩ rfl rfl rfl).2.1⟩

/-- C12, as stated, fails: for a secure rdataset with the negative
attribute the YAML annotation is `negative_response_fully_validated`, while
the zone-file annotation `negative response, fully validated` with each
space replaced by an underscore is `negative_response,_fully_validated`. -/
theorem yaml_annotation_not_underscored_zone :
    print_status_text true true ⟨true, true, Trust.secure, 1, []⟩
        = "negative_response_fully_validated".toList
      ∧ underscored (print_status_text false true ⟨true, true, Trust.secure, 1, []⟩)
        = "negative_response,_fully_validated".toList
      ∧ ¬ (∀ (root_validation : Bool) (rdataset : Rdataset),
          print_status_text true root_validation rdataset
            = underscored (print_status_text false root_validation rdataset)) := by
  refine ⟨by decide, by decide, ?_⟩
  intro h
  exact absurd (h true ⟨true, true, Trust.secure, 1, []⟩) (by decide)

/-- C12, amended.  For every trust level other than the two pending ones:
with the negative attribute clear, the YAML annotation is the zone-file
annotation with each space replaced by an underscore; with the negative
attribute set, the zone-file annotation is `negative response, ` followed
by the annotation `d` of the same rdataset without the attribute, and the
YAML annotation is `negative_response_` followed by `d` with each space
replaced by an underscore (the comma of the separator is dropped). -/
theorem yaml_status_of_zone_status (root_validation : Bool) (rdataset : Rdataset)
    (h1 : rdataset.trust ≠ Trust.pending_additional)
    (h2 : rdataset.trust ≠ Trust.pending_answer) :
    (rdataset.negative = false →
        print_status_text true root_validation rdataset
          = underscored (print_status_text false root_validation rdataset)) ∧
      (rdataset.negative = true →
        print_status_text false root_validation rdataset
            = "negative response, ".toList
              ++ print_status_text false root_validation
                  { rdataset with negative := false } ∧
          print_status_text true root_validation rdataset
            = "negative_response_".toList
              ++ underscored (print_status_text false root_validation
                  { rdataset with negative := false })) := by
  obtain ⟨assoc, neg, trust, rdtype, rdatas⟩ := rdataset
  simp only at h1 h2
  constructor
  · intro hn
    simp only at hn
    subst hn
    cases trust <;> cases root_validation <;>
      first
        | exact absurd rfl h1
        | exact absurd rfl h2
        | rfl
  · intro hn
    simp only at hn
    subst hn
    cases trust <;> cases root_validation <;>
      first
        | exact absurd rfl h1
        | exact absurd rfl h2
        | exact ⟨rfl, rfl⟩

/-- The amended C12 on an ultimate-trust rdataset, without and with the
negative attribute. -/
theorem yaml_status_of_zone_status_witness :
    print_status_text true true ⟨true, false, Trust.ultimate, 1, []⟩
        = underscored (print_status_text false true ⟨true, false, Trust.ultimate, 1, []⟩)
      ∧ print_status_text true true ⟨true, true, Trust.ultimate, 1, []⟩
        = "negative_response_".toList
          ++ underscored (print_status_text false true
              ⟨true, false, Trust.ultimate, 1, []⟩) :=
  ⟨(yaml_status_of_zone_status true ⟨true, false, Trust.ultimate, 1, []⟩
      (by decide) (by decide)).1 rfl,
    ((yaml_status_of_zone_status true ⟨true, true, Trust.ultimate, 1, []⟩
      (by decide) (by decide)).2 rfl).2⟩

/-- The two pending trust levels in YAML mode: the separator `, ` of the
zone-file text is left out and nothing stands in its place. -/
theorem yaml_annotation_pending :
    print_status_text true true ⟨true, false, Trust.pending_additional, 1, []⟩
        = "signed_additional_datapending_validation".toList
      ∧ print_status_text true true ⟨true, false, Trust.pending_answer, 1, []⟩
        = "signed_answerpending_validation".toList := by
  decide

/-! ## Properties of the cd flag -/

/-- C15, as stated, fails: from the initial state, `+cdflag` and
`+nocdflag` give settings that differ only in `cdflag`, and `resolve`
builds the option word 0 for the first and `DNS_CLIENTRESOPT_NOCDFLAG` for
the second. -/
theorem resolve_resopt_depends_on_cdflag :
    plus_option bareEnv "cdflag".toList Globals.init
        = Except.ok { Globals.init with cdflag := true }
      ∧ plus_option bareEnv "nocdflag".toList Globals.init
        = Except.ok { Globals.init with cdflag := false }
      ∧ resolve_resopt { Globals.init with cdflag := true } = 0
      ∧ resolve_resopt { Globals.init with cdflag := false } = DNS_CLIENTRESOPT_NOCDFLAG
      ∧ resolve_resopt { Globals.init with cdflag := true }
        ≠ resolve_resopt { Globals.init with cdflag := false } := by
  decide

/-- C15, amended.  The option word depends on the cd flag in one bit only:
`+cdflag` and `+nocdflag` set `cdflag` and nothing else, and for settings
that differ only in `cdflag` the option word built with `cdflag` false is
the one built with `cdflag` true with `DNS_CLIENTRESOPT_NOCDFLAG` added,
that bit being clear in the latter. -/
theorem resolve_resopt_cdflag_bit (env : Env) (g : Globals) :
    plus_option env "cdflag".toList g = Except.ok { g with cdflag := true }
      ∧ plus_option env "nocdflag".toList g = Except.ok { g with cdflag := false }
      ∧ resolve_resopt { g with cdflag := false }
        = resolve_resopt { g with cdflag := true } ||| DNS_CLIENTRESOPT_NOCDFLAG
      ∧ resolve_resopt { g with cdflag := true } &&& DNS_CLIENTRESOPT_NOCDFLAG = 0
      ∧ resolve_resopt { g with cdflag := false } &&& DNS_CLIENTRESOPT_NOCDFLAG
        = DNS_CLIENTRESOPT_NOCDFLAG := by
  refine ⟨by rfl, by rfl, ?_, ?_, ?_⟩
  all_goals
    simp only [resolve_resopt]
    cases g.no_sigs <;> cases g.root_validation <;> cases g.use_tcp <;> decide

/-! ## Properties of `+split` -/

theorem strtok_r_no_delim (s : CStr) (h : s ≠ []) : strtok_r s [] = (some s, []) := by
  cases s with
  | nil => exact absurd rfl h
  | cons c cs =>
    have htake : ∀ l : CStr, List.takeWhile (fun _ => !false) l = l := by
      intro l
      rw [List.takeWhile_eq_self_iff]
      intro x _
      rfl
    have hdrop : ∀ l : CStr, List.dropWhile (fun _ => !false) l = [] := by
      intro l
      rw [List.dropWhile_eq_nil_iff]
      intro x _
      rfl
    simp only [strtok_r, List.dropWhile_cons, List.contains_nil, Bool.false_eq_true, if_false,
      reduceCtorEq]
    rw [htake, hdrop]
    rfl

theorem split_adjust_splitwidth (g : Globals) (h : g.splitwidth ≤ 1023) :
    (split_adjust g).splitwidth
      = if g.splitwidth = 0 then 0 else (g.splitwidth + 3) / 4 * 4 + 3 := by
  unfold split_adjust
  simp only [warn, bne_iff_ne, ne_eq]
  by_cases h4 : g.splitwidth % 4 = 0
  · simp only [h4, not_true_eq_false, if_false]
    by_cases h0 : g.splitwidth = 0
    · simp [h0]
    · simp only [h0, not_false_eq_true, if_true, if_false]
      omega
  · have h0 : g.splitwidth ≠ 0 := by
      intro h0
      rw [h0] at h4
      exact h4 rfl
    have hw : ((g.splitwidth + 3) % 2 ^ 32 / 4 * 4) % 2 ^ 32 ≠ 0 := by omega
    simp only [h4, not_false_eq_true, if_true, hw, h0, if_false]
    omega

/-- C14. For every text that `isc_parse_uint32` reads as a number N with
N <= 1023, `+split=<text>` leaves `splitwidth` at 0 when N is 0 and at
M + 3 otherwise, M being the least multiple of 4 that is >= N; so 1..4 give
7 and 1021..1023 give 1027.  `+nosplit` sets `splitwidth` to 0 and `+split`
without a value changes nothing. -/
theorem plus_option_split_width (env : Env) (g : Globals) (text : CStr) (N : Nat)
    (htext : text ≠ [])
    (hparse : env.isc_parse_uint32 text = Except.ok N) (hN : N ≤ 1023) :
    (∃ g1 M, plus_option env ("split=".toList ++ text) g = Except.ok g1
        ∧ 4 ∣ M ∧ N ≤ M ∧ (∀ m, 4 ∣ m → N ≤ m → M ≤ m)
        ∧ g1.splitwidth = (if N = 0 then 0 else M + 3)
        ∧ (1 ≤ N → N ≤ 4 → g1.splitwidth = 7)
        ∧ (1021 ≤ N → g1.splitwidth = 1027))
      ∧ plus_option env "nosplit".toList g = Except.ok { g with splitwidth := 0 }
      ∧ plus_option env "split".toList g = Except.ok g := by
  refine ⟨?_, by rfl, by rfl⟩
  have hpu : parse_uint env text 1023 "split" g = (Except.ok N, g) := by
    simp [parse_uint, hparse, Nat.not_lt.2 hN]
  have hopt : plus_option env ("split=".toList ++ text) g
      = Except.ok (split_adjust { g with splitwidth := N }) := by
    have htok : strtok_r ("split=".toList ++ text) "=".toList = (some "split".toList, text) := by
      simp [strtok_r, List.dropWhile, List.takeWhile]
    simp only [plus_option, htok, strtok_r_no_delim text htext]
    simp [strncasecmp_eq, plus_option_switch, FULLCHECK, plus_option_split, hpu]
  have hw := split_adjust_splitwidth { g with splitwidth := N } hN
  simp only at hw
  refine ⟨_, (N + 3) / 4 * 4, hopt, ?_, ?_, ?_, ?_, ?_, ?_⟩
  · exact Dvd.intro_left _ rfl
  · omega
  · intro m hm hle
    obtain ⟨k, rfl⟩ := hm
    omega
  · exact hw
  · intro h1 h4
    rw [hw]
    have : N ≠ 0 := by omega
    simp only [this, if_false]
    omega
  · intro h1
    rw [hw]
    have : N ≠ 0 := by omega
    simp only [this, if_false]
    omega

/-- C14 on `+split=5` in an environment that reads every text as 5: the
width becomes 11. -/
theorem plus_option_split_width_witness :
    (∃ g1 M, plus_option bareEnv ("split=".toList ++ "5".toList) Globals.init = Except.ok g1
        ∧ 4 ∣ M ∧ 5 ≤ M ∧ (∀ m, 4 ∣ m → 5 ≤ m → M ≤ m)
        ∧ g1.splitwidth = (if 5 = 0 then 0 else M + 3)
        ∧ (1 ≤ 5 → 5 ≤ 4 → g1.splitwidth = 7)
        ∧ (1021 ≤ 5 → g1.splitwidth = 1027))
      ∧ plus_option bareEnv "nosplit".toList Globals.init
        = Except.ok { Globals.init with splitwidth := 0 }
      ∧ plus_option bareEnv "split".toList Globals.init = Except.ok Globals.init :=
  plus_option_split_width bareEnv Globals.init "5".toList 5 (by decide) rfl (by decide)

/-! ## Properties of the anchor-type tag -/

theorem key_anchortype_of_lower {key : KeyEntry} {tag : CStr} (known : CStr)
    (expected : AnchorType) (htag : key.anchortype = some tag)
    (hlower : tag.map Char.toLower = known.map Char.toLower)
    (hknown : key_anchortype { key with anchortype := some known } = some expected) :
    key_anchortype key = some expected := by
  unfold key_anchortype strcasecmp_eq at hknown ⊢
  simp only [htag]
  simp only at hknown
  rw [hlower]
  exact hknown

theorem key_anchortype_static_key {key : KeyEntry} {tag : CStr}
    (htag : key.anchortype = some tag)
    (h : strcasecmp_eq tag "static-key".toList = true) :
    key_anchortype key = some AnchorType.STATIC_KEY :=
  key_anchortype_of_lower "static-key".toList _ htag ((strcasecmp_eq_iff _ _).1 h) (by rfl)

theorem key_anchortype_initial_key {key : KeyEntry} {tag : CStr}
    (htag : key.anchortype = some tag)
    (h : strcasecmp_eq tag "initial-key".toList = true) :
    key_anchortype key = some AnchorType.INITIAL_KEY :=
  key_anchortype_of_lower "initial-key".toList _ htag ((strcasecmp_eq_iff _ _).1 h) (by rfl)

theorem key_anchortype_static_ds {key : KeyEntry} {tag : CStr}
    (htag : key.anchortype = some tag)
    (h : strcasecmp_eq tag "static-ds".toList = true) :
    key_anchortype key = some AnchorType.STATIC_DS :=
  key_anchortype_of_lower "static-ds".toList _ htag ((strcasecmp_eq_iff _ _).1 h) (by rfl)

theorem key_anchortype_initial_ds {key : KeyEntry} {tag : CStr}
    (htag : key.anchortype = some tag)
    (h : strcasecmp_eq tag "initial-ds".toList = true) :
    key_anchortype key = some AnchorType.INITIAL_DS :=
  key_anchortype_of_lower "initial-ds".toList _ htag ((strcasecmp_eq_iff _ _).1 h) (by rfl)

theorem key_anchortype_none_iff {key : KeyEntry} {tag : CStr}
    (htag : key.anchortype = some tag)
    (h1 : strcasecmp_eq tag "static-key".toList = false)
    (h2 : strcasecmp_eq tag "static-ds".toList = false)
    (h3 : strcasecmp_eq tag "initial-key".toList = false)
    (h4 : strcasecmp_eq tag "initial-ds".toList = false) :
    key_anchortype key = none := by
  simp only [key_anchortype, htag]
  rw [h1, h2, h3, h4]
  rfl

/-- Two entries that agree in name, numbers and data, with anchor types of
the same kind (both of a key kind or both of a DS kind), are treated alike
by `key_fromconfig`. -/
theorem key_fromconfig_same_kind (env : Env) (key1 key2 : KeyEntry) (client : Client)
    (g : Globals) (a1 a2 : AnchorType)
    (hname : key1.name = key2.name) (hr1 : key1.rdata1 = key2.rdata1)
    (hr2 : key1.rdata2 = key2.rdata2) (hr3 : key1.rdata3 = key2.rdata3)
    (hdata : key1.data = key2.data)
    (ht1 : key_anchortype key1 = some a1) (ht2 : key_anchortype key2 = some a2)
    (hkind : (a1 = AnchorType.STATIC_KEY ∨ a1 = AnchorType.INITIAL_KEY)
        ∧ (a2 = AnchorType.STATIC_KEY ∨ a2 = AnchorType.INITIAL_KEY)
      ∨ (a1 = AnchorType.STATIC_DS ∨ a1 = AnchorType.INITIAL_DS)
        ∧ (a2 = AnchorType.STATIC_DS ∨ a2 = AnchorType.INITIAL_DS)) :
    key_fromconfig env key1 client g = key_fromconfig env key2 client g := by
  have hadd : ∀ keyname g1, key_fromconfig_add env key1 keyname a1 client g1
      = key_fromconfig_add env key2 keyname a2 client g1 := by
    intro keyname g1
    unfold key_fromconfig_add
    rw [hr1, hr2, hr3, hdata]
    rcases hkind with ⟨h1 | h1, h2 | h2⟩ | ⟨h1 | h1, h2 | h2⟩ <;> rw [h1, h2]
  unfold key_fromconfig
  rw [hname, ht1, ht2]
  simp only [hadd]

/-- C16, as stated, fails in its last part: an entry with the unknown tag
`bogus` that is owned by `example.com`, while the selected anchor name is
the root, does not make `key_fromconfig` fail.  The function returns success
before it looks at the tag, with the client and the state unchanged. -/
theorem key_fromconfig_stray_tag_not_rejected :
    key_anchortype strayTagKey = none
      ∧ key_fromconfig bareEnv strayTagKey ⟨[], []⟩ rootAnchorState
        = (Result.success, ⟨[], []⟩, rootAnchorState) := by
  decide

/-- C16, amended.  `key_fromconfig` treats the tag `initial-key` like
`static-key` and `initial-ds` like `static-ds`: entries equal in every
other field give the same result, the same client and the same state (so
the same rdata added and the same change to `num_keys`).  An entry without
a tag is treated like one tagged `static-key`, tags are compared without
regard to letter case, and any other tag on an entry owned by the selected
anchor name makes `key_fromconfig` return failure, with the client and
`num_keys` unchanged. -/
theorem key_fromconfig_anchor_tags (env : Env) (key : KeyEntry) (client : Client)
    (g : Globals) :
    (∀ tag1 tag2 : CStr,
        strcasecmp_eq tag1 "initial-key".toList = true →
        strcasecmp_eq tag2 "static-key".toList = true →
        key_fromconfig env { key with anchortype := some tag1 } client g
          = key_fromconfig env { key with anchortype := some tag2 } client g) ∧
      (∀ tag1 tag2 : CStr,
        strcasecmp_eq tag1 "initial-ds".toList = true →
        strcasecmp_eq tag2 "static-ds".toList = true →
        key_fromconfig env { key with anchortype := some tag1 } client g
          = key_fromconfig env { key with anchortype := some tag2 } client g) ∧
      (∀ tag : CStr,
        strcasecmp_eq tag "static-key".toList = true →
        key_fromconfig env { key with anchortype := none } client g
          = key_fromconfig env { key with anchortype := some tag } client g) ∧
      (∀ (tag : CStr) (keyname anchor : DnsName),
        g.root_validation = true →
        env.dns_name_fromtext key.name = Except.ok keyname →
        g.anchor_name = some anchor →
        dns_name_equal keyname anchor = true →
        strcasecmp_eq tag "static-key".toList = false →
        strcasecmp_eq tag "static-ds".toList = false →
        strcasecmp_eq tag "initial-key".toList = false →
        strcasecmp_eq tag "initial-ds".toList = false →
        (key_fromconfig env { key with anchortype := some tag } client g).1 = Result.failure
          ∧ (key_fromconfig env { key with anchortype := some tag } client g).2.1 = client
          ∧ (key_fromconfig env { key with anchortype := some tag } client g).2.2.num_keys
              = g.num_keys) := by
  refine ⟨?_, ?_, ?_, ?_⟩
  · intro tag1 tag2 h1 h2
    exact key_fromconfig_same_kind env _ _ client g _ _ rfl rfl rfl rfl rfl
      (key_anchortype_initial_key rfl h1) (key_anchortype_static_key rfl h2)
      (Or.inl ⟨Or.inr rfl, Or.inl rfl⟩)
  · intro tag1 tag2 h1 h2
    exact key_fromconfig_same_kind env _ _ client g _ _ rfl rfl rfl rfl rfl
      (key_anchortype_initial_ds rfl h1) (key_anchortype_static_ds rfl h2)
      (Or.inr ⟨Or.inr rfl, Or.inl rfl⟩)
  · intro tag h
    exact key_fromconfig_same_kind env _ _ client g AnchorType.STATIC_KEY _ rfl rfl rfl rfl rfl
      (by rfl) (key_anchortype_static_key rfl h) (Or.inl ⟨Or.inl rfl, Or.inl rfl⟩)
  · intro tag keyname anchor hrv hname hanchor hown h1 h2 h3 h4
    have hnone : key_anchortype { key with anchortype := some tag } = none :=
      key_anchortype_none_iff rfl h1 h2 h3 h4
    simp [key_fromconfig, convert_name, hname, hrv, hanchor, hown, hnone,
      key_fromconfig_cleanup, log_error]

/-- The amended C16 at concrete inputs: `INITIAL-DS` and `static-ds` on the
same root entry are treated alike, and the tag `bogus` on a root entry
makes `key_fromconfig` fail. -/
theorem key_fromconfig_anchor_tags_witness :
    key_fromconfig bareEnv { shortDigestKey with anchortype := some "INITIAL-DS".toList }
        ⟨[], []⟩ rootAnchorState
      = key_fromconfig bareEnv { shortDigestKey with anchortype := some "static-ds".toList }
          ⟨[], []⟩ rootAnchorState
      ∧ (key_fromconfig bareEnv { rootKey with anchortype := some "bogus".toList }
          ⟨[], []⟩ rootAnchorState).1 = Result.failure :=
  ⟨(key_fromconfig_anchor_tags bareEnv shortDigestKey ⟨[], []⟩ rootAnchorState).2.1
      "INITIAL-DS".toList "static-ds".toList (by decide) (by decide),
    ((key_fromconfig_anchor_tags bareEnv rootKey ⟨[], []⟩ rootAnchorState).2.2.2
      "bogus".toList [[], []] [[], []] rfl (by decide) rfl (by decide) (by decide) (by decide)
      (by decide) (by decide)).1⟩

/-! ## Properties of the owner-name test -/

theorem dns_name_equal_length {a b : DnsName} (h : dns_name_equal a b = true) :
    a.length = b.length := by
  unfold dns_name_equal at h
  have h2 := congrArg List.length (beq_iff_eq.1 h)
  simpa using h2

/-- C17. For every configured key whose name converts to an owner name
that is not equal to the selected anchor name, `key_fromconfig` returns
success and leaves the client and the whole state, `num_keys` included, as
they were.  The selected name is the text of `trust_anchor`, `.` when none
was given, and `+root=<anchor>` stores its value there.  Equality is that of
`dns_name_equal`: a name with one label more (a child) or one label less (a
parent) than the anchor name is not equal to it. -/
theorem key_fromconfig_ignores_other_owners (env : Env) (key : KeyEntry) (client : Client)
    (g : Globals) (keyname : DnsName)
    (hname : env.dns_name_fromtext key.name = Except.ok keyname)
    (hother : ∀ anchor, g.anchor_name = some anchor → dns_name_equal keyname anchor = false) :
    key_fromconfig env key client g = (Result.success, client, g)
      ∧ (∀ (label : CStr) (name : DnsName),
          dns_name_equal (label :: name) name = false
            ∧ dns_name_equal name (label :: name) = false)
      ∧ (default_trust_anchor g).trust_anchor = some (g.trust_anchor.getD ".".toList)
      ∧ (∀ anchor : CStr, anchor ≠ [] → g.no_sigs = false →
          plus_option env ("root=".toList ++ anchor) g
            = Except.ok { g with root_validation := true, trust_anchor := some anchor }) := by
  refine ⟨?_, ?_, ?_, ?_⟩
  · unfold key_fromconfig
    simp only [convert_name, hname]
    cases hrv : g.root_validation
    · simp
    · cases ha : g.anchor_name with
      | none => simp
      | some anchor => simp [hother anchor ha]
  · intro label name
    constructor
    · rw [Bool.eq_false_iff]
      intro h
      have := dns_name_equal_length h
      simp at this
    · rw [Bool.eq_false_iff]
      intro h
      have := dns_name_equal_length h
      simp at this
  · unfold default_trust_anchor
    cases h : g.trust_anchor <;> simp [h]
  · intro anchor hne hsigs
    have htok : strtok_r ("root=".toList ++ anchor) "=".toList = (some "root".toList, anchor) := by
      simp [strtok_r, List.dropWhile, List.takeWhile]
    simp only [plus_option, htok, strtok_r_no_delim anchor hne]
    simp [strncasecmp_eq, plus_option_switch, FULLCHECK, hsigs]

/-- C17 on an entry owned by `example.com` while the selected anchor name
is the root. -/
theorem key_fromconfig_ignores_other_owners_witness :
    key_fromconfig bareEnv strayTagKey ⟨[], []⟩ rootAnchorState
        = (Result.success, ⟨[], []⟩, rootAnchorState)
      ∧ dns_name_equal ["example".toList, "com".toList, []] ["com".toList, []] = false :=
  ⟨(key_fromconfig_ignores_other_owners bareEnv strayTagKey ⟨[], []⟩ rootAnchorState
      ["example".toList, "com".toList] (by decide)
      (fun anchor h => by
        have h2 : anchor = [[], []] := (Option.some.inj h).symm
        rw [h2]
        decide)).1,
    ((key_fromconfig_ignores_other_owners bareEnv strayTagKey ⟨[], []⟩ rootAnchorState
      ["example".toList, "com".toList] (by decide)
      (fun anchor h => by
        have h2 : anchor = [[], []] := (Option.some.inj h).symm
        rw [h2]
        decide)).2.1 "example".toList ["com".toList, []]).1⟩

/-! ## Properties of the server selection -/

theorem parse_uint_ok (env : Env) (value : CStr) (max : Nat) (desc : String) (g : Globals)
    (n : Nat) (h : env.isc_parse_uint32 value = Except.ok n) (hle : n ≤ max) :
    parse_uint env value max desc g = (Except.ok n, g) := by
  simp [parse_uint, h, Nat.not_lt.2 hle]

/-- What `findserver` does once the port is parsed and the resolver
configuration is loaded: it hands `findserver_nameservers` to
`dns_client_setservers` and returns the result of that call, the client
holding the list when the call succeeds. -/
theorem findserver_eq (env : Env) (client : Client) (g : Globals) (destport : Nat)
    (hport : env.isc_parse_uint32 g.port = Except.ok destport) (hle : destport ≤ 0xffff)
    (hload : env.irs_resconf_load.1 = Result.success
      ∨ env.irs_resconf_load.1 = Result.filenotfound) :
    findserver env client g
      = if env.dns_client_setservers
            (findserver_nameservers env.irs_resconf_load.2 g.use_ipv4 g.use_ipv6 destport)
          != Result.success then
          Except.ok
            (env.dns_client_setservers
              (findserver_nameservers env.irs_resconf_load.2 g.use_ipv4 g.use_ipv6 destport),
              client,
              log_error ("dns_client_setservers: " ++ isc_result_totext
                (env.dns_client_setservers
                  (findserver_nameservers env.irs_resconf_load.2 g.use_ipv4 g.use_ipv6
                    destport))) g)
        else
          Except.ok
            (env.dns_client_setservers
              (findserver_nameservers env.irs_resconf_load.2 g.use_ipv4 g.use_ipv6 destport),
              { client with servers :=
                  (findserver_nameservers env.irs_resconf_load.2 g.use_ipv4 g.use_ipv6
                    destport) },
              g) := by
  unfold findserver
  rw [parse_uint_ok env g.port 0xffff "port" g destport hport hle]
  have hcond : (env.irs_resconf_load.1 != Result.success
      && env.irs_resconf_load.1 != Result.filenotfound) = false := by
    rcases hload with h | h <;> rw [h] <;> decide
  simp only [hcond, Bool.false_eq_true, if_false]
  rfl

theorem findserver_kept_eq (configured : List Sockaddr) (use_ipv4 use_ipv6 : Bool)
    (destport : Nat) :
    configured.filterMap (fun sa =>
        if sa.family == AF_INET && use_ipv4 then some { sa with port := destport }
        else if sa.family == AF_INET6 && use_ipv6 then some { sa with port := destport }
        else none)
      = (configured.filter (familyEnabled use_ipv4 use_ipv6)).map
          (fun sa => { sa with port := destport }) := by
  induction configured with
  | nil => rfl
  | cons sa rest ih =>
    rw [List.filterMap_cons, ih]
    unfold familyEnabled
    cases h4 : (sa.family == AF_INET && use_ipv4) <;>
      cases h6 : (sa.family == AF_INET6 && use_ipv6) <;>
      simp [List.filter_cons, h4, h6]

theorem findserver_nameservers_eq (configured : List Sockaddr) (use_ipv4 use_ipv6 : Bool)
    (destport : Nat) :
    findserver_nameservers configured use_ipv4 use_ipv6 destport
      = if ((configured.filter (familyEnabled use_ipv4 use_ipv6)).map
            (fun sa => { sa with port := destport })).isEmpty then
          (if use_ipv4 then
              [({ family := AF_INET, addr := [127, 0, 0, 1], port := destport } : Sockaddr)]
            else [])
          ++ (if use_ipv6 then
              [({ family := AF_INET6, addr := List.replicate 15 0 ++ [1],
                  port := destport } : Sockaddr)]
            else [])
        else
          (configured.filter (familyEnabled use_ipv4 use_ipv6)).map
            (fun sa => { sa with port := destport }) := by
  unfold findserver_nameservers
  simp only [findserver_kept_eq]

/-- C18, as stated, fails for `findserver`: after `-4`, with a resolver
configuration whose only server is an IPv6 address, server selection
returns success and goes on with 127.0.0.1 (here on port 5, the port this
environment reads). -/
theorem findserver_falls_back_to_loopback :
    (parse_args v6ResolverEnv ["-4".toList] Globals.init).map (fun g => g.use_ipv6)
        = Except.ok false
      ∧ (findserver v6ResolverEnv ⟨[], []⟩ { Globals.init with use_ipv6 := false }).map
          (fun r => (r.1, r.2.1.servers))
        = Except.ok (Result.success,
            [({ family := AF_INET, addr := [127, 0, 0, 1], port := 5 } : Sockaddr)]) := by
  decide

/-- C18, amended.  A literal `@server` address of a family that `-4` or
`-6` has switched off makes `addserver` end the program through `fatal`.
When the switches leave none of the servers of the resolver configuration,
`findserver` does not fail: the list it hands to `dns_client_setservers` is
the loopback address of each enabled family on the destination port, and it
returns the result of that call. -/
theorem server_selection_by_family (env : Env) (client : Client) (g : Globals)
    (destport : Nat)
    (hport : env.isc_parse_uint32 g.port = Except.ok destport) (hle : destport ≤ 0xffff) :
    (∀ (server : CStr) (in4 : List Nat),
        env.inet_pton4 server = some in4 → g.use_ipv4 = false →
        addserver env server client g
          = Except.error { code := 1, message := "Use of IPv4 disabled by -6" }) ∧
      (∀ (server : CStr) (in6 : List Nat),
        env.inet_pton4 server = none → env.inet_pton6 server = some in6 →
        g.use_ipv6 = false →
        addserver env server client g
          = Except.error { code := 1, message := "Use of IPv6 disabled by -4" }) ∧
      ((env.irs_resconf_load.1 = Result.success
          ∨ env.irs_resconf_load.1 = Result.filenotfound) →
        (∀ sa ∈ env.irs_resconf_load.2, familyEnabled g.use_ipv4 g.use_ipv6 sa = false) →
        findserver_nameservers env.irs_resconf_load.2 g.use_ipv4 g.use_ipv6 destport
            = (if g.use_ipv4 then
                  [({ family := AF_INET, addr := [127, 0, 0, 1], port := destport } : Sockaddr)]
                else [])
              ++ (if g.use_ipv6 then
                  [({ family := AF_INET6, addr := List.replicate 15 0 ++ [1],
                      port := destport } : Sockaddr)]
                else []) ∧
          (findserver env client g).map (fun r => r.1)
            = Except.ok (env.dns_client_setservers
                (findserver_nameservers env.irs_resconf_load.2 g.use_ipv4 g.use_ipv6
                  destport))) := by
  have hpu := parse_uint_ok env g.port 0xffff "port" g destport hport hle
  refine ⟨?_, ?_, ?_⟩
  · intro server in4 h4 huse
    simp [addserver, hpu, h4, huse, fatal]
  · intro server in6 h4 h6 huse
    simp [addserver, hpu, h4, h6, huse, fatal]
  · intro hload hnone
    constructor
    · rw [findserver_nameservers_eq]
      have hfilter : List.filter (familyEnabled g.use_ipv4 g.use_ipv6) env.irs_resconf_load.2
          = [] := by
        rw [List.filter_eq_nil_iff]
        intro sa hsa
        rw [hnone sa hsa]
        decide
      rw [hfilter]
      rfl
    · rw [findserver_eq env client g destport hport hle hload]
      split <;> rfl

/-- The amended C18 at concrete inputs: `@192.0.2.1` after `-6` is fatal,
and an IPv6-only resolver configuration after `-4` leaves 127.0.0.1. -/
theorem server_selection_by_family_witness :
    addserver v4LiteralEnv "192.0.2.1".toList ⟨[], []⟩ { Globals.init with use_ipv4 := false }
        = Except.error { code := 1, message := "Use of IPv4 disabled by -6" }
      ∧ findserver_nameservers v6ResolverEnv.irs_resconf_load.2 true false 5
        = [({ family := AF_INET, addr := [127, 0, 0, 1], port := 5 } : Sockaddr)] :=
  ⟨(server_selection_by_family v4LiteralEnv ⟨[], []⟩ { Globals.init with use_ipv4 := false }
      5 rfl (by decide)).1 "192.0.2.1".toList [192, 0, 2, 1] (by decide) rfl,
    ((server_selection_by_family v6ResolverEnv ⟨[], []⟩ { Globals.init with use_ipv6 := false }
      5 rfl (by decide)).2.2 (Or.inl rfl) (by decide)).1⟩

/-- C19. With at least one family enabled, the list that `findserver` hands
to `dns_client_setservers` holds only addresses of an enabled family, each
with the destination port; the configured servers of an enabled family are
all in it, in their order (they are the whole list whenever there is one);
and the list is not empty. -/
theorem findserver_nameservers_filtered (env : Env) (client : Client) (g : Globals)
    (destport : Nat)
    (hport : env.isc_parse_uint32 g.port = Except.ok destport) (hle : destport ≤ 0xffff)
    (hload : env.irs_resconf_load.1 = Result.success
      ∨ env.irs_resconf_load.1 = Result.filenotfound)
    (hfamily : g.use_ipv4 = true ∨ g.use_ipv6 = true) :
    (findserver env client g).map (fun r => r.1)
        = Except.ok (env.dns_client_setservers
            (findserver_nameservers env.irs_resconf_load.2 g.use_ipv4 g.use_ipv6 destport)) ∧
      (∀ sa ∈ findserver_nameservers env.irs_resconf_load.2 g.use_ipv4 g.use_ipv6 destport,
        familyEnabled g.use_ipv4 g.use_ipv6 sa = true ∧ sa.port = destport) ∧
      List.Sublist
        ((env.irs_resconf_load.2.filter (familyEnabled g.use_ipv4 g.use_ipv6)).map
          (fun sa => { sa with port := destport }))
        (findserver_nameservers env.irs_resconf_load.2 g.use_ipv4 g.use_ipv6 destport) ∧
      (env.irs_resconf_load.2.filter (familyEnabled g.use_ipv4 g.use_ipv6) ≠ [] →
        findserver_nameservers env.irs_resconf_load.2 g.use_ipv4 g.use_ipv6 destport
          = (env.irs_resconf_load.2.filter (familyEnabled g.use_ipv4 g.use_ipv6)).map
              (fun sa => { sa with port := destport })) ∧
      findserver_nameservers env.irs_resconf_load.2 g.use_ipv4 g.use_ipv6 destport ≠ [] := by
  have hlink : (findserver env client g).map (fun r => r.1)
      = Except.ok (env.dns_client_setservers
          (findserver_nameservers env.irs_resconf_load.2 g.use_ipv4 g.use_ipv6 destport)) := by
    rw [findserver_eq env client g destport hport hle hload]
    split <;> rfl
  refine ⟨hlink, ?_⟩
  generalize env.irs_resconf_load.2 = configured
  rw [findserver_nameservers_eq]
  by_cases hk : configured.filter (familyEnabled g.use_ipv4 g.use_ipv6) = []
  · simp only [hk, List.map_nil, List.isEmpty_nil, if_true]
    refine ⟨?_, List.nil_sublist _, fun h => absurd rfl h, ?_⟩
    · intro sa hsa
      cases h4 : g.use_ipv4 <;> cases h6 : g.use_ipv6 <;>
        simp only [h4, h6, Bool.false_eq_true, if_false, if_true, List.nil_append,
          List.append_nil, List.not_mem_nil, List.mem_singleton, List.mem_append,
          List.mem_cons, or_false] at hsa
      · rcases hsa with rfl
        exact ⟨rfl, rfl⟩
      · rcases hsa with rfl
        exact ⟨rfl, rfl⟩
      · rcases hsa with rfl | rfl
        · exact ⟨rfl, rfl⟩
        · exact ⟨rfl, rfl⟩
    · rcases hfamily with h | h <;> simp [h]
  · have hne : ((configured.filter (familyEnabled g.use_ipv4 g.use_ipv6)).map
        (fun sa => ({ sa with port := destport } : Sockaddr))).isEmpty = false := by
      cases hf : configured.filter (familyEnabled g.use_ipv4 g.use_ipv6) with
      | nil => exact absurd hf hk
      | cons a l => rfl
    simp only [hne, Bool.false_eq_true, if_false]
    refine ⟨?_, List.Sublist.refl _, fun _ => trivial, ?_⟩
    · intro sa hsa
      obtain ⟨sa0, hsa0, rfl⟩ := List.mem_map.1 hsa
      have hen := (List.mem_filter.1 hsa0).2
      exact ⟨hen, rfl⟩
    · intro hnil
      rw [hnil] at hne
      exact absurd hne (by decide)

/-- C19 on a resolver configuration with an IPv6 server between two IPv4
servers, after `-4`: the two IPv4 servers are handed on, in their order,
with the destination port. -/
theorem findserver_nameservers_filtered_witness :
    findserver_nameservers mixedResolverEnv.irs_resconf_load.2 true false 5
        = [{ family := AF_INET, addr := [192, 0, 2, 1], port := 5 },
           { family := AF_INET, addr := [192, 0, 2, 2], port := 5 }]
      ∧ findserver_nameservers mixedResolverEnv.irs_resconf_load.2 true false 5 ≠ [] :=
  ⟨((findserver_nameservers_filtered mixedResolverEnv ⟨[], []⟩
      { Globals.init with use_ipv6 := false } 5 rfl (by decide) (Or.inl rfl)
      (Or.inl rfl)).2.2.2.1 (by decide)).trans (by decide),
    (findserver_nameservers_filtered mixedResolverEnv ⟨[], []⟩
      { Globals.init with use_ipv6 := false } 5 rfl (by decide) (Or.inl rfl)
      (Or.inl rfl)).2.2.2.2⟩

/-! ## Properties of the IPv6 reverse lookup -/

theorem getD_of_forall {P : Char → Prop} (l : List Char) (n : Nat) (d : Char)
    (hl : ∀ c ∈ l, P c) (hd : P d) : P (l.getD n d) := by
  induction l generalizing n with
  | nil => simpa using hd
  | cons a l ih =>
    cases n with
    | zero => simpa using hl a (List.mem_cons_self _ _)
    | succ n =>
      simpa using ih n (fun c hc => hl c (List.mem_cons_of_mem _ hc))

theorem hexdigit_ne_NUL (n : Nat) : hexdigit n ≠ NUL :=
  getD_of_forall (P := fun c => c ≠ NUL) _ n '0' (by decide) (by decide)

theorem ip6_arpa_name_no_NUL (octets : List Nat) : ∀ c ∈ ip6_arpa_name octets, c ≠ NUL := by
  intro c hc
  unfold ip6_arpa_name at hc
  rcases List.mem_append.1 hc with h | h
  · obtain ⟨l, hl, hcl⟩ := List.mem_flatten.1 h
    obtain ⟨n, _, rfl⟩ := List.mem_map.1 hl
    rcases List.mem_cons.1 hcl with h1 | h1
    · rw [h1]
      exact hexdigit_ne_NUL n
    · have h2 : c = '.' := by simpa using h1
      rw [h2]
      decide
  · have hlit : ∀ d ∈ "ip6.arpa.".toList, d ≠ NUL := by decide
    exact hlit c h

theorem length_flatten_pairs {α β : Type} (f : α → List β) (l : List α)
    (hf : ∀ a, (f a).length = 2) : ((l.map f).flatten).length = 2 * l.length := by
  induction l with
  | nil => rfl
  | cons a l ih =>
    simp only [List.map_cons, List.flatten_cons, List.length_append, List.length_cons, hf a, ih]
    omega

theorem nibbles_length (octets : List Nat) : (nibbles octets).length = 2 * octets.length :=
  length_flatten_pairs _ octets (fun _ => rfl)

theorem ip6_arpa_name_length (octets : List Nat) :
    (ip6_arpa_name octets).length = 4 * octets.length + 9 := by
  unfold ip6_arpa_name
  rw [List.length_append,
    length_flatten_pairs (fun n => [hexdigit n, '.']) _ (fun _ => rfl), List.length_reverse,
    nibbles_length]
  have : "ip6.arpa.".toList.length = 9 := by decide
  omega

theorem cstring_cbytes (text : CStr) (h : ∀ c ∈ text, c ≠ NUL) : cstring (cbytes text) = text := by
  unfold cstring cbytes
  rw [List.takeWhile_append_of_pos]
  · simp
  · intro c hc
    simpa using h c hc

theorem get_reverse_ipv6 (env : Env) (len : Nat) (value : CStr) (strict : Bool)
    (addr : List Nat) (text : CStr) (h6 : env.inet_pton6 value = some addr)
    (hptr : env.createptrname addr = Except.ok text) (hlen : text.length + 1 ≤ len) :
    get_reverse env len value strict = (Result.success, cbytes text) := by
  unfold get_reverse
  simp only [h6, hptr]
  rw [List.take_of_length_le]
  simpa [cbytes] using hlen

/-- C20. For every value that `inet_pton(AF_INET6)` accepts as a 16-octet
address, with the pointer name of the DNS library as modelled from the
spec, `-x` (value attached or in the next argument) makes the query name
the nibbles of the address in reverse order, each followed by a dot, then
`ip6.arpa.`, and the query type PTR; there are 32 nibbles, and for the
octets of `2001:db8::1` the name is
`1.0.0.0.0.0.0.0.0.0.0.0.0.0.0.0.0.0.0.0.0.0.0.0.8.b.d.0.1.0.0.2.ip6.arpa.`. -/
theorem dash_x_ipv6_ptr_name (env : Env) (value : CStr) (addr : List Nat)
    (next : Option CStr) (otc : Bool) (g : Globals)
    (hvalue : value ≠ [])
    (h6 : env.inet_pton6 value = some addr) (hlen : addr.length = 16)
    (hptr : env.createptrname addr = Except.ok (ip6_arpa_name addr))
    (hmax : 73 ≤ env.DNS_NAME_MAXTEXT) :
    (∃ g1, dash_option env ('x' :: value) next otc g = Except.ok (false, otc, g1)
        ∧ g1.curqname = some (ip6_arpa_name addr)
        ∧ g1.qtype = dns_rdatatype_ptr ∧ g1.typeset = true) ∧
      (∃ g1, dash_option env ['x'] (some value) otc g = Except.ok (true, otc, g1)
        ∧ g1.curqname = some (ip6_arpa_name addr)
        ∧ g1.qtype = dns_rdatatype_ptr ∧ g1.typeset = true) ∧
      ip6_arpa_name addr
        = ((nibbles addr).reverse.map (fun n => [hexdigit n, '.'])).flatten
            ++ "ip6.arpa.".toList ∧
      (nibbles addr).length = 32 ∧
      ip6_arpa_name addr_2001_db8_1
        = ("1.0.0.0.0.0.0.0.0.0.0.0.0.0.0.0.0.0.0.0.0.0.0.0.8.b.d.0.1.0.0.2."
            ++ "ip6.arpa.").toList := by
  have hrev : get_reverse env (MAXNAME env) value false
      = (Result.success, cbytes (ip6_arpa_name addr)) := by
    apply get_reverse_ipv6 env _ value false addr _ h6 hptr
    rw [ip6_arpa_name_length, hlen]
    unfold MAXNAME
    omega
  have hcs := cstring_cbytes _ (ip6_arpa_name_no_NUL addr)
  have hsingle : single_dash_opts.contains 'x' = false := by decide
  refine ⟨?_, ?_, rfl, ?_, by decide⟩
  · have hl : ('x' :: value).length > 1 := by
      cases value with
      | nil => exact absurd rfl hvalue
      | cons c cs => simp
    simp only [dash_option, hsingle, Bool.false_eq_true, if_false]
    simp only [dash_option_value, hl, if_true, List.getD_cons_zero, List.drop_succ_cons,
      List.drop_zero, hrev, hcs]
    refine ⟨_, rfl, ?_, rfl, rfl⟩
    simp only
    repeat' split
    all_goals rfl
  · simp only [dash_option, hsingle, Bool.false_eq_true, if_false]
    simp only [dash_option_value, List.length_cons, List.length_nil, Nat.zero_add, gt_iff_lt,
      Nat.lt_irrefl, if_false, decide_False, Bool.not_false, List.getD_cons_zero, hrev, hcs]
    refine ⟨_, rfl, ?_, rfl, rfl⟩
    simp only
    repeat' split
    all_goals rfl
  · rw [nibbles_length, hlen]

/-- C20 on `-x 2001:db8::1`. -/
theorem dash_x_ipv6_ptr_name_witness :
    ∃ g1, dash_option ip6Env ['x'] (some "2001:db8::1".toList) true Globals.init
        = Except.ok (true, true, g1)
      ∧ g1.curqname
        = some ("1.0.0.0.0.0.0.0.0.0.0.0.0.0.0.0.0.0.0.0.0.0.0.0.8.b.d.0.1.0.0.2."
            ++ "ip6.arpa.").toList
      ∧ g1.qtype = dns_rdatatype_ptr :=
  match (dash_x_ipv6_ptr_name ip6Env "2001:db8::1".toList addr_2001_db8_1 none true
      Globals.init (by decide) (by decide) rfl rfl (by decide)) with
  | ⟨_, ⟨g1, h1, h2, h3, _⟩, _, _, h5⟩ => ⟨g1, h1, h2.trans (congrArg some h5), h3⟩

/-! ## Properties of the short form -/

theorem printdata_short_negative (env : Env) (g : Globals) (len : Nat) (rdatas : List CStr)
    (target : CStr) :
    printdata_short env g true len rdatas target = (Result.nomore, target) := by
  induction rdatas with
  | nil => rfl
  | cons rdata rest ih =>
    unfold printdata_short
    simpa using ih

theorem printdata_short_positive (env : Env) (g : Globals) (len : Nat) (rdatas : List CStr)
    (target : CStr)
    (hok : ∀ rdata ∈ rdatas,
      ∃ text, env.dns_rdata_tofmttext rdata g.styleflags g.splitwidth = Except.ok text) :
    (printdata_short env g false len rdatas target).1 = Result.nospace
      ∨ printdata_short env g false len rdatas target
        = (Result.nomore, target ++ short_lines env g rdatas) := by
  induction rdatas generalizing target with
  | nil =>
    right
    simp [printdata_short, short_lines]
  | cons rdata rest ih =>
    obtain ⟨text, htext⟩ := hok rdata (List.mem_cons_self _ _)
    unfold printdata_short
    simp only [Bool.false_eq_true, if_false, htext]
    split
    · left; rfl
    · split
      · left; rfl
      · rcases ih (target ++ text ++ "\n".toList)
            (fun r hr => hok r (List.mem_cons_of_mem _ hr)) with h | h
        · left; exact h
        · right
          rw [h]
          simp [short_lines, htext]

theorem printdata_renderF_of_attempt (env : Env) (g : Globals) (rdataset : Rdataset)
    (owner : DnsName) (text : CStr)
    (h : ∀ len, (printdata_attempt env g rdataset owner len).1 = Result.nospace
      ∨ printdata_attempt env g rdataset owner len = (Result.nomore, text))
    (fuel len : Nat) :
    printdata_renderF env g rdataset owner fuel len = none
      ∨ printdata_renderF env g rdataset owner fuel len = some (Result.success, text) := by
  induction fuel generalizing len with
  | zero => left; rfl
  | succ fuel ih =>
    unfold printdata_renderF
    rcases h len with h1 | h1
    · cases hp : printdata_attempt env g rdataset owner len with
      | mk r t =>
        rw [hp] at h1
        simp only at h1
        subst h1
        exact ih (len + 1024)
    · rw [h1]
      right
      rfl

theorem printdata_render_of_attempt (env : Env) (g : Globals) (rdataset : Rdataset)
    (owner : DnsName) (text : CStr)
    (h : ∀ len, (printdata_attempt env g rdataset owner len).1 = Result.nospace
      ∨ printdata_attempt env g rdataset owner len = (Result.nomore, text)) :
    printdata_render env g rdataset owner = (Result.success, text) := by
  unfold printdata_render
  split
  · rename_i r hr
    rcases printdata_renderF_of_attempt env g rdataset owner text h _ 2048 with h1 | h1
    · rw [h1] at hr
      exact absurd hr (by simp)
    · rw [h1] at hr
      exact (Option.some.inj hr).symm
  · rename_i hr
    exact absurd hr (printdata_renderF_ne_none env g rdataset owner _ 2048 (by omega))

/-- With trust display off, the banner part of `printdata` writes nothing
and leaves the style and the form as they are. -/
theorem printdata_banner_quiet (rdataset : Rdataset) (g : Globals)
    (htrust : g.showtrust = false) :
    (printdata_banner rdataset g).stdout = g.stdout
      ∧ (printdata_banner rdataset g).short_form = g.short_form
      ∧ (printdata_banner rdataset g).styleflags = g.styleflags
      ∧ (printdata_banner rdataset g).splitwidth = g.splitwidth := by
  unfold printdata_banner print_status
  simp only [htrust, Bool.and_false, Bool.false_and, Bool.false_eq_true, if_false,
    Bool.not_false, Bool.true_or, if_true]
  split <;> exact ⟨rfl, rfl, rfl, rfl⟩

theorem short_lines_congr (env : Env) (g g1 : Globals) (rdatas : List CStr)
    (h1 : g1.styleflags = g.styleflags) (h2 : g1.splitwidth = g.splitwidth) :
    short_lines env g1 rdatas = short_lines env g rdatas := by
  unfold short_lines
  rw [h1, h2]

/-- C13. `+short` sets `short_form` and makes `showcomments`,
`showtrust`, `showdnssec` and `multiline` false, whatever they were.  With
these settings `printdata` writes no trust banner: for an RRSIG rdataset
and for one that is not associated it writes nothing, for an rdataset with
the NEGATIVE attribute the only write is of the empty text, and for a
positive rdataset whose records all have a text the only write is the text
of each record followed by a newline. -/
theorem short_form_output (env : Env) (g : Globals) (rdataset : Rdataset)
    (owner : DnsName) :
    plus_option env "short".toList g
        = Except.ok { g with short_form := true, multiline := false, showcomments := false,
                             showtrust := false, showdnssec := false } ∧
      (g.short_form = true → g.showtrust = false → g.showdnssec = false →
        (rdataset.associated = false → printdata env rdataset owner g = (Result.success, g)) ∧
        (rdataset.rdtype = dns_rdatatype_rrsig →
          printdata env rdataset owner g = (Result.success, g)) ∧
        ((printdata env rdataset owner g).2.stdout = g.stdout
          ∨ (printdata env rdataset owner g).2.stdout
            = g.stdout ++
                [String.mk (printdata_render env (printdata_banner rdataset g)
                  rdataset owner).2]) ∧
        (rdataset.associated = true → rdataset.rdtype ≠ dns_rdatatype_rrsig →
          rdataset.negative = true →
          (printdata env rdataset owner g).2.stdout = g.stdout ++ [""]) ∧
        (rdataset.associated = true → rdataset.rdtype ≠ dns_rdatatype_rrsig →
          rdataset.negative = false →
          (∀ rdata ∈ rdataset.rdatas,
            ∃ text, env.dns_rdata_tofmttext rdata g.styleflags g.splitwidth
              = Except.ok text) →
          (printdata env rdataset owner g).2.stdout
            = g.stdout ++ [String.mk (short_lines env g rdataset.rdatas)])) := by
  refine ⟨by rfl, ?_⟩
  intro hshort htrust hdnssec
  have hq := printdata_banner_quiet rdataset g htrust
  refine ⟨?_, ?_, ?_, ?_, ?_⟩
  · intro hassoc
    simp [printdata, hassoc]
  · intro hrr
    unfold printdata
    split
    · rfl
    · simp [hdnssec, hrr]
  · unfold printdata
    split
    · left; rfl
    · split
      · left; rfl
      · split
        · rename_i target heq
          right
          rw [heq]
          simp only [hq.1]
        · left
          exact hq.1
  · intro hassoc hrr hneg
    have hrender : printdata_render env (printdata_banner rdataset g) rdataset owner
        = (Result.success, []) := by
      apply printdata_render_of_attempt
      intro len
      right
      unfold printdata_attempt
      rw [hq.2.1, hshort, if_pos rfl, hneg]
      exact printdata_short_negative env _ len _ []
    have hcond : (!g.showdnssec && rdataset.rdtype == dns_rdatatype_rrsig) = false := by
      simp [hdnssec, hrr]
    simp only [printdata, hassoc, hcond, hrender, hq.1, Bool.not_true, Bool.false_eq_true,
      if_false]
  · intro hassoc hrr hneg hok
    have hok1 : ∀ rdata ∈ rdataset.rdatas,
        ∃ text, env.dns_rdata_tofmttext rdata (printdata_banner rdataset g).styleflags
          (printdata_banner rdataset g).splitwidth = Except.ok text := by
      rw [hq.2.2.1, hq.2.2.2]
      exact hok
    have hrender : printdata_render env (printdata_banner rdataset g) rdataset owner
        = (Result.success, short_lines env g rdataset.rdatas) := by
      rw [← short_lines_congr env g (printdata_banner rdataset g) _ hq.2.2.1 hq.2.2.2]
      apply printdata_render_of_attempt
      intro len
      unfold printdata_attempt
      rw [hq.2.1, hshort, if_pos rfl, hneg]
      simpa using printdata_short_positive env (printdata_banner rdataset g) len
        rdataset.rdatas [] hok1
    have hcond : (!g.showdnssec && rdataset.rdtype == dns_rdatatype_rrsig) = false := by
      simp [hdnssec, hrr]
    simp only [printdata, hassoc, hcond, hrender, hq.1, Bool.not_true, Bool.false_eq_true,
      if_false]

/-- C13 on `+short` from the initial state and a secure A rdataset with two
records: the output is the two addresses, one a line, and nothing else. -/
theorem short_form_output_witness :
    plus_option bareEnv "short".toList Globals.init = Except.ok shortState
      ∧ (printdata bareEnv twoAddresses ["example".toList, "com".toList, []] shortState).2.stdout
        = ["192.0.2.1\n192.0.2.2\n"] :=
  ⟨(short_form_output bareEnv Globals.init twoAddresses
      ["example".toList, "com".toList, []]).1,
    (((short_form_output bareEnv shortState twoAddresses
      ["example".toList, "com".toList, []]).2 rfl rfl rfl).2.2.2.2 rfl (by decide) rfl
      (fun rdata _ => ⟨rdata, rfl⟩)).trans (by decide)⟩

/-! ## Properties of the query class, the plus-option keywords and extra names -/

/-- C21 does not hold for `-c`: with the command line `-c CH example.com`,
where `CH` is a known class other than IN, `parse_args` writes no warning
and records that a class was given (`classset`), whereas the bare token `CH`
gets the warning about a non-IN query class and leaves `classset` alone.  In
both cases the token is not taken as the query name. -/
theorem dash_c_class_not_warned :
    parse_args classEnv ["-c".toList, "CH".toList, "example.com".toList] Globals.init
        = Except.ok
            { Globals.init with
                classset := true, curqname := some "example.com".toList,
                qname := some "example.com".toList, qtype := dns_rdatatype_a }
      ∧ parse_args classEnv ["CH".toList, "example.com".toList] Globals.init
        = Except.ok
            { Globals.init with
                curqname := some "example.com".toList,
                qname := some "example.com".toList, qtype := dns_rdatatype_a,
                stderr := ["warning: ignoring non-IN query class"] } := by
  decide

/-- C22 does not hold for keywords that start with `mt`: that case of
`plus_option` has no `FULLCHECK`, so every option text that starts with `mt`
is taken as `mtrace` (and with `nomt` as `nomtrace`), whatever follows;
`mtx` is not an abbreviation of any listed keyword.  The neighbouring case
does check: `rtx` is an invalid option.  An option text without a keyword is
reported on stdout and `plus_option` returns, without `usage()`. -/
theorem plus_option_mt_unchecked (env : Env) (g : Globals) (tail : CStr) :
    plus_option env ("mt".toList ++ tail) g
        = Except.ok { g with message_trace := true, resolve_trace := true }
      ∧ plus_option env ("nomt".toList ++ tail) g = Except.ok { g with message_trace := false }
      ∧ (∀ k ∈ plus_keywords, ¬ ("mtx".toList <+: k.toList))
      ∧ plus_option env "rtx".toList g = usage "Invalid option: +rtx\n"
      ∧ plus_option env [] g
        = Except.ok { g with stdout := g.stdout ++ [";; Invalid option \n"] } := by
  refine ⟨?_, ?_, by decide, by rfl, by rfl⟩
  · have htok : strtok_r ("mt".toList ++ tail) "=".toList
        = (some ('m' :: 't' :: tail.takeWhile (fun c => !"=".toList.contains c)),
            (tail.dropWhile (fun c => !"=".toList.contains c)).drop 1) := by
      simp [strtok_r, List.dropWhile, List.takeWhile]
    simp only [plus_option, htok]
    simp [strncasecmp_eq, plus_option_switch]
  · have htok : strtok_r ("nomt".toList ++ tail) "=".toList
        = (some ('n' :: 'o' :: 'm' :: 't' :: tail.takeWhile (fun c => !"=".toList.contains c)),
            (tail.dropWhile (fun c => !"=".toList.contains c)).drop 1) := by
      simp [strtok_r, List.dropWhile, List.takeWhile]
    simp only [plus_option, htok]
    simp [strncasecmp_eq, plus_option_switch]

/-- C23. In every state, `plus_option` on `dlv` ends the program with exit
status 1 after the line `Invalid option: +dlv is obsolete`, and on `nodlv`
it returns with the state unchanged. -/
theorem plus_option_dlv_obsolete (env : Env) (g : Globals) :
    plus_option env "dlv".toList g
        = Except.error { code := 1, message := "Invalid option: +dlv is obsolete\n" }
      ∧ plus_option env "nodlv".toList g = Except.ok g :=
  ⟨by rfl, by rfl⟩

/-- C24 does not hold for bare tokens: with the command line
`example.com example.org` the second name is dropped and nothing is written
to stderr, whereas with `example.com -q example.org` the warning
`extra query name` is written (and the later name is the one kept). -/
theorem parse_args_extra_bare_name_silent :
    parse_args bareEnv ["example.com".toList, "example.org".toList] Globals.init
        = Except.ok
            { Globals.init with
                curqname := some "example.com".toList,
                qname := some "example.com".toList, qtype := dns_rdatatype_a }
      ∧ parse_args bareEnv ["example.com".toList, "-q".toList, "example.org".toList]
          Globals.init
        = Except.ok
            { Globals.init with
                curqname := some "example.org".toList,
                qname := some "example.org".toList, qtype := dns_rdatatype_a,
                stderr := ["warning: extra query name"] } := by
  decide

/-! ## Properties of the trust banner across record sets -/

theorem printdata_attempt_congr (env : Env) (g g1 : Globals) (h : SameSettings g g1)
    (rdataset : Rdataset) (owner : DnsName) (len : Nat) :
    printdata_attempt env g1 rdataset owner len = printdata_attempt env g rdataset owner len := by
  obtain ⟨-, -, h3, h4, -, h6, h7, h8, h9, h10⟩ := h
  have hshort : ∀ (rdatas : List CStr) (target : CStr),
      printdata_short env g1 rdataset.negative len rdatas target
        = printdata_short env g rdataset.negative len rdatas target := by
    intro rdatas
    induction rdatas with
    | nil => intro target; rfl
    | cons rdata rest ih =>
      intro target
      unfold printdata_short
      simp only [h6, h7, ih]
  unfold printdata_attempt printdata_long style_columns
  simp only [h3, h4, h6, h7, h8, h9, h10, hshort]

theorem printdata_render_congr (env : Env) (g g1 : Globals) (h : SameSettings g g1)
    (rdataset : Rdataset) (owner : DnsName) :
    printdata_render env g1 rdataset owner = printdata_render env g rdataset owner := by
  have hF : ∀ fuel len, printdata_renderF env g1 rdataset owner fuel len
      = printdata_renderF env g rdataset owner fuel len := by
    intro fuel
    induction fuel with
    | zero => intro len; rfl
    | succ fuel ih =>
      intro len
      unfold printdata_renderF
      simp only [printdata_attempt_congr env g g1 h, ih]
  have hsome : ∀ g2 : Globals, ∃ r, printdata_renderF env g2 rdataset owner
      (printdata_need env g2 rdataset owner + 1) 2048 = some r
        ∧ printdata_render env g2 rdataset owner = r := by
    intro g2
    unfold printdata_render
    split
    · rename_i r hr
      exact ⟨r, hr, rfl⟩
    · rename_i hr
      exact absurd hr (printdata_renderF_ne_none env g2 rdataset owner _ 2048 (by omega))
  have hmono : ∀ (g2 : Globals) (fuel len : Nat) (r : Result × CStr),
      printdata_renderF env g2 rdataset owner fuel len = some r →
      printdata_renderF env g2 rdataset owner (fuel + 1) len = some r := by
    intro g2 fuel
    induction fuel with
    | zero => intro len r hr; simp [printdata_renderF] at hr
    | succ fuel ih =>
      intro len r hr
      unfold printdata_renderF at hr ⊢
      split at hr
      · exact ih _ _ hr
      · exact hr
      · exact hr
  have hmono2 : ∀ (g2 : Globals) (k fuel len : Nat) (r : Result × CStr),
      printdata_renderF env g2 rdataset owner fuel len = some r →
      printdata_renderF env g2 rdataset owner (fuel + k) len = some r := by
    intro g2 k
    induction k with
    | zero => intro fuel len r hr; exact hr
    | succ k ih =>
      intro fuel len r hr
      exact hmono g2 (fuel + k) len r (ih fuel len r hr)
  obtain ⟨r1, hr1, he1⟩ := hsome g1
  obtain ⟨r, hr, he⟩ := hsome g
  rw [he1, he]
  rw [hF] at hr1
  have a1 := hmono2 g (printdata_need env g rdataset owner + 1) _ _ _ hr1
  have a2 := hmono2 g (printdata_need env g1 rdataset owner + 1) _ _ _ hr
  rw [Nat.add_comm] at a2
  rw [a1] at a2
  exact Option.some.inj a2

theorem printdata_banner_eq (rdataset : Rdataset) (g : Globals) :
    printdata_banner rdataset g
      = { g with
            stdout := g.stdout ++ expected_banner g (remembered g) rdataset,
            printdata_trust := rdataset.trust, printdata_first := false } := by
  obtain ⟨assoc, neg, trust, rdtype, rdatas⟩ := rdataset
  cases g
  rename_i pfirst ptrust err out parsed
  unfold printdata_banner expected_banner remembered print_status_lines
  simp only [print_status_eq, print_status_text]
  cases pfirst
  · by_cases ht : trust = ptrust
    · subst ht
      simp
    · have ht2 : ¬ ptrust = trust := fun h => ht h.symm
      simp only [Bool.false_or, bne_iff_ne, ne_eq, ht, not_false_eq_true, if_true,
        Bool.not_false, Bool.true_and, Bool.false_eq_true, if_false, Option.some.injEq, ht2,
        Option.isSome_some]
      split_ifs <;> simp_all
  · simp only [Bool.true_or, if_true, Bool.not_true, Bool.false_and, Bool.false_eq_true,
      if_false, reduceCtorEq, Option.isSome_none, List.nil_append]
    split_ifs <;> simp_all

theorem sameSettings_refl (g : Globals) : SameSettings g g :=
  ⟨rfl, rfl, rfl, rfl, rfl, rfl, rfl, rfl, rfl, rfl⟩

theorem printdata_body_congr (env : Env) (g g1 : Globals) (h : SameSettings g g1)
    (rdataset : Rdataset) (owner : DnsName) :
    printdata_body env g1 rdataset owner = printdata_body env g rdataset owner := by
  unfold printdata_body
  rw [printdata_render_congr env g g1 h]

theorem expected_banner_congr (g g1 : Globals) (h : SameSettings g g1)
    (last : Option Trust) (rdataset : Rdataset) :
    expected_banner g1 last rdataset = expected_banner g last rdataset := by
  obtain ⟨-, h2, h3, h4, h5, -⟩ := h
  unfold expected_banner print_status_lines
  rw [h2, h3, h4, h5]

theorem printdata_skips_congr (g g1 : Globals) (h : SameSettings g g1) (rdataset : Rdataset) :
    printdata_skips g1 rdataset = printdata_skips g rdataset := by
  unfold printdata_skips
  rw [h.1]

theorem expected_output_congr (env : Env) (g g1 : Globals) (h : SameSettings g g1)
    (seq : List (Rdataset × DnsName)) (last : Option Trust) :
    expected_output env g1 last seq = expected_output env g last seq := by
  induction seq generalizing last with
  | nil => rfl
  | cons p rest ih =>
    obtain ⟨rdataset, owner⟩ := p
    unfold expected_output
    rw [printdata_skips_congr g g1 h, expected_banner_congr g g1 h,
      printdata_body_congr env g g1 h, ih, ih]

theorem expected_last_congr (g g1 : Globals) (h : SameSettings g g1)
    (seq : List (Rdataset × DnsName)) (last : Option Trust) :
    expected_last g1 last seq = expected_last g last seq := by
  induction seq generalizing last with
  | nil => rfl
  | cons p rest ih =>
    obtain ⟨rdataset, owner⟩ := p
    unfold expected_last
    rw [printdata_skips_congr g g1 h, ih, ih]

/-- What a call of `printdata` does: nothing for an rdataset that is
skipped; else it writes the banner, if one is due, then the records, and
remembers the trust level. -/
theorem printdata_eq (env : Env) (rdataset : Rdataset) (owner : DnsName) (g : Globals) :
    printdata env rdataset owner g
      = (Result.success,
          if printdata_skips g rdataset then g
          else
            { g with
                stdout := g.stdout ++ expected_banner g (remembered g) rdataset
                  ++ printdata_body env g rdataset owner,
                printdata_trust := rdataset.trust, printdata_first := false }) := by
  unfold printdata printdata_skips
  by_cases hassoc : rdataset.associated = true
  · by_cases hsig : (!g.showdnssec && rdataset.rdtype == dns_rdatatype_rrsig) = true
    · simp [hassoc, hsig]
    · have hs : SameSettings g (printdata_banner rdataset g) := by
        rw [printdata_banner_eq]
        exact ⟨rfl, rfl, rfl, rfl, rfl, rfl, rfl, rfl, rfl, rfl⟩
      simp only [hassoc, hsig, Bool.not_true, Bool.false_or, Bool.false_eq_true, if_false,
        printdata_render_congr env g _ hs]
      rw [printdata_banner_eq]
      unfold printdata_body
      cases hr : printdata_render env g rdataset owner with
      | mk r target => cases r <;> simp
  · simp [hassoc]

theorem printdata_each_eq (env : Env) (seq : List (Rdataset × DnsName)) (g : Globals) :
    SameSettings g (printdata_each env seq g)
      ∧ (printdata_each env seq g).stdout
        = g.stdout ++ expected_output env g (remembered g) seq
      ∧ remembered (printdata_each env seq g) = expected_last g (remembered g) seq := by
  induction seq generalizing g with
  | nil => exact ⟨sameSettings_refl g, by simp [printdata_each, expected_output], rfl⟩
  | cons p rest ih =>
    obtain ⟨rdataset, owner⟩ := p
    unfold printdata_each expected_output expected_last
    rw [printdata_eq]
    by_cases hskip : printdata_skips g rdataset = true
    · simp only [hskip, if_true]
      exact ih g
    · simp only [hskip, Bool.false_eq_true, if_false]
      have hs : SameSettings g
          { g with
              stdout := g.stdout ++ expected_banner g (remembered g) rdataset
                ++ printdata_body env g rdataset owner,
              printdata_trust := rdataset.trust, printdata_first := false } :=
        ⟨rfl, rfl, rfl, rfl, rfl, rfl, rfl, rfl, rfl, rfl⟩
      obtain ⟨h1, h2, h3⟩ := ih
        { g with
            stdout := g.stdout ++ expected_banner g (remembered g) rdataset
              ++ printdata_body env g rdataset owner,
            printdata_trust := rdataset.trust, printdata_first := false }
      refine ⟨?_, ?_, ?_⟩
      · obtain ⟨a1, a2, a3, a4, a5, a6, a7, a8, a9, a10⟩ := h1
        exact ⟨a1, a2, a3, a4, a5, a6, a7, a8, a9, a10⟩
      · rw [h2, expected_output_congr env g _ hs]
        simp [remembered]
      · rw [h3, expected_last_congr g _ hs]
        simp [remembered]

/-- C27. Across any sequence of calls of `printdata`, from any state, the
output is the one the specification expects when it keeps track of the
trust level of the record set printed last: a record set that is skipped
(not associated, or an RRSIG hidden by `+nodnssec`) gives nothing and the
call leaves the state as it was; every other record set gets the banner of
`print_status` exactly when none was printed before it or its trust level
differs from the one printed last, whatever its NEGATIVE attribute; and the
statics of `printdata` remember the trust level of the record set printed
last. -/
theorem printdata_banner_on_trust_change (env : Env) (g : Globals)
    (seq : List (Rdataset × DnsName)) :
    (printdata_each env seq g).stdout = g.stdout ++ expected_output env g (remembered g) seq
      ∧ remembered (printdata_each env seq g) = expected_last g (remembered g) seq
      ∧ (∀ (last : Option Trust) (rdataset : Rdataset),
          g.showtrust = true → rdataset.associated = true →
          (expected_banner g last rdataset ≠ [] ↔ last ≠ some rdataset.trust))
      ∧ (∀ (rdataset : Rdataset) (negative : Bool),
          expected_banner g (some rdataset.trust) { rdataset with negative := negative } = [])
      ∧ (∀ (rdataset : Rdataset) (owner : DnsName), printdata_skips g rdataset = true →
          printdata env rdataset owner g = (Result.success, g)) := by
  obtain ⟨-, h2, h3⟩ := printdata_each_eq env seq g
  refine ⟨h2, h3, ?_, ?_, ?_⟩
  · intro last rdataset htrust hassoc
    unfold expected_banner print_status_lines
    by_cases hl : last = some rdataset.trust
    · simp [hl]
    · simp only [hl, if_false, htrust, hassoc, Bool.not_true, Bool.or_self, Bool.false_eq_true,
        ne_eq, not_false_eq_true, iff_true]
      split_ifs <;> simp
  · intro rdataset negative
    simp [expected_banner]
  · intro rdataset owner hskip
    rw [printdata_eq, hskip]
    rfl

/-- C27 on four rdatasets from the initial state: a banner before the
first one, none before the secure denial, nothing for the rdataset that is
not associated, and a blank line and a new banner before the unsigned
answer. -/
theorem printdata_banner_on_trust_change_witness :
    (printdata_each bareEnv fourRdatasets Globals.init).stdout
        = ["; fully validated\n", "192.0.2.1\n192.0.2.2\n", "; example.com. NSEC\n", "\n",
           "; unsigned answer\n", "10 mail\n"]
      ∧ remembered (printdata_each bareEnv fourRdatasets Globals.init) = some Trust.answer
      ∧ expected_banner Globals.init none twoAddresses ≠ [] :=
  ⟨(printdata_banner_on_trust_change bareEnv Globals.init fourRdatasets).1.trans (by decide),
    (printdata_banner_on_trust_change bareEnv Globals.init fourRdatasets).2.1.trans (by decide),
    ((printdata_banner_on_trust_change bareEnv Globals.init fourRdatasets).2.2.1 none
      twoAddresses rfl rfl).2 (by decide)⟩

/-! ## Properties of the room that `get_reverse` needs -/

theorem reverse_octetsF_room (fuel : Nat) (inp : CStr) (b : OutBuf)
    (hf : inp.length < fuel) (hb : b.data.length ≤ b.cap) :
    ∃ r b1, reverse_octetsF fuel inp b = some (r, b1) ∧ b1.cap = b.cap
      ∧ b1.data.length ≤ b.cap
      ∧ ((r = Result.success ∧ b1.data.length = b.data.length + inp.length)
        ∨ (r = Result.nospace ∧ b.cap < b.data.length + inp.length)) := by
  induction fuel generalizing inp b with
  | zero => omega
  | succ fuel ih =>
    unfold reverse_octetsF
    cases hs : strchr inp '.' with
    | none =>
      simp only [append_str, cbytes]
      by_cases hfit : inp.length > b.cap - b.data.length
      · rw [if_pos hfit]
        exact ⟨_, _, rfl, rfl, hb, Or.inr ⟨rfl, by omega⟩⟩
      · rw [if_neg hfit]
        refine ⟨_, _, rfl, rfl, ?_, Or.inl ⟨rfl, ?_⟩⟩
        · simp only [List.length_append, List.length_take, List.length_cons, List.length_nil]
          omega
        · simp only [List.length_append, List.length_take, List.length_cons, List.length_nil]
          omega
    | some i =>
      have hi := strchr_lt_length hs
      obtain ⟨r, b1, hrec, hcap, hlen, hres⟩ :=
        ih (inp.drop (i + 1)) b (by simp only [List.length_drop]; omega) hb
      simp only [hrec]
      have hdrop : (inp.drop (i + 1)).length = inp.length - (i + 1) := List.length_drop _ _
      have hdot : ".".toList = ['.'] := rfl
      rcases hres with ⟨rfl, hl⟩ | ⟨rfl, hl⟩
      · simp only [append_str, cbytes, hdot]
        by_cases hfit1 : 1 > b1.cap - b1.data.length
        · rw [if_pos hfit1]
          exact ⟨_, _, rfl, hcap, hlen, Or.inr ⟨rfl, by omega⟩⟩
        · rw [if_neg hfit1]
          simp only [List.length_append, List.length_take, List.length_cons,
            List.length_nil]
          split_ifs with hfit2
          · refine ⟨_, _, rfl, hcap, ?_, Or.inr ⟨rfl, by omega⟩⟩
            simp only [List.length_append, List.length_take, List.length_cons,
              List.length_nil]
            omega
          · refine ⟨_, _, rfl, hcap, ?_, Or.inl ⟨rfl, ?_⟩⟩
            · simp only [List.length_append, List.length_take, List.length_cons,
                List.length_nil]
              omega
            · simp only [List.length_append, List.length_take, List.length_cons,
                List.length_nil]
              omega
      · exact ⟨_, _, rfl, hcap, hlen, Or.inr ⟨rfl, by omega⟩⟩

theorem reverse_octets_room (inp : CStr) (b : OutBuf) (hb : b.data.length ≤ b.cap) :
    ∃ r b1, reverse_octets inp b = (r, b1) ∧ b1.cap = b.cap ∧ b1.data.length ≤ b.cap
      ∧ ((r = Result.success ∧ b1.data.length = b.data.length + inp.length)
        ∨ (r = Result.nospace ∧ b.cap < b.data.length + inp.length)) := by
  obtain ⟨r, b1, h, hrest⟩ := reverse_octetsF_room (inp.length + 1) inp b (Nat.lt_succ_self _) hb
  exact ⟨r, b1, reverse_octets_of_fuel h, hrest⟩

/-- C28. For every value that is not a valid IPv6 address and every buffer
length `len`, non-strict `get_reverse` returns success if and only if
`strlen(value) + 15 <= len`, and `ISC_R_NOSPACE` otherwise; the bytes it
writes, from the start of the buffer on, are never more than `len`, so no
byte is written at or beyond position `len`. -/
theorem get_reverse_nonstrict_space (env : Env) (value : CStr) (len : Nat)
    (h6 : env.inet_pton6 value = none) :
    ((get_reverse env len value false).1 = Result.success ↔ value.length + 15 ≤ len)
      ∧ (¬ value.length + 15 ≤ len → (get_reverse env len value false).1 = Result.nospace)
      ∧ (get_reverse env len value false).2.length ≤ len := by
  obtain ⟨r, b1, hro, hcap, hlen, hres⟩ := reverse_octets_room value ⟨len, []⟩ (Nat.zero_le _)
  simp only [List.length_nil, Nat.zero_add] at hcap hlen hres
  simp only [get_reverse, h6, hro, Bool.false_and, Bool.false_eq_true, if_false]
  rcases hres with ⟨rfl, hl⟩ | ⟨rfl, hl⟩
  · simp only [append_str, cbytes, hcap, hl]
    by_cases hfit : 15 > len - value.length
    · rw [if_pos hfit]
      refine ⟨?_, ?_, ?_⟩
      · simp only [reduceCtorEq, false_iff]
        omega
      · intro _
        rfl
      · simp only [hl]
        omega
    · rw [if_neg hfit]
      refine ⟨?_, ?_, ?_⟩
      · simp only [true_iff]
        omega
      · intro h
        omega
      · simp only [List.length_append, List.length_take, hl]
        omega
  · refine ⟨?_, ?_, ?_⟩
    · simp only [reduceCtorEq, false_iff]
      omega
    · intro _
      rfl
    · exact hlen

/-- C28 on the value `1.2.3.4`, of 7 characters: a buffer of 22 bytes is
enough, and with one of 21 bytes the result is `ISC_R_NOSPACE`. -/
theorem get_reverse_nonstrict_space_witness :
    (get_reverse bareEnv 22 "1.2.3.4".toList false).1 = Result.success
      ∧ (get_reverse bareEnv 21 "1.2.3.4".toList false).1 = Result.nospace
      ∧ (get_reverse bareEnv 21 "1.2.3.4".toList false).2.length ≤ 21 :=
  ⟨(get_reverse_nonstrict_space bareEnv "1.2.3.4".toList 22 rfl).1.2 (by decide),
    (get_reverse_nonstrict_space bareEnv "1.2.3.4".toList 21 rfl).2.1 (by decide),
    (get_reverse_nonstrict_space bareEnv "1.2.3.4".toList 21 rfl).2.2⟩

end Delv

/-!
# Properties of the lookups of `dighost.c`
-/

namespace Dighost

open Delv (CStr Result Exit)

/-! ## Properties of the timeouts -/

theorem debug_def (msg : String) (g : Globals) :
    debug msg g = { g with stderr := debug_err msg g } := by
  unfold debug debug_err
  split <;> rfl

theorem send_udp_loop_ok (env : Env) (hnow : env.isc_time_now = Result.success)
    (hsend : env.isc_socket_sendtov = Result.success) (qs : List dig_query) (g : Globals)
    (hsock : ∀ q ∈ qs, q.sock = true) :
    ∃ err, send_udp_loop env false qs g
      = Except.ok
          { g with
              stderr := err,
              calls := g.calls ++ qs.map (fun q => Call.isc_socket_sendtov q.servname),
              sendcount := g.sendcount + qs.length } := by
  induction qs generalizing g with
  | nil => exact ⟨g.stderr, by simp [send_udp_loop]⟩
  | cons q rest ih =>
    have hq := hsock q (List.mem_cons_self _ _)
    unfold send_udp_loop
    simp only [debug_def, check_result, hnow, hsend, hq, bne_self_eq_false, Bool.false_eq_true,
      if_false, Bool.not_true]
    obtain ⟨err, h⟩ := ih
      { g with
          stderr := debug_err "sending a request"
            { g with stderr := debug_err "working on lookup %p, query %p" g },
          calls := g.calls ++ [Call.isc_socket_sendtov q.servname],
          sendcount := g.sendcount + 1 }
      (fun q1 h1 => hsock q1 (List.mem_cons_of_mem _ h1))
    refine ⟨err, ?_⟩
    rw [h]
    simp only [List.map_cons, List.length_cons, List.append_assoc, List.singleton_append,
      Nat.cast_add, Nat.cast_one]
    congr 2
    omega

theorem send_udp_ok (env : Env) (hreset : env.isc_timer_reset = Result.success)
    (hnow : env.isc_time_now = Result.success)
    (hsend : env.isc_socket_sendtov = Result.success) (lookup : dig_lookup) (g : Globals)
    (htimer : lookup.timer = true) (hsock : ∀ q ∈ lookup.q, q.sock = true) :
    ∃ err, send_udp env lookup false g
      = Except.ok
          (lookup,
            { g with
                stderr := err,
                calls := g.calls ++ resend_calls lookup,
                sendcount := g.sendcount + lookup.q.length }) := by
  unfold send_udp
  simp only [debug_def, check_result, hreset, htimer, bne_self_eq_false, Bool.false_eq_true,
    if_false, Bool.not_true]
  obtain ⟨err, h⟩ := send_udp_loop_ok env hnow hsend lookup.q
    { g with
        stderr := debug_err "send_udp()" g,
        calls := g.calls ++ [Call.isc_timer_reset] } hsock
  refine ⟨err, ?_⟩
  rw [h]
  simp [resend_calls]

theorem check_if_done_busy (env : Env) (g : Globals)
    (hbusy : (g.lookup_list.isEmpty && g.current_lookup.isNone) = false) :
    ∃ err, check_if_done env g = Except.ok { g with stderr := err } := by
  unfold check_if_done
  simp only [debug_def, hbusy, Bool.false_and, Bool.false_eq_true, if_false]
  exact ⟨_, rfl⟩

theorem cancel_lookup_loop_busy (env : Env) (qs : List dig_query) (g : Globals)
    (hbusy : (g.lookup_list.isEmpty && g.current_lookup.isNone) = false) :
    ∃ err, cancel_lookup_loop env qs g
      = Except.ok
          { g with
              stderr := err,
              calls := g.calls
                ++ (qs.filter (fun q => q.sock)).map (fun q => Call.isc_socket_cancel q.servname) }
      := by
  induction qs generalizing g with
  | nil => exact ⟨g.stderr, by simp [cancel_lookup_loop]⟩
  | cons q rest ih =>
    unfold cancel_lookup_loop
    cases hq : q.sock
    · simp only [Bool.false_eq_true, if_false]
      obtain ⟨err, h⟩ := ih g hbusy
      refine ⟨err, ?_⟩
      rw [h]
      simp [hq]
    · simp only [if_true]
      obtain ⟨err1, h1⟩ := check_if_done_busy env
        { g with calls := g.calls ++ [Call.isc_socket_cancel q.servname] } hbusy
      rw [h1]
      obtain ⟨err, h⟩ := ih
        { g with stderr := err1, calls := g.calls ++ [Call.isc_socket_cancel q.servname] } hbusy
      refine ⟨err, ?_⟩
      simp only
      rw [h]
      simp [hq]

theorem cancel_lookup_busy (env : Env) (lookup : dig_lookup) (g : Globals)
    (hbusy : (g.lookup_list.isEmpty && g.current_lookup.isNone) = false) :
    ∃ err, cancel_lookup env lookup g
      = Except.ok
          ({ lookup with pending := false, retries := 0 },
            { g with
                stderr := err,
                calls := g.calls
                  ++ (lookup.q.filter (fun q => q.sock)).map
                    (fun q => Call.isc_socket_cancel q.servname) }) := by
  unfold cancel_lookup
  simp only [debug_def]
  obtain ⟨err, h⟩ := cancel_lookup_loop_busy env lookup.q
    { g with stderr := debug_err "cancel_lookup()" g } hbusy
  exact ⟨err, by rw [h]⟩

theorem LOCK_LOOKUP_ok (env : Env) (g : Globals) (hlock : env.isc_mutex_lock = Result.success) :
    LOCK_LOOKUP env g
      = Except.ok
          { g with
              stderr := debug_err "success" { g with stderr := debug_err "lock_lookup %s:%d" g } }
      := by
  unfold LOCK_LOOKUP
  simp only [debug_def, check_result, hlock, bne_self_eq_false, Bool.false_eq_true, if_false]

theorem UNLOCK_LOOKUP_ok (env : Env) (g : Globals)
    (hunlock : env.isc_mutex_unlock = Result.success) :
    UNLOCK_LOOKUP env g = Except.ok { g with stderr := debug_err "unlock_lookup %s:%d" g } := by
  unfold UNLOCK_LOOKUP
  simp only [debug_def, check_result, hunlock, bne_self_eq_false, Bool.false_eq_true, if_false]

theorem connect_timeout_resend (env : Env) (lookup : dig_lookup) (g : Globals)
    (h : TimeoutRuns env lookup g) (hretries : 1 < lookup.retries) :
    ∃ err, connect_timeout env lookup g
      = Except.ok
          ({ lookup with retries := lookup.retries - 1 },
            { g with
                stderr := err,
                calls := g.calls ++ resend_calls lookup,
                sendcount := g.sendcount + lookup.q.length }) := by
  unfold connect_timeout
  rw [LOCK_LOOKUP_ok env _ h.lock]
  simp only [debug_def]
  rw [if_neg (by simp [h.free]), if_pos hretries, if_pos (by simp [h.udp])]
  obtain ⟨err2, h2⟩ := send_udp_ok env h.reset h.now h.send
    { lookup with retries := lookup.retries - 1 }
    { g with
        stderr := debug_err "resending UDP request"
          { g with
              stderr := debug_err "success"
                { g with
                    stderr := debug_err "lock_lookup %s:%d"
                      { g with stderr := debug_err "connect_timeout()" g } } } }
    h.timer h.sock
  rw [h2]
  simp only
  rw [UNLOCK_LOOKUP_ok env _ h.unlock]
  exact ⟨_, rfl⟩

theorem connect_timeout_cancel (env : Env) (lookup : dig_lookup) (g : Globals)
    (h : TimeoutRuns env lookup g) (hretries : lookup.retries ≤ 1) :
    ∃ err, connect_timeout env lookup g
      = Except.ok
          ({ lookup with pending := false, retries := 0 },
            { g with
                stderr := err,
                stdout := g.stdout
                  ++ [";; connection timed out; no servers could be reached\n"],
                calls := g.calls
                  ++ lookup.q.map (fun q => Call.isc_socket_cancel q.servname) }) := by
  have hfilter : lookup.q.filter (fun q => q.sock) = lookup.q :=
    List.filter_eq_self.2 h.sock
  have hnot : ¬ lookup.retries > 1 := by omega
  unfold connect_timeout
  rw [LOCK_LOOKUP_ok env _ h.lock]
  simp only [debug_def]
  rw [if_neg (by simp [h.free]), if_neg hnot]
  obtain ⟨err2, h2⟩ := cancel_lookup_busy env lookup
    { g with
        stderr := debug_err "success"
          { g with
              stderr := debug_err "lock_lookup %s:%d"
                { g with stderr := debug_err "connect_timeout()" g } },
        stdout := g.stdout ++ [";; connection timed out; no servers could be reached\n"] }
    (by
      have := h.current
      cases hc : g.current_lookup <;> simp_all)
  rw [h2, hfilter]
  simp only
  rw [UNLOCK_LOOKUP_ok env _ h.unlock]
  exact ⟨_, rfl⟩

theorem timeoutRuns_step (env : Env) (lookup lookup1 : dig_lookup) (g g1 : Globals)
    (h : TimeoutRuns env lookup g) (h1 : g1.free_now = g.free_now)
    (h2 : g1.current_lookup = g.current_lookup) (h3 : lookup1.tcp_mode = lookup.tcp_mode)
    (h4 : lookup1.timer = lookup.timer) (h5 : lookup1.q = lookup.q) :
    TimeoutRuns env lookup1 g1 :=
  ⟨h.lock, h.unlock, h.reset, h.now, h.send, h1.trans h.free, by rw [h2]; exact h.current,
    h3.trans h.udp, h4.trans h.timer, by rw [h5]; exact h.sock⟩

theorem timeouts_resend (env : Env) (k : Nat) (lookup : dig_lookup) (g : Globals) (m : Nat)
    (h : TimeoutRuns env lookup g) (hm : 1 ≤ m) (hretries : lookup.retries = ((k + m : Nat) : Int)) :
    ∃ err, timeouts env k lookup g
      = Except.ok
          ({ lookup with retries := (m : Int) },
            { g with
                stderr := err,
                calls := g.calls ++ (List.replicate k (resend_calls lookup)).flatten,
                sendcount := g.sendcount + ((k * lookup.q.length : Nat) : Int) }) := by
  induction k generalizing lookup g with
  | zero =>
    refine ⟨g.stderr, ?_⟩
    simp only [Nat.zero_add] at hretries
    simp only [timeouts, List.replicate_zero, List.flatten_nil, List.append_nil, Nat.zero_mul,
      Nat.cast_zero, Int.add_zero, ← hretries]
  | succ k ih =>
    obtain ⟨err1, h1⟩ := connect_timeout_resend env lookup g h (by rw [hretries]; omega)
    unfold timeouts
    rw [h1]
    simp only
    obtain ⟨err2, h2⟩ := ih { lookup with retries := lookup.retries - 1 }
      { g with
          stderr := err1,
          calls := g.calls ++ resend_calls lookup,
          sendcount := g.sendcount + lookup.q.length }
      (timeoutRuns_step env lookup _ g _ h rfl rfl rfl rfl rfl)
      (by simp only [hretries]; push_cast; omega)
    refine ⟨err2, ?_⟩
    rw [h2]
    have hc : resend_calls { lookup with retries := lookup.retries - 1 } = resend_calls lookup :=
      rfl
    simp only [hc, List.replicate_succ, List.flatten_cons, List.append_assoc]
    congr 3
    push_cast
    ring

theorem timeouts_cancel (env : Env) (k : Nat) (lookup : dig_lookup) (g : Globals)
    (h : TimeoutRuns env lookup g) (hretries : lookup.retries = ((k + 1 : Nat) : Int)) :
    ∃ err, timeouts env (k + 1) lookup g
      = Except.ok
          ({ lookup with pending := false, retries := 0 },
            { g with
                stderr := err,
                stdout := g.stdout
                  ++ [";; connection timed out; no servers could be reached\n"],
                calls := g.calls ++ (List.replicate k (resend_calls lookup)).flatten
                  ++ lookup.q.map (fun q => Call.isc_socket_cancel q.servname),
                sendcount := g.sendcount + ((k * lookup.q.length : Nat) : Int) }) := by
  induction k generalizing lookup g with
  | zero =>
    obtain ⟨err1, h1⟩ := connect_timeout_cancel env lookup g h (by rw [hretries]; simp)
    refine ⟨err1, ?_⟩
    simp only [timeouts, h1, List.replicate_zero, List.flatten_nil, List.append_nil, Nat.zero_mul,
      Nat.cast_zero, Int.add_zero]
  | succ k ih =>
    obtain ⟨err1, h1⟩ := connect_timeout_resend env lookup g h (by rw [hretries]; omega)
    rw [timeouts, h1]
    simp only
    obtain ⟨err2, h2⟩ := ih { lookup with retries := lookup.retries - 1 }
      { g with
          stderr := err1,
          calls := g.calls ++ resend_calls lookup,
          sendcount := g.sendcount + lookup.q.length }
      (timeoutRuns_step env lookup _ g _ h rfl rfl rfl rfl rfl)
      (by simp only [hretries]; push_cast; omega)
    refine ⟨err2, ?_⟩
    rw [h2]
    have hc : resend_calls { lookup with retries := lookup.retries - 1 } = resend_calls lookup :=
      rfl
    simp only [hc, List.replicate_succ, List.flatten_cons, List.append_assoc]
    congr 3
    push_cast
    ring

theorem timeouts_succ (env : Env) (k : Nat) (lookup : dig_lookup) (g : Globals) :
    timeouts env (k + 1) lookup g
      = match timeouts env k lookup g with
        | Except.error e => Except.error e
        | Except.ok (lookup1, g1) => connect_timeout env lookup1 g1 := by
  induction k generalizing lookup g with
  | zero =>
    simp only [timeouts]
    cases connect_timeout env lookup g with
    | error e => rfl
    | ok r => rfl
  | succ k ih =>
    rw [timeouts]
    cases hc : connect_timeout env lookup g with
    | error e => simp [timeouts, hc]
    | ok r =>
      obtain ⟨lookup1, g1⟩ := r
      simp only
      rw [ih]
      conv_rhs => rw [timeouts, hc]

theorem connect_timeout_step (env : Env) (lookup lookup1 : dig_lookup) (g g1 : Globals)
    (h : TimeoutRuns env lookup g) (hpos : 0 ≤ lookup.retries)
    (hstep : connect_timeout env lookup g = Except.ok (lookup1, g1)) :
    TimeoutRuns env lookup1 g1 ∧ 0 ≤ lookup1.retries ∧ lookup1.retries ≤ lookup.retries := by
  by_cases hr : 1 < lookup.retries
  · obtain ⟨err, h1⟩ := connect_timeout_resend env lookup g h hr
    rw [h1] at hstep
    cases hstep
    exact ⟨timeoutRuns_step env lookup _ g _ h rfl rfl rfl rfl rfl, by simp only; omega,
      by simp only; omega⟩
  · obtain ⟨err, h1⟩ := connect_timeout_cancel env lookup g h (by omega)
    rw [h1] at hstep
    cases hstep
    exact ⟨timeoutRuns_step env lookup _ g _ h rfl rfl rfl rfl rfl, by simp only; omega,
      by simp only; omega⟩

theorem timeouts_runs (env : Env) (k : Nat) (lookup lookup1 : dig_lookup) (g g1 : Globals)
    (h : TimeoutRuns env lookup g) (hpos : 0 ≤ lookup.retries)
    (hk : timeouts env k lookup g = Except.ok (lookup1, g1)) :
    TimeoutRuns env lookup1 g1 ∧ 0 ≤ lookup1.retries := by
  induction k generalizing lookup1 g1 with
  | zero =>
    simp only [timeouts, Except.ok.injEq, Prod.mk.injEq] at hk
    obtain ⟨rfl, rfl⟩ := hk
    exact ⟨h, hpos⟩
  | succ k ih =>
    rw [timeouts_succ] at hk
    cases hp : timeouts env k lookup g with
    | error e => rw [hp] at hk; simp at hk
    | ok r =>
      obtain ⟨lookup2, g2⟩ := r
      rw [hp] at hk
      simp only at hk
      obtain ⟨hr, hp2⟩ := ih _ _ hp
      obtain ⟨a, b, -⟩ := connect_timeout_step env lookup2 lookup1 g2 g1 hr hp2 hk
      exact ⟨a, b⟩

/-- C26. For a lookup over UDP whose `retries` is n >= 1, with its timer
and a socket for each query, while the library calls succeed and the lookup
is the current one: each of the first n - 1 calls of `connect_timeout` lowers
`retries` by one, sets the timer again and sends the request once more to
every server, and nothing else; the n-th call writes the line about the
timeout and cancels the lookup, after which `retries` is 0 and `pending` is
false; and from one timeout to the next `retries` never goes up. -/
theorem connect_timeout_retries (env : Env) (lookup : dig_lookup) (g : Globals) (n : Nat)
    (h : TimeoutRuns env lookup g) (hn : 1 ≤ n) (hretries : lookup.retries = (n : Int)) :
    (∀ k, k < n →
        ∃ err, timeouts env k lookup g
          = Except.ok
              ({ lookup with retries := ((n - k : Nat) : Int) },
                { g with
                    stderr := err,
                    calls := g.calls ++ (List.replicate k (resend_calls lookup)).flatten,
                    sendcount := g.sendcount + ((k * lookup.q.length : Nat) : Int) }))
      ∧ (∃ err, timeouts env n lookup g
          = Except.ok
              ({ lookup with pending := false, retries := 0 },
                { g with
                    stderr := err,
                    stdout := g.stdout
                      ++ [";; connection timed out; no servers could be reached\n"],
                    calls := g.calls ++ (List.replicate (n - 1) (resend_calls lookup)).flatten
                      ++ lookup.q.map (fun q => Call.isc_socket_cancel q.servname),
                    sendcount := g.sendcount + (((n - 1) * lookup.q.length : Nat) : Int) }))
      ∧ (∀ (k : Nat) (lookup1 lookup2 : dig_lookup) (g1 g2 : Globals),
          timeouts env k lookup g = Except.ok (lookup1, g1) →
          timeouts env (k + 1) lookup g = Except.ok (lookup2, g2) →
          lookup2.retries ≤ lookup1.retries) := by
  refine ⟨?_, ?_, ?_⟩
  · intro k hk
    exact timeouts_resend env k lookup g (n - k) h (by omega)
      (by rw [hretries]; congr 1; omega)
  · obtain ⟨m, rfl⟩ : ∃ m, n = m + 1 := ⟨n - 1, by omega⟩
    simpa using timeouts_cancel env m lookup g h hretries
  · intro k lookup1 lookup2 g1 g2 h1 h2
    rw [timeouts_succ, h1] at h2
    simp only at h2
    obtain ⟨hr, hp⟩ := timeouts_runs env k lookup lookup1 g g1 h (by rw [hretries]; omega) h1
    exact (connect_timeout_step env lookup1 lookup2 g1 g2 hr hp h2).2.2

/-- C26 on the sample lookup, whose `retries` is 2: the first timeout sends
the request again, the second one cancels the lookup. -/
theorem connect_timeout_retries_witness :
    (∃ err, timeouts plainEnv 1 busyLookup busyState
        = Except.ok
            ({ busyLookup with retries := 1 },
              { busyState with
                  stderr := err,
                  calls := [Call.isc_timer_reset, Call.isc_socket_sendtov "192.0.2.1".toList],
                  sendcount := 1 }))
      ∧ (∃ err, timeouts plainEnv 2 busyLookup busyState
          = Except.ok
              ({ busyLookup with pending := false, retries := 0 },
                { busyState with
                    stderr := err,
                    stdout := [";; connection timed out; no servers could be reached\n"],
                    calls := [Call.isc_timer_reset, Call.isc_socket_sendtov "192.0.2.1".toList,
                      Call.isc_socket_cancel "192.0.2.1".toList],
                    sendcount := 1 })) :=
  ⟨(connect_timeout_retries plainEnv busyLookup busyState 2
      ⟨rfl, rfl, rfl, rfl, rfl, rfl, rfl, rfl, rfl, by decide⟩ (by decide) rfl).1 1 (by decide),
    (connect_timeout_retries plainEnv busyLookup busyState 2
      ⟨rfl, rfl, rfl, rfl, rfl, rfl, rfl, rfl, rfl, by decide⟩ (by decide) rfl).2.1⟩

/-! ## Properties of the retry over TCP -/

theorem clone_server_list_loop_eq (env : Env) (src dest : List dig_server) (g : Globals) :
    ∃ err, clone_server_list_loop env src dest g
      = (dest ++ src.map (fun s => ({ servername := s.servername.take env.MXNAME } : dig_server)),
          { g with stderr := err }) := by
  induction src generalizing dest g with
  | nil => exact ⟨g.stderr, by simp [clone_server_list_loop]⟩
  | cons s rest ih =>
    unfold clone_server_list_loop make_server
    simp only [debug_def, strncpy]
    obtain ⟨err, h⟩ := ih (dest ++ [{ servername := s.servername.take env.MXNAME }])
      { g with stderr := debug_err ("make_server(" ++ String.mk s.servername ++ ")") g }
    refine ⟨err, ?_⟩
    rw [h]
    simp

theorem clone_lookup_eq (env : Env) (lookold : dig_lookup) (g : Globals)
    (hfree : g.free_now = false) :
    ∃ err, clone_lookup env lookold true g
      = Except.ok (clone_expected env g.tries lookold, { g with stderr := err }) := by
  unfold clone_lookup make_empty_lookup clone_server_list
  simp only [debug_def]
  rw [if_neg (by simp [hfree]), if_neg (by simp [hfree])]
  simp only [if_true]
  obtain ⟨err, h⟩ := clone_server_list_loop_eq env lookold.my_server_list []
    { g with
        stderr := debug_err "clone_server_list()"
          { g with
              stderr := debug_err "make_lookup()"
                { g with stderr := debug_err "clone_lookup()" g } } }
  rw [h]
  exact ⟨err, rfl⟩

theorem requeue_lookup_eq (env : Env) (lookold : dig_lookup) (g : Globals)
    (hfree : g.free_now = false) (hlimit : g.lookup_counter + 1 ≤ env.LOOKUP_LIMIT) :
    ∃ err, requeue_lookup env lookold true g
      = Except.ok
          (clone_expected env g.tries lookold,
            { g with
                stderr := err,
                lookup_counter := g.lookup_counter + 1,
                lookup_list := clone_expected env g.tries lookold :: g.lookup_list }) := by
  unfold requeue_lookup
  simp only [debug_def]
  rw [if_neg (by simp only [gt_iff_lt]; omega)]
  obtain ⟨err, h⟩ := clone_lookup_eq env lookold
    { g with
        stderr := debug_err "requeue_lookup()" g,
        lookup_counter := g.lookup_counter + 1 } hfree
  rw [h]
  exact ⟨_, rfl⟩

theorem clear_query_eq (lookup : dig_lookup) (i : Nat) (g : Globals) (hi : i < lookup.q.length) :
    ∃ err sc c, clear_query lookup i g
      = Except.ok
          ({ lookup with q := lookup.q.eraseIdx i },
            { g with stderr := err, sockcount := sc, calls := c }) := by
  unfold clear_query
  rw [List.get?_eq_get hi]
  simp only [debug_def]
  split
  · exact ⟨_, _, _, rfl⟩
  · exact ⟨_, g.sockcount, _, rfl⟩

theorem foldl_frame (f : Globals → dig_server → Globals)
    (hf : ∀ (g : Globals) (s : dig_server),
      ∃ err c, f g s = { g with stderr := err, calls := c })
    (servers : List dig_server) (g1 : Globals) :
    ∃ err c, servers.foldl f g1 = { g1 with stderr := err, calls := c } := by
  induction servers generalizing g1 with
  | nil => exact ⟨g1.stderr, g1.calls, rfl⟩
  | cons s rest ih =>
    obtain ⟨e, c, hs⟩ := hf g1 s
    rw [List.foldl_cons, hs]
    obtain ⟨e2, c2, h⟩ := ih { g1 with stderr := e, calls := c }
    exact ⟨e2, c2, by rw [h]⟩

theorem try_clear_lookup_free_eq (lookup : dig_lookup) (g : Globals) :
    ∃ err c, try_clear_lookup_free lookup g = { g with stderr := err, calls := c } := by
  have hfold := foldl_frame
    (fun (g : Globals) (s : dig_server) =>
      let g := debug "freeing server %p belonging to %p" g
      { g with calls := g.calls ++ [Call.free_server s.servername] })
    (fun g s => ⟨debug_err "freeing server %p belonging to %p" g,
      g.calls ++ [Call.free_server s.servername], by simp only [debug_def]⟩)
  unfold try_clear_lookup_free
  obtain ⟨err, c, h⟩ := hfold lookup.my_server_list (debug "cleared" g)
  simp only [h]
  simp only [debug_def]
  split <;> split <;> split <;> split <;> exact ⟨_, _, rfl⟩

theorem try_clear_lookup_free_frame (lookup : dig_lookup) (g X : Globals)
    (h : try_clear_lookup_free lookup g = X) :
    ∃ err c, X = { g with stderr := err, calls := c } := by
  subst h
  exact try_clear_lookup_free_eq lookup g

theorem start_unlock_eq (env : Env) (r : Except Exit (dig_lookup × Globals)) :
    (match
        (match
          (match r with
            | Except.error e => Except.error e
            | Except.ok (lookup1, g2) =>
              (Except.ok { g2 with current_lookup := some lookup1 } : Except Exit Globals)) with
          | Except.error e => Except.error e
          | Except.ok g3 =>
            (Except.ok ((none : Option dig_lookup), g3) : Except Exit (Option dig_lookup × Globals))) with
      | Except.error e => Except.error e
      | Except.ok (l3, g5) =>
        match UNLOCK_LOOKUP env g5 with
        | Except.error e => Except.error e
        | Except.ok g6 => (Except.ok (l3, g6) : Except Exit (Option dig_lookup × Globals)))
      = match r with
        | Except.error e => Except.error e
        | Except.ok (cur, g2) =>
          match UNLOCK_LOOKUP env { g2 with current_lookup := some cur } with
          | Except.error e => Except.error e
          | Except.ok g3 => Except.ok (none, g3) := by
  cases r with
  | error e => rfl
  | ok p => cases p; rfl

theorem clone_expected_servers (env : Env) (tries : Int) (lookold : dig_lookup)
    (h : ∀ s ∈ lookold.my_server_list, s.servername.length < env.MXNAME) :
    (clone_expected env tries lookold).my_server_list = lookold.my_server_list := by
  unfold clone_expected
  simp only
  conv_rhs => rw [← List.map_id lookold.my_server_list]
  apply List.map_congr_left
  intro s hs
  have := h s hs
  cases s
  simp only [id_eq, dig_server.mk.injEq]
  exact List.take_of_length_le (by simp only at this; omega)

/-- C25. When the branch of `recv_done` for a truncated reply runs, for a
lookup that is not in TCP mode and does not ignore truncation:
`requeue_lookup` puts at the head of `lookup_list` the lookup
`clone_expected`, which has the `textname`, `rdtype`, `rdclass` and flags of
the original and a server list with the same names in the same order;
`recv_done` sets `tcp_mode` in it; and at the end of the branch the new lookup
either is the head of `lookup_list`, when the old lookup has other queries
under way, or has been made current and handed to `setup_lookup` and
`do_lookup`, when the reply came from the last query of the old lookup. -/
theorem recv_done_truncated_requeues (env : Env) (flags : Nat) (l : dig_lookup) (i : Nat)
    (g : Globals) (h : TruncatedRuns env flags l i g) :
    (∃ err, requeue_lookup env l true g
        = Except.ok
            (clone_expected env g.tries l,
              { g with
                  stderr := err,
                  lookup_counter := g.lookup_counter + 1,
                  lookup_list := clone_expected env g.tries l :: g.lookup_list }))
      ∧ ((clone_expected env g.tries l).textname = l.textname
        ∧ (clone_expected env g.tries l).rdtype = l.rdtype
        ∧ (clone_expected env g.tries l).rdclass = l.rdclass
        ∧ (clone_expected env g.tries l).my_server_list = l.my_server_list
        ∧ (clone_expected env g.tries l).tcp_mode = false
        ∧ (clone_expected env g.tries l).ignore = false
        ∧ { clone_expected env g.tries l with tcp_mode := true }
          = { l with
                tcp_mode := true, pending := true, sendspace := false, sendmsg := false,
                name := false, oname := false, timer := false, xfr_q := false, origin := false,
                querysig := false, retries := g.tries, nsfound := 0, nibble := false,
                new_search := false, q := [] })
      ∧ (l.q.eraseIdx i ≠ [] →
          ∃ g1, recv_done_truncated env l i g
              = Except.ok
                  (some { l with q := l.q.eraseIdx i, pending := false, retries := 0 }, g1)
            ∧ g1.lookup_list
              = { clone_expected env g.tries l with tcp_mode := true } :: g.lookup_list)
      ∧ (l.q.eraseIdx i = [] →
          ∃ g1, g1.lookup_list = g.lookup_list
            ∧ g1.current_lookup = some { clone_expected env g.tries l with tcp_mode := true }
            ∧ recv_done_truncated env l i g
              = match env.setup_and_do_lookup
                  { clone_expected env g.tries l with tcp_mode := true } g1 with
                | Except.error e => Except.error e
                | Except.ok (cur, g2) =>
                  match UNLOCK_LOOKUP env { g2 with current_lookup := some cur } with
                  | Except.error e => Except.error e
                  | Except.ok g3 => Except.ok (none, g3)) := by
  have htest := h.test
  simp only [recv_done_truncated_test, Bool.and_eq_true, Bool.not_eq_true'] at htest
  obtain ⟨⟨-, hignore⟩, htcp⟩ := htest
  have htext : (clone_expected env g.tries l).textname = l.textname :=
    List.take_of_length_le (Nat.le_of_lt h.textname)
  have hserv := clone_expected_servers env g.tries l h.servers
  obtain ⟨err0, h0⟩ := requeue_lookup_eq env l
    { g with stdout := g.stdout ++ [";; Truncated, retrying in TCP mode.\n"] } h.free h.limit
  refine ⟨requeue_lookup_eq env l g h.free h.limit,
    ⟨htext, rfl, rfl, hserv, htcp, hignore, ?_⟩, ?_, ?_⟩
  · have e1 : clone_expected env g.tries l
        = { clone_expected env g.tries l with
              textname := (clone_expected env g.tries l).textname,
              my_server_list := (clone_expected env g.tries l).my_server_list } := rfl
    rw [e1, htext, hserv]
    rfl
  · intro hrest
    unfold recv_done_truncated
    rw [h0]
    simp only [List.modifyHead_cons]
    obtain ⟨err1, sc1, c1, h1⟩ := clear_query_eq l i
      { g with
          stderr := err0,
          stdout := g.stdout ++ [";; Truncated, retrying in TCP mode.\n"],
          lookup_counter := g.lookup_counter + 1,
          lookup_list := { clone_expected env g.tries l with tcp_mode := true } :: g.lookup_list }
      h.query
    rw [h1]
    simp only
    obtain ⟨err2, h2⟩ := cancel_lookup_busy env { l with q := l.q.eraseIdx i }
      { g with
          stderr := err1, sockcount := sc1, calls := c1,
          stdout := g.stdout ++ [";; Truncated, retrying in TCP mode.\n"],
          lookup_counter := g.lookup_counter + 1,
          lookup_list := { clone_expected env g.tries l with tcp_mode := true } :: g.lookup_list }
      rfl
    rw [h2]
    simp only
    unfold check_next_lookup
    simp only [debug_def]
    rw [if_neg (by simp [h.free]), if_pos (by simpa using hrest)]
    simp only
    rw [UNLOCK_LOOKUP_ok env _ h.unlock]
    exact ⟨_, rfl, rfl⟩
  · intro hrest
    unfold recv_done_truncated
    rw [h0]
    simp only [List.modifyHead_cons]
    obtain ⟨err1, sc1, c1, h1⟩ := clear_query_eq l i
      { g with
          stderr := err0,
          stdout := g.stdout ++ [";; Truncated, retrying in TCP mode.\n"],
          lookup_counter := g.lookup_counter + 1,
          lookup_list := { clone_expected env g.tries l with tcp_mode := true } :: g.lookup_list }
      h.query
    rw [h1]
    simp only
    obtain ⟨err2, h2⟩ := cancel_lookup_busy env { l with q := l.q.eraseIdx i }
      { g with
          stderr := err1, sockcount := sc1, calls := c1,
          stdout := g.stdout ++ [";; Truncated, retrying in TCP mode.\n"],
          lookup_counter := g.lookup_counter + 1,
          lookup_list := { clone_expected env g.tries l with tcp_mode := true } :: g.lookup_list }
      rfl
    rw [h2]
    simp only
    unfold check_next_lookup try_clear_lookup
    simp only [debug_def]
    rw [if_neg (by simp [h.free]), if_neg (by simp [hrest]), if_neg (by simp [hrest])]
    generalize hX : try_clear_lookup_free _ _ = X
    obtain ⟨err3, c3, h3⟩ := try_clear_lookup_free_frame _ _ _ hX
    subst h3
    unfold start_lookup
    simp only [debug_def]
    rw [if_neg (by simp [h.cancel]), if_neg (by simp)]
    refine ⟨_, ?_, ?_, start_unlock_eq env _⟩ <;> rfl

/-- C25 on the sample lookup with two servers, when the reply to the first
query is truncated: the lookup keeps its second query and stays, and the new
lookup, in TCP mode and with both servers, is the head of `lookup_list`. -/
theorem recv_done_truncated_requeues_witness :
    ∃ g1, recv_done_truncated plainEnv twoServerLookup 0 busyState
        = Except.ok
            (some { twoServerLookup with
                      q := [{ freshQuery with servname := "192.0.2.2".toList }],
                      pending := false, retries := 0 }, g1)
      ∧ g1.lookup_list
        = [{ emptyLookup with
               textname := "example.com".toList, tcp_mode := true, retries := 2,
               my_server_list := [⟨"192.0.2.1".toList⟩, ⟨"192.0.2.2".toList⟩] }] :=
  (recv_done_truncated_requeues plainEnv 0x0200 twoServerLookup 0 busyState
    ⟨by decide, rfl, rfl, rfl, by decide, by decide, by decide, by decide⟩).2.2.1 (by decide)

/-! ## Properties of `try_clear_lookup` -/

/-- C30 does not hold for an opening SOA whose serial is not above
`ixfr_serial`, which `make_empty_lookup` sets to 0 and an AXFR never changes:
for the sample AXFR, a first message that holds only the opening SOA with
serial 0 makes `check_for_more_data` go to `doexit` and return true, so the
transfer is taken as complete and no more data is asked for.  With the serial
2024 the same message makes it return false after a new receive on the
socket, and a message with the opening SOA, an address record and the closing
SOA makes it return true at the second SOA. -/
theorem check_for_more_data_opening_soa_ends_axfr :
    make_empty_lookup Globals.init = Except.ok (emptyLookup, Globals.init)
      ∧ axfrLookup.ixfr_serial = emptyLookup.ixfr_serial
      ∧ check_for_more_data plainEnv axfrLookup 0 [[[soaRecord 0]]] busyState
        = Except.ok
            (true,
              some { axfrLookup with
                q := [{ freshQuery with
                  rr_count := 1, first_soa_rcvd := true, first_rr_serial := 0 }] },
              { busyState with calls := [Call.received] })
      ∧ check_for_more_data plainEnv axfrLookup 0 [[[soaRecord 2024]]] busyState
        = Except.ok
            (false,
              some { axfrLookup with
                q := [{ freshQuery with
                  rr_count := 1, name_count := 1, first_soa_rcvd := true,
                  first_rr_serial := 2024 }] },
              { busyState with
                  calls := [Call.isc_socket_recvv "192.0.2.1".toList], recvcount := 1 })
      ∧ check_for_more_data plainEnv axfrLookup 0
          [[[soaRecord 2024]], [[⟨dns_rdatatype_a, 0⟩]], [[soaRecord 2024]]] busyState
        = Except.ok
            (true,
              some { axfrLookup with
                q := [{ freshQuery with
                  rr_count := 4, name_count := 2, first_soa_rcvd := true,
                  first_rr_serial := 2024, second_rr_rcvd := true }] },
              { busyState with calls := [Call.received] }) := by
  decide

end Dighost
